import Mathlib

/-!
Verification of the SIDM2conv repository.

Part 1 (Core B, `src/tools/sf2pack/`): shallow embedding of the 6502 opcode
table (`opcodes.cpp`), the 64 KiB memory container (`c64memory.cpp`) and the
relocating packer (`packer_simple.cpp`).  C `unsigned short` / `unsigned char`
arithmetic is modelled on `Nat` with explicit `% 0x10000` / `% 256` at the
points where the C types truncate.  The relocation loop of
`ProcessDriverCode` is modelled with explicit fuel, since with 16-bit
wrap-around the C loop is not obviously terminating; `driver_code_size` steps
of fuel are enough in the non-wrapping case, which the theorems establish.
-/

set_option maxHeartbeats 1000000
set_option maxRecDepth 100000

namespace SF2Pack

/-- Addressing modes, from `opcodes.h` (`enum AddressingMode`). -/
inductive AddressingMode where
  | am_IMP
  | am_IMM
  | am_ZP
  | am_ZPX
  | am_ZPY
  | am_IZX
  | am_IZY
  | am_ABS
  | am_ABX
  | am_ABY
  | am_IND
  | am_REL
  deriving DecidableEq, Repr, Fintype

open AddressingMode

/-- The 256-entry 6502 instruction matrix of `opcodes.cpp` (`opcode_table`),
row for row; each entry is `(size, addressing_mode)`. -/
def opcode_table : List (Nat × AddressingMode) := [
  (1, am_IMP), (2, am_IZX), (1, am_IMP), (1, am_IMP), (1, am_IMP), (2, am_ZP ), (2, am_ZP ), (1, am_IMP),
  (1, am_IMP), (2, am_IMM), (1, am_IMP), (1, am_IMP), (1, am_IMP), (3, am_ABS), (3, am_ABS), (1, am_IMP),
  (2, am_REL), (2, am_IZY), (1, am_IMP), (1, am_IMP), (1, am_IMP), (2, am_ZPX), (2, am_ZPX), (1, am_IMP),
  (1, am_IMP), (3, am_ABY), (1, am_IMP), (1, am_IMP), (1, am_IMP), (3, am_ABX), (3, am_ABX), (1, am_IMP),
  (3, am_ABS), (2, am_IZX), (1, am_IMP), (1, am_IMP), (2, am_ZP ), (2, am_ZP ), (2, am_ZP ), (1, am_IMP),
  (1, am_IMP), (2, am_IMM), (1, am_IMP), (1, am_IMP), (3, am_ABS), (3, am_ABS), (3, am_ABS), (1, am_IMP),
  (2, am_REL), (2, am_IZY), (1, am_IMP), (1, am_IMP), (1, am_IMP), (2, am_ZPX), (2, am_ZPX), (1, am_IMP),
  (1, am_IMP), (3, am_ABY), (1, am_IMP), (1, am_IMP), (1, am_IMP), (3, am_ABX), (3, am_ABX), (1, am_IMP),
  (1, am_IMP), (2, am_IZX), (1, am_IMP), (1, am_IMP), (1, am_IMP), (2, am_ZP ), (2, am_ZP ), (1, am_IMP),
  (1, am_IMP), (2, am_IMM), (1, am_IMP), (1, am_IMP), (3, am_ABS), (3, am_ABS), (3, am_ABS), (1, am_IMP),
  (2, am_REL), (2, am_IZY), (1, am_IMP), (1, am_IMP), (1, am_IMP), (2, am_ZPX), (2, am_ZPX), (1, am_IMP),
  (1, am_IMP), (3, am_ABY), (1, am_IMP), (1, am_IMP), (1, am_IMP), (3, am_ABX), (3, am_ABX), (1, am_IMP),
  (1, am_IMP), (2, am_IZX), (1, am_IMP), (1, am_IMP), (1, am_IMP), (2, am_ZP ), (2, am_ZP ), (1, am_IMP),
  (1, am_IMP), (2, am_IMM), (1, am_IMP), (1, am_IMP), (3, am_IND), (3, am_ABS), (3, am_ABS), (1, am_IMP),
  (2, am_REL), (2, am_IZY), (1, am_IMP), (1, am_IMP), (1, am_IMP), (2, am_ZPX), (2, am_ZPX), (1, am_IMP),
  (1, am_IMP), (3, am_ABY), (1, am_IMP), (1, am_IMP), (1, am_IMP), (3, am_ABX), (3, am_ABX), (1, am_IMP),
  (1, am_IMP), (2, am_IZX), (1, am_IMP), (1, am_IMP), (2, am_ZP ), (2, am_ZP ), (2, am_ZP ), (1, am_IMP),
  (1, am_IMP), (1, am_IMP), (1, am_IMP), (1, am_IMP), (3, am_ABS), (3, am_ABS), (3, am_ABS), (1, am_IMP),
  (2, am_REL), (2, am_IZY), (1, am_IMP), (1, am_IMP), (2, am_ZPX), (2, am_ZPX), (2, am_ZPY), (1, am_IMP),
  (1, am_IMP), (3, am_ABY), (1, am_IMP), (1, am_IMP), (1, am_IMP), (3, am_ABX), (1, am_IMP), (1, am_IMP),
  (2, am_IMM), (2, am_IZX), (2, am_IMM), (1, am_IMP), (2, am_ZP ), (2, am_ZP ), (2, am_ZP ), (1, am_IMP),
  (1, am_IMP), (2, am_IMM), (1, am_IMP), (1, am_IMP), (3, am_ABS), (3, am_ABS), (3, am_ABS), (1, am_IMP),
  (2, am_REL), (2, am_IZY), (1, am_IMP), (1, am_IMP), (2, am_ZPX), (2, am_ZPX), (2, am_ZPY), (1, am_IMP),
  (1, am_IMP), (3, am_ABY), (1, am_IMP), (1, am_IMP), (3, am_ABX), (3, am_ABX), (3, am_ABY), (1, am_IMP),
  (2, am_IMM), (2, am_IZX), (1, am_IMP), (1, am_IMP), (2, am_ZP ), (2, am_ZP ), (2, am_ZP ), (1, am_IMP),
  (1, am_IMP), (2, am_IMM), (1, am_IMP), (1, am_IMP), (3, am_ABS), (3, am_ABS), (3, am_ABS), (1, am_IMP),
  (2, am_REL), (2, am_IZY), (1, am_IMP), (1, am_IMP), (1, am_IMP), (2, am_ZPX), (2, am_ZPX), (1, am_IMP),
  (1, am_IMP), (3, am_ABY), (1, am_IMP), (1, am_IMP), (1, am_IMP), (3, am_ABX), (3, am_ABX), (1, am_IMP),
  (2, am_IMM), (2, am_IZX), (1, am_IMP), (1, am_IMP), (2, am_ZP ), (2, am_ZP ), (2, am_ZP ), (1, am_IMP),
  (1, am_IMP), (2, am_IMM), (1, am_IMP), (1, am_IMP), (3, am_ABS), (3, am_ABS), (3, am_ABS), (1, am_IMP),
  (2, am_REL), (2, am_IZY), (1, am_IMP), (1, am_IMP), (1, am_IMP), (2, am_ZPX), (2, am_ZPX), (1, am_IMP),
  (1, am_IMP), (3, am_ABY), (1, am_IMP), (1, am_IMP), (1, am_IMP), (3, am_ABX), (3, am_ABX), (1, am_IMP)]

/-- `GetOpcodeSize` of `opcodes.cpp`; the argument is an `unsigned char`,
hence the `% 256`. -/
def GetOpcodeSize (opcode : Nat) : Nat :=
  (opcode_table.getD (opcode % 256) (1, am_IMP)).1

/-- `GetOpcodeAddressingMode` of `opcodes.cpp`. -/
def GetOpcodeAddressingMode (opcode : Nat) : AddressingMode :=
  (opcode_table.getD (opcode % 256) (1, am_IMP)).2

/-- `RequiresRelocation` of `opcodes.cpp`. -/
def RequiresRelocation (mode : AddressingMode) : Bool :=
  mode = am_ABS || mode = am_ABX || mode = am_ABY || mode = am_IND

/-- `RequiresZeroPageAdjustment` of `opcodes.cpp`. -/
def RequiresZeroPageAdjustment (mode : AddressingMode) : Bool :=
  mode = am_ZP || mode = am_ZPX || mode = am_ZPY || mode = am_IZX || mode = am_IZY

/-- The 64 KiB memory container of `c64memory.cpp` (`C64Memory`); the byte at
address `a` is `m a` for `a < 0x10000`.  Bytes are `unsigned char`: the
accessors truncate with `% 256`, addresses with `% 0x10000` (the C accessors
take `unsigned short` parameters). -/
def Mem : Type := Nat → Nat

/-- Read a byte (`C64Memory::operator[] const` / `GetByte`). -/
def Mem.get (m : Mem) (address : Nat) : Nat := m (address % 0x10000) % 256

/-- Write a byte (`C64Memory::operator[]` as lvalue / `SetByte`). -/
def Mem.set (m : Mem) (address v : Nat) : Mem :=
  fun x => if x = address % 0x10000 then v % 256 else m x

/-- `C64Memory::GetByte`. -/
def Mem.GetByte (m : Mem) (address : Nat) : Nat := m.get address

/-- `C64Memory::GetWord`: little-endian word read,
`data_[address] | data_[address+1] << 8`. -/
def Mem.GetWord (m : Mem) (address : Nat) : Nat :=
  m.get address + m.get (address + 1) * 256

/-- `C64Memory::SetByte`. -/
def Mem.SetByte (m : Mem) (address v : Nat) : Mem := m.set address v

/-- `C64Memory::SetWord`: little-endian word write of the `unsigned short`
value `v`: `data_[address] = v & 0xFF; data_[address+1] = (v >> 8) & 0xFF`. -/
def Mem.SetWord (m : Mem) (address v : Nat) : Mem :=
  (m.set address (v % 0x10000 % 256)).set (address + 1) (v % 0x10000 / 256)

/-- `C64Memory::ExportToPRG`: emits the 2-byte little-endian load address
followed by the bytes of `[top_address, bottom_address)`; throws when
`top_address >= bottom_address`. -/
def ExportToPRG (m : Mem) (top_address bottom_address : Nat) : Except String (List Nat) :=
  if top_address % 0x10000 ≥ bottom_address % 0x10000 then
    Except.error "Invalid address range for PRG export"
  else
    let data_size := bottom_address % 0x10000 - top_address % 0x10000
    Except.ok ([top_address % 0x10000 % 256, top_address % 0x10000 / 256 % 256] ++
      (List.range data_size).map (fun i => m.get (top_address % 0x10000 + i)))

/-- `C64Memory::LoadFromPRG`: bytes 0-1 are the little-endian load address,
the rest is copied there; fails when the PRG is shorter than 3 bytes or the
data does not fit below `0x10000`.  The `prg_data` bytes are `unsigned char`,
hence the `% 256` on the reads. -/
def LoadFromPRG (m : Mem) (prg_data : List Nat) : Option Mem :=
  if prg_data.length < 3 then none
  else
    let load_address := prg_data.getD 0 0 % 256 + prg_data.getD 1 0 % 256 * 256
    let data_size := prg_data.length - 2
    if load_address + data_size > 0x10000 then none
    else
      some (fun x =>
        if load_address ≤ x ∧ x < load_address + data_size then
          prg_data.getD (x - load_address + 2) 0 % 256
        else m x)

/-- `DriverConfig` of `packer_simple.h`.  Fields are C `unsigned short`
(resp. `unsigned char` for the zero-page bases); the theorems carry the
corresponding range hypotheses. -/
structure DriverConfig where
  driver_code_top : Nat
  driver_code_size : Nat
  current_lowest_zp : Nat
  target_lowest_zp : Nat
  destination_address : Nat

/-- `PackerSimple::GetAddressDelta`: `destination_address - driver_code_top`
as a 16-bit `unsigned short` difference. -/
def GetAddressDelta (cfg : DriverConfig) : Nat :=
  (0x10000 + cfg.destination_address % 0x10000 - cfg.driver_code_top % 0x10000) % 0x10000

/-- The ABS/ABX/ABY/IND relocation of one operand, as inlined in
`PackerSimple::ProcessDriverCode` (and duplicated in
`PackerSimple::RelocateVector`): `$D000-$DFFF` is kept, everything else is
shifted by the address delta (16-bit arithmetic). -/
def RelocateVector (cfg : DriverConfig) (vector : Nat) : Nat :=
  if 0xD000 ≤ vector ∧ vector ≤ 0xDFFF then vector
  else (vector + GetAddressDelta cfg) % 0x10000

/-- The ZP/ZPX/ZPY/IZX/IZY rebase of one operand byte from
`PackerSimple::ProcessDriverCode`:
`zp_offset = zp - current_lowest_zp` and
`zp_relocated = target_lowest_zp + zp_offset`, both in `unsigned char`
(mod-256) arithmetic. -/
def ZpRelocate (cfg : DriverConfig) (zp : Nat) : Nat :=
  (cfg.target_lowest_zp % 256 + (256 + zp % 256 - cfg.current_lowest_zp % 256) % 256) % 256

/-- The `RequiresRelocation` block of the loop body of
`PackerSimple::ProcessDriverCode` (patching the 16-bit operand, or throwing
when the table size is not 3). -/
def absPhase (cfg : DriverConfig) (mem : Mem) (address : Nat)
    (opcode_size : Nat) (mode : AddressingMode) : Except String Mem :=
  if RequiresRelocation mode then
    if opcode_size ≠ 3 then
      Except.error "Expected 3-byte instruction for absolute addressing"
    else
      let vector := mem.GetWord (address + 1)
      let relocated_vector := RelocateVector cfg vector
      if vector ≠ relocated_vector then
        Except.ok (mem.SetWord (address + 1) relocated_vector)
      else
        Except.ok mem
  else Except.ok mem

/-- The `RequiresZeroPageAdjustment` block of the loop body of
`PackerSimple::ProcessDriverCode` (patching the one-byte operand, or
throwing when the table size is not 2). -/
def zpPhase (cfg : DriverConfig) (mem : Mem) (address : Nat)
    (opcode_size : Nat) (mode : AddressingMode) : Except String Mem :=
  if RequiresZeroPageAdjustment mode then
    if opcode_size ≠ 2 then
      Except.error "Expected 2-byte instruction for zero page addressing"
    else
      Except.ok (mem.SetByte (address + 1) (ZpRelocate cfg (mem.GetByte (address + 1))))
  else Except.ok mem

/-- One iteration of the `while (address < driver_bottom)` loop of
`PackerSimple::ProcessDriverCode`: reads the opcode, runs both patch blocks,
and advances `address += opcode_size` in 16-bit arithmetic.  Returns the new
memory and the next address. -/
def processStep (cfg : DriverConfig) (mem : Mem) (address : Nat) :
    Except String (Mem × Nat) :=
  let opcode := mem.get address
  let opcode_size := GetOpcodeSize opcode
  let mode := GetOpcodeAddressingMode opcode
  match absPhase cfg mem address opcode_size mode with
  | Except.error e => Except.error e
  | Except.ok mem1 =>
    match zpPhase cfg mem1 address opcode_size mode with
    | Except.error e => Except.error e
    | Except.ok mem2 => Except.ok (mem2, (address + opcode_size) % 0x10000)

/-- Outcome of the relocation walk.  `done` records the final memory, the
final value of `address`, and the trace of `(address, opcode)` pairs visited;
`malformed` is a thrown `runtime_error`; `spin` reports fuel exhaustion with
the loop condition still true (only reachable through 16-bit wrap-around). -/
inductive WalkOut where
  | done (mem : Mem) (address : Nat) (trace : List (Nat × Nat))
  | malformed (msg : String)
  | spin (mem : Mem) (address : Nat) (trace : List (Nat × Nat))

/-- The final `address` of a completed walk, `none` otherwise. -/
def WalkOut.finalAddr : WalkOut → Option Nat
  | WalkOut.done _ a _ => some a
  | _ => none

/-- Whether the walk threw `runtime_error`. -/
def WalkOut.isMalformed : WalkOut → Bool
  | WalkOut.malformed _ => true
  | _ => false

/-- Record one visited `(address, opcode)` pair in front of a walk
outcome's trace. -/
def WalkOut.consTrace (e : Nat × Nat) : WalkOut → WalkOut
  | WalkOut.done m a tr => WalkOut.done m a (e :: tr)
  | WalkOut.spin m a tr => WalkOut.spin m a (e :: tr)
  | WalkOut.malformed msg => WalkOut.malformed msg

/-- The `while (address < driver_bottom)` loop of
`PackerSimple::ProcessDriverCode`, with explicit fuel. -/
def walkAux (cfg : DriverConfig) (driver_bottom : Nat) :
    Nat → Mem → Nat → WalkOut
  | 0, mem, address =>
    if address < driver_bottom then WalkOut.spin mem address []
    else WalkOut.done mem address []
  | fuel + 1, mem, address =>
    if address < driver_bottom then
      match processStep cfg mem address with
      | Except.error e => WalkOut.malformed e
      | Except.ok (mem1, next) =>
        (walkAux cfg driver_bottom fuel mem1 next).consTrace (address, mem.get address)
    else WalkOut.done mem address []

/-- `PackerSimple::ProcessDriverCode`: walk `[driver_code_top,
driver_code_top + driver_code_size)`, where `driver_bottom` is the 16-bit sum
`driver_code_top + driver_code_size`.  `driver_code_size` steps of fuel are
provided; they suffice whenever no 16-bit wrap occurs. -/
def ProcessDriverCode (cfg : DriverConfig) (mem : Mem) : WalkOut :=
  walkAux cfg ((cfg.driver_code_top + cfg.driver_code_size) % 0x10000)
    cfg.driver_code_size mem cfg.driver_code_top

/-- The state visible across a call of `PackerSimple::Pack`: `caller` is the
caller's `const C64Memory&` argument, `work` the local working copy
`memory`.  Every write in the body of `Pack` goes through the local copy;
the split records, statement by statement, which object the source
touches. -/
structure PackState where
  caller : Mem
  work : Mem

/-- The data-end scan of `PackerSimple::Pack` (step 2): extend `data_end` to
one past the last nonzero byte found in `[data_end, 0x3000)`. -/
def findDataEnd (mem : Mem) (data_end : Nat) : Nat :=
  (List.range' data_end (0x3000 - data_end)).foldl
    (fun de addr => if mem.get addr ≠ 0 then addr + 1 else de) data_end

/-- `PackerSimple::Pack`: copy the input into a fresh local memory, relocate
the driver code there, find the data end, move the block to the destination
address (clearing the source range) and export as PRG.  The first component
of the result is the caller's memory object after the call; the arithmetic
follows the C types (`unsigned short` indices, `unsigned int` size). -/
def PackRun (cfg : DriverConfig) (st : PackState) : PackState × Except String (List Nat) :=
  let st1 : PackState := { st with work := fun i => if i < 0x10000 then st.caller.get i else 0 }
  match ProcessDriverCode cfg st1.work with
  | WalkOut.malformed e => (st1, Except.error e)
  | WalkOut.spin _ _ _ => (st1, Except.error "relocation loop did not finish")
  | WalkOut.done wmem _ _ =>
    let data_start := cfg.driver_code_top % 0x10000
    let data_end0 := (cfg.driver_code_top + cfg.driver_code_size) % 0x10000
    let data_end := findDataEnd wmem data_end0
    let data_size := (2 ^ 32 + data_end - data_start) % 2 ^ 32
    let wmem2 :=
      if cfg.destination_address % 0x10000 ≠ cfg.driver_code_top % 0x10000 then
        let moved := (List.range data_size).foldl
          (fun m i => m.set (cfg.destination_address + i)
            (m.get (cfg.driver_code_top + i))) wmem
        (List.range' data_start (data_end - data_start)).foldl
          (fun m addr => m.set addr 0) moved
      else wmem
    ({ st1 with work := wmem2 },
      ExportToPRG wmem2 cfg.destination_address (cfg.destination_address + data_size))

end SF2Pack

/-!
Part 2 (Core A, `src/tools/prg2sid/p2s.c`): shallow embedding of the
fingerprint scanner and PSID writer.  The file-scope variables that `main`
and the check functions exchange are collected in `ScanState`; `p` is the
file image (`p[0]`/`p[1]` are the little-endian load address), modelled as a
total function `Int → Nat` so that the source's pointer arithmetic with
possibly negative offsets can be written down directly.  C `int` scalars are
`Int`; `unsigned char` stores truncate through `u8`.  The 32-bit signature
reads (`*(unsigned int*)(p+k)`) are little-endian 4-byte reads, following
the spec's reading of the endianness-unsafe source.
-/

namespace P2S

/-- The file-scope state of `p2s.c` shared by `main` and the checks. -/
structure ScanState where
  p : Int → Nat
  fsiz : Int
  loadaddr : Int
  initaddr : Int
  playaddr : Int
  ids : String
  extra : Nat
  extrabytes : Nat → Nat
  psidh : Nat → Nat

/-- C `int → unsigned char` conversion (mod 256, nonnegative). -/
def u8 (v : Int) : Nat := (v % 256).toNat

/-- Little-endian 16-bit read `p[k] | p[k+1] << 8`. -/
def rd16 (s : ScanState) (k : Int) : Nat := s.p k + s.p (k + 1) * 256

/-- Little-endian 32-bit read `*(unsigned int*)(p + k)`. -/
def rd32 (s : ScanState) (k : Int) : Nat :=
  s.p k + s.p (k + 1) * 256 + s.p (k + 2) * 65536 + s.p (k + 3) * 16777216

/-- `p[k] = v` (value truncated to a byte). -/
def wr (s : ScanState) (k v : Int) : ScanState :=
  { s with p := fun x => if x = k then u8 v else s.p x }

/-- `memset(p + k, v, n)`. -/
def fill (s : ScanState) (k : Int) (v : Nat) (n : Nat) : ScanState :=
  { s with p := fun x => if k ≤ x ∧ x < k + n then v % 256 else s.p x }

/-- `memmove(p + k, blob, blob.length)` for a constant patch blob. -/
def blit (s : ScanState) (k : Int) (blob : List Nat) : ScanState :=
  { s with p := fun x =>
      if k ≤ x ∧ x < k + blob.length then blob.getD (x - k).toNat 0 % 256 else s.p x }

/-- `extrabytes[k] = v`. -/
def ewr (s : ScanState) (k : Nat) (v : Int) : ScanState :=
  { s with extrabytes := fun x => if x = k then u8 v else s.extrabytes x }

/-- `memmove(extrabytes + k, blob, blob.length)`. -/
def eblit (s : ScanState) (k : Nat) (blob : List Nat) : ScanState :=
  { s with extrabytes := fun x =>
      if k ≤ x ∧ x < k + blob.length then blob.getD (x - k) 0 % 256 else s.extrabytes x }

/-- `psidh[k] = v`. -/
def hwr (s : ScanState) (k : Nat) (v : Int) : ScanState :=
  { s with psidh := fun x => if x = k then u8 v else s.psidh x }

def P_MARKER : Nat := 0x00
def P_SIDVER : Nat := 0x05
def P_INITADDR : Nat := 0x0a
def P_PLAYADDR : Nat := 0x0c
def P_SUBTUNES : Nat := 0x0f
def P_STARTSNG : Nat := 0x11
def P_TIMING : Nat := 0x15
def P_SIDMODEL : Nat := 0x77
def P_FREEPAGE : Nat := 0x78
def P_FREEPMAX : Nat := 0x79
def P_STEREOAD : Nat := 0x7a

/-- The initial 124-byte PSID header `psidh` of `p2s.c`. -/
def psidh_init : List Nat := [
  0x50,0x53,0x49,0x44,0x00,0x02,0x00,0x7C,0x00,0x00,0x10,0x00,0x10,0x03,0x00,0x01,
  0x00,0x01,0x00,0x00,0x00,0x00,0x3C,0x3F,0x3E,0x00,0x00,0x00,0x00,0x00,0x00,0x00,
  0x00,0x00,0x00,0x00,0x00,0x00,0x00,0x00,0x00,0x00,0x00,0x00,0x00,0x00,0x00,0x00,
  0x00,0x00,0x00,0x00,0x00,0x00,0x3C,0x3F,0x3E,0x00,0x00,0x00,0x00,0x00,0x00,0x00,
  0x00,0x00,0x00,0x00,0x00,0x00,0x00,0x00,0x00,0x00,0x00,0x00,0x00,0x00,0x00,0x00,
  0x00,0x00,0x00,0x00,0x00,0x00,0x31,0x39,0x3F,0x3F,0x20,0x3C,0x3F,0x3E,0x00,0x00,
  0x00,0x00,0x00,0x00,0x00,0x00,0x00,0x00,0x00,0x00,0x00,0x00,0x00,0x00,0x00,0x00,
  0x00,0x00,0x00,0x00,0x00,0x00,0x00,0x14,0x00,0x00,0x00,0x00]

def psidh0 : Nat → Nat := fun i => psidh_init.getD i 0

def aPatchSndmon : List Nat := [0xa9,0x01,0x8d,0x0f,0xc0,0xa9,0x00,0x8d,0xc6,0x02,0x60]
def aPatchRckmon : List Nat := [0xa9,0x01,0x8d,0x0f,0xc0,0x4c,0x12,0xc0]
def aPatchPolly1 : List Nat := [0xa9,0x7f,0x8d,0x0d,0xdc,0xad,0x0d,0xdc,0xa0,0x00,0xea]
def aPatchPolly2 : List Nat :=
  [0xa0,0x19,0xb9,0x47,0x0b,0x99,0xff,0xd3,0x88,0xd0,0xf7,0xa9,0x00,0x8d,0x15,0xd0,
   0xea,0xea,0xea,0xea,0xea,0xea]
def aPatchElcSnd : List Nat :=
  [0x48,0x20,0x18,0x00,0x68,0xaa,0x8e,0xab,0x02,0xbd,0x15,0x00,0x8d,0xff,0x02,0xa9,
   0x01,0x8d,0xf9,0x02,0x60,0x0a]
def aPatchUbiksM : List Nat :=
  [0x4C,0x00,0x00,0x4C,0x00,0x00,0x18,0x69,0x80,0x8D,0x00,0x00,0xA2,0x00,0xA9,0x00,
   0x9D,0x00,0xD4,0xE8,0xE0,0x20,0xD0,0xF6,0x60,0xA5,0x01,0x48,0xA9,0x36,0x85,0x01,
   0x20,0x00,0x00,0x68,0x85,0x01,0x60]
def aPatchMastCm : List Nat := [0xA9,0x01,0x8D,0x00,0x00,0xD0,0x21,0xA9,0x00,0xD0,0x31]
def aPatchPolyAn : List Nat :=
  [0x78,0xD8,0xA2,0xFF,0x9A,0x20,0x5B,0x15,0x20,0x00,0x10,0x4C,0x58,0x15,0xAD,0x05,
   0x20,0xD0,0x0B,0xA2,0x02,0xBD,0x00,0x0D,0x95,0x00,0xE8,0xD0,0xF8,0x60,0xA2,0x02,
   0xBD,0x00,0x1A,0x95,0x00,0xE8,0xD0,0xF8,0x60]
def aPatchMssiah : List Nat :=
  [0x78,0xA9,0x35,0x85,0x01,0x20,0x1C,0x5F,0x20,0xF3,0x5E,0xA9,0x00,0x8D,0x0E,0xDC,
   0x8D,0x0F,0xDC,0x8D,0x19,0xD0,0x8D,0x1A,0xD0,0xA9,0x7F,0x8D,0x0D,0xDC,0xA9,0x81,
   0x8D,0x0D,0xDC,0xA9,0x94,0x8D,0xFE,0xFF,0xA9,0x5F,0x8D,0xFF,0xFF,0xA9,0xA4,0x8D,
   0xFA,0xFF,0xA9,0x5F,0x8D,0xFB,0xFF,0xA9,0xF6,0x2C,0x5A,0x71,0x30,0x02,0xA9,0xAC,
   0x8D,0x04,0xDC,0xA9,0x07,0x8D,0x05,0xDC,0xA9,0x11,0x8D,0x0E,0xDC,0xA9,0x1B,0x8D,
   0x11,0xD0,0x58,0x20,0x95,0x5E,0x60,0,0,0,0,0]
def aPatchArneDD : List Nat := [0xa9,0x00,0xea,0xc9,0x01,0xf0,0x05]
def aPatchDMC4f9 : List Nat := [0xC8,0xB1,0xF8,0x9D,0x26,0x17,0x60]
def aPatchDblTrk : List Nat :=
  [0xA9,0x63,0x8D,0x04,0xDC,0xA9,0x26,0x8D,0x05,0xDC,0xA9,0x00,0x8D,0xEB,0x0F,0x4C,
   0x48,0x10,0xA9,0x00,0x29,0x01,0xAA,0xEE,0xEB,0x0F,0xBD,0xFB,0x0F,0x8D,0xF9,0x0F,
   0x4C,0x21,0x10,0x21,0x00,0x00,0x00,0x00]

/-- Signature tables of the FutureComposer 4 / Skyline stack fixers. -/
def af4 : List (Nat × Nat) := [
  (0x006, 0xad), (0x015, 0xee), (0x018, 0xee), (0x01b, 0xee), (0x025, 0xce), (0x02d, 0x8d), (0x035, 0x8d), (0x039, 0xad),
  (0x04b, 0xde), (0x056, 0xbc), (0x065, 0x9d), (0x068, 0x9d), (0x06b, 0x9d), (0x06e, 0x8d), (0x077, 0x8d), (0x07e, 0xad),
  (0x083, 0x9d), (0x086, 0xfe), (0x08c, 0xad), (0x093, 0xad), (0x098, 0x9d), (0x09b, 0xfe), (0x0a1, 0xad), (0x0b2, 0x9d),
  (0x0b5, 0xbc), (0x0b8, 0x9d), (0x0bd, 0x9d), (0x0cc, 0x9d), (0x0cf, 0xfe), (0x0dc, 0x9d), (0x0ee, 0x9d), (0x0f6, 0x8d),
  (0x0f9, 0xfe), (0x102, 0x8d), (0x10b, 0xfe), (0x11f, 0x9d), (0x131, 0x9d), (0x13a, 0xbd), (0x13d, 0x9d), (0x143, 0x7d),
  (0x146, 0x9d), (0x151, 0xac), (0x157, 0x9d), (0x15a, 0x9d), (0x161, 0x9d), (0x164, 0xbd), (0x169, 0xbd), (0x170, 0x8e),
  (0x18c, 0x9d), (0x18f, 0x9d), (0x197, 0x9d), (0x19b, 0x9d), (0x1a3, 0x9d), (0x1a8, 0x9d), (0x1ac, 0x9d), (0x1af, 0xfe),
  (0x1b2, 0xbc), (0x1bd, 0x9d), (0x1c0, 0xbd), (0x1c5, 0xde), (0x1ca, 0xfe), (0x1d0, 0xfe), (0x1dd, 0xac), (0x1e0, 0xbd),
  (0x1e5, 0xbd), (0x1ea, 0x9d), (0x1ed, 0xbd), (0x1f7, 0x8d), (0x1fd, 0x8d), (0x203, 0x8d), (0x20a, 0xad), (0x211, 0xad),
  (0x21f, 0x9d), (0x225, 0x8d), (0x228, 0xbd), (0x22d, 0xde), (0x232, 0xfe), (0x237, 0xfe), (0x23a, 0xbd), (0x23d, 0xdd),
  (0x242, 0x9d), (0x245, 0xde), (0x248, 0xde), (0x24b, 0xbd), (0x256, 0x8d), (0x25f, 0x7d), (0x263, 0xce), (0x269, 0x6e),
  (0x26f, 0x8d), (0x275, 0x8d), (0x27b, 0x8d), (0x27e, 0xbd), (0x287, 0xad), (0x28a, 0xed), (0x28d, 0x8d), (0x290, 0xad),
  (0x293, 0xed), (0x296, 0x8d), (0x29c, 0xbd), (0x2a3, 0xbc), (0x2aa, 0xad), (0x2ad, 0x6d), (0x2b0, 0x8d), (0x2b3, 0xad),
  (0x2b6, 0x6d), (0x2b9, 0x8d), (0x2bf, 0xac), (0x2c2, 0xad), (0x2c8, 0xad), (0x2d0, 0xac), (0x2d3, 0xbd), (0x2d7, 0xfd),
  (0x2de, 0xbd), (0x2e9, 0xad), (0x2ed, 0xbd), (0x2f0, 0xed), (0x2f3, 0x9d), (0x2f9, 0xbd), (0x2fc, 0xed), (0x2ff, 0x9d),
  (0x308, 0xad), (0x30c, 0xbd), (0x30f, 0x6d), (0x312, 0x9d), (0x318, 0xbd), (0x31b, 0x6d), (0x31e, 0x9d), (0x324, 0xad),
  (0x334, 0xdd), (0x341, 0xdd), (0x34a, 0x8d), (0x350, 0xad), (0x355, 0x8d), (0x358, 0xbd), (0x35d, 0xbd), (0x361, 0xed),
  (0x364, 0x9d), (0x367, 0xbd), (0x36c, 0x9d), (0x375, 0x9d), (0x37a, 0xbd), (0x37e, 0x6d), (0x381, 0x9d), (0x384, 0xbd),
  (0x389, 0x9d), (0x392, 0x9d), (0x39a, 0xbd), (0x3a1, 0xbd), (0x3af, 0xac), (0x3b2, 0xbd), (0x3bb, 0xbd), (0x3c3, 0xad),
  (0x3cc, 0xbd), (0x3db, 0x9d), (0x3de, 0x8c), (0x3e1, 0xad), (0x3ea, 0x8e), (0x3f7, 0xbd), (0x41d, 0x8d), (0x420, 0xae),
  (0x424, 0x2d), (0x42b, 0x6d), (0x444, 0xbd), (0x44f, 0xcd), (0x458, 0x9d), (0x45e, 0xac), (0x461, 0xad), (0x468, 0xad),
  (0x488, 0xbd), (0x496, 0x99), (0x49c, 0x8d), (0x49f, 0xad), (0x4a8, 0xbd), (0x4ac, 0x6d), (0x4b2, 0xac), (0x4b5, 0xad),
  (0x4c6, 0xad), (0x4cf, 0xac), (0x4d2, 0xbd), (0x4e7, 0x9d), (0x4ed, 0xbd), (0x4f3, 0xbd), (0x4f9, 0xbd), (0x4fe, 0x9d),
  (0x501, 0xad), (0x508, 0xde), (0x50f, 0x9d), (0x514, 0xbd), (0x51f, 0xbd), (0x526, 0xac), (0x537, 0xac), (0x53a, 0xbd),
  (0x547, 0xad), (0x557, 0xad)]

def af40 : List (Nat × Nat) := [
  (0x5a7, 0x8d), (0x704, 0x9d), (0x70c, 0x8d), (0x711, 0x8d), (0x714, 0x8d), (0x717, 0x8d), (0x71c, 0x9d), (0x71f, 0x9d),
  (0x722, 0x9d), (0x725, 0x9d), (0x72b, 0x8d)]

def af41 : List (Nat × Nat) := [
  (0x569, 0x9d), (0x571, 0x8d), (0x576, 0x8d), (0x579, 0x8d), (0x57c, 0x8d), (0x581, 0x9d), (0x584, 0x9d), (0x587, 0x9d),
  (0x58a, 0x9d), (0x590, 0x8d), (0x5a7, 0x8d)]

def sld0 : List (Nat × Nat) := [
  (0x0034, 0x9d), (0x0037, 0x9d), (0x003a, 0x9d), (0x003d, 0x9d), (0x0040, 0x9d), (0x00a3, 0x8d), (0x00b8, 0x8d), (0x00cd, 0x8d),
  (0x017c, 0xad), (0x0182, 0xad), (0x0188, 0xad), (0x03d3, 0x9d), (0x03da, 0x7d), (0x03dd, 0x9d), (0x03e7, 0x9d), (0x03ea, 0xbd),
  (0x03ee, 0x7d), (0x03f1, 0x9d), (0x0418, 0x9d), (0x0420, 0x9d), (0x0436, 0xb9), (0x043d, 0xbe), (0x0456, 0x99), (0x045a, 0xb9),
  (0x045d, 0xd9), (0x0465, 0x79), (0x0472, 0xf9)]

/-- `fixfc4stack(buffer, lenbuff)` with `buffer = p + base`: match the
common `af4` byte set, determine the 4.0 / 4.1 subversion (`af40` / `af41`;
a mismatch on the last `af41` entry alone is tolerated - Zyron's hack), then
patch every `lda $01xx` to `lda $02xx`, setting flag `0x100` in the
return value when anything was patched. -/
def fixfc4stack (s : ScanState) (base lenbuff : Int) : Int × ScanState :=
  if lenbuff < 0x600 then (-1, s)
  else
    let common := af4.all (fun e => s.p (base + e.1) == e.2)
    let jz : Int × Nat :=
      if common then
        if af40.all (fun e => s.p (base + e.1) == e.2) then (0, 0)
        else if (af41.take (af41.length - 1)).all (fun e => s.p (base + e.1) == e.2) then
          (1, 1)
        else (-1, 2)
      else (-1, 0)
    if jz.1 ≠ -1 then
      let step := fun (acc : Int × ScanState) (e : Nat × Nat) =>
        if acc.2.p (base + e.1 + 2) = 0x1 then
          (Int.ofNat (acc.1.toNat ||| 0x100), wr acc.2 (base + e.1 + 2) 0x2)
        else acc
      let acc1 := af4.foldl step (jz.1, s)
      let tbl := if jz.2 = 1 then af41.take (af41.length - 1) else af40
      tbl.foldl step acc1
    else (jz.1, s)

/-- `fixsklstack(buffer, lenbuff)` with `buffer = p + base`: the Skyline
variant over the `sld0` table. -/
def fixsklstack (s : ScanState) (base lenbuff : Int) : Int × ScanState :=
  if lenbuff < 0x600 then (-1, s)
  else if sld0.all (fun e => s.p (base + e.1) == e.2) then
    let step := fun (acc : Int × ScanState) (e : Nat × Nat) =>
      if acc.2.p (base + e.1 + 2) = 0x1 then
        (Int.ofNat (acc.1.toNat ||| 0x100), wr acc.2 (base + e.1 + 2) 0x2)
      else acc
    sld0.foldl step (0, s)
  else (-1, s)

/-- `AdjustJ`: convert a 16-bit pointer into a file offset. -/
def AdjustJ (x la : Int) : Int := x + 2 - la

/-- `CheckJ`: offset out of `[0, fs)`. -/
def CheckJ (x fs : Int) : Bool := decide (x < 0) || decide (x > fs - 1)

/-- `AdjFC`: NOP out the `JSR $D0xx` at offset 0x47 when present. -/
def AdjFC (s : ScanState) : ScanState :=
  if s.p 0x48 = 0x20 ∧ s.p 0x49 = 0xd0 then
    wr (wr (wr s 0x47 0xea) 0x48 0xea) 0x49 0xea
  else s

/-- `Chk_FC`: FutureComposer 1000/1006. -/
def Chk_FC (s : ScanState) : Int × ScanState :=
  if s.fsiz < 0x200 then (0, s)
  else if s.p 0x02 = 0x4c ∧ s.p 0x08 = 0xad ∧ s.p 0x0f = 0xc9 ∧
      rd32 s 0x0b &&& 0xfffff0ff = 0x07F000C9 then
    let s := { s with playaddr := s.initaddr + 6 }
    let s := AdjFC s
    let s := { s with ids := "FutureComposer" }
    let r := fixfc4stack s 2 (s.fsiz - 2)
    let i := r.1
    let s := r.2
    if i ≠ -1 then
      let s := { s with ids := s.ids ++ " 4." ++ (if i.toNat &&& 1 ≠ 0 then "1" else "0") }
      let s := if i.toNat &&& 0x100 ≠ 0 then { s with ids := s.ids ++ " (fixed)" } else s
      (1, s)
    else (1, s)
  else (0, s)

/-- `Chk_FCAlt`: FutureComposer 1000/102a (MS). -/
def Chk_FCAlt (s : ScanState) : Int × ScanState :=
  if s.fsiz < 0x200 then (0, s)
  else if s.p 0x02 = 0x4c ∧ s.p 0x03 = 0x08 ∧ s.p 0x2c = 0xee ∧ s.p 0x2d = 0x42 ∧
      s.p 0x2f = 0xee ∧ s.p 0x30 = 0x43 then
    let s := { s with playaddr := s.initaddr + 0x2a }
    let s := AdjFC s
    (1, { s with ids := "FutureComposer" ++ " (altered)" })
  else (0, s)

/-- `Chk_MusAss`: MusicAssembler 1048/1021 and the DoubleTracker variant. -/
def Chk_MusAss (s : ScanState) : Int × ScanState :=
  if s.fsiz < 0x200 then (0, s)
  else
    match (List.range' 2 0x23).find? (fun i =>
        rd32 s i == 0x90CE00A2 && rd32 s (0x05 + (i : Int)) == 0x26200C30 &&
        rd32 s (0x31 + (i : Int)) == 0x628D0F29) with
    | none => (0, s)
    | some i =>
      if s.p 2 = 0xad ∧ s.p 3 = 0xd2 ∧ rd32 s 0x05 = 0x00A205F0 ∧
          rd32 s 0x19 = 0x02A205F0 then
        -- DoubleTracker 1048/1021+1000 2x speed
        let s := hwr s P_TIMING 1
        let k := s.loadaddr / 256 - 1
        let s := { s with initaddr := k * 256 + 0xd8, playaddr := k * 256 + 0xea }
        let s := ewr s 0 s.initaddr
        let s := ewr s 1 (s.initaddr / 256)
        let s := { s with extra := aPatchDblTrk.length }
        let s := eblit s 2 aPatchDblTrk
        let s := ewr s 0x10 k
        let s := ewr s 0x13 (k + 1)
        let s := ewr s 0x1b k
        let s := ewr s 0x1e k
        let s := ewr s 0x21 k
        let s := ewr s 0x24 (k + 1)
        let s := wr (wr s 0 0) 1 0
        (1, { s with ids := "DoubleTracker" })
      else
        let s := { s with initaddr := s.loadaddr + 0x48 - 0x23 + (i : Int),
                          playaddr := s.loadaddr + 0x21 - 0x23 + (i : Int) }
        let s :=
          if s.p 2 = 0x4c ∧ s.p 5 = 0x4c ∧ (rd16 s 3 : Int) = s.initaddr ∧
              (rd16 s 6 : Int) = s.playaddr then
            { s with initaddr := s.loadaddr, playaddr := s.loadaddr + 3 }
          else s
        (1, { s with ids := "MusicAssembler" })

/-- `Chk_MusMix`: MusicMixer 1041/107a. -/
def Chk_MusMix (s : ScanState) : Int × ScanState :=
  if s.fsiz < 0x200 then (0, s)
  else
    match (List.range' 2 0x2b).find? (fun i =>
        s.p (0x43 - 0x2b + (i : Int)) == 0xa9 &&
        rd32 s (0x4b - 0x2b + (i : Int)) == 0x0F29D417 &&
        rd32 s (0xD4 - 0x2b + (i : Int)) == 0x2030FAB1 &&
        rd32 s (0x7b - 0x2b + (i : Int)) == 0xCE00A260) with
    | none => (0, s)
    | some i =>
      let s := { s with initaddr := s.loadaddr + 0x41 - 0x2b + (i : Int),
                        playaddr := s.loadaddr + 0x7a - 0x2b + (i : Int) }
      let s :=
        if s.p 2 = 0x4c ∧ s.p 5 = 0x4c ∧ (rd16 s 3 : Int) = s.initaddr ∧
            (rd16 s 6 : Int) = s.playaddr then
          { s with initaddr := s.loadaddr, playaddr := s.loadaddr + 3 }
        else s
      (1, { s with ids := "MusicMixer" })

/-- `Chk_GMC`: GMC 18ea/14ea. -/
def Chk_GMC (s : ScanState) : Int × ScanState :=
  if s.fsiz < 0x900 then (0, s)
  else
    match (List.range' 2 0x16).find? (fun i =>
        rd32 s (0x0d0 - 0x16 + (i : Int)) == 0x18FADDC3 &&
        rd32 s (0x0e0 - 0x16 + (i : Int)) == 0x47FBB470 &&
        rd32 s (0x1a4 - 0x16 + (i : Int)) == 0x0a0a0a0a) with
    | none => (0, s)
    | some i =>
      (1, { s with initaddr := s.loadaddr + 0x8ea - 0x16 + (i : Int),
                   playaddr := s.loadaddr + 0x4ea - 0x16 + (i : Int),
                   ids := "GMC/Superiors" })

/-- `Chk_Bappalander`: Bappalander 1000/1018 and the SpaceLab variant. -/
def Chk_Bappalander (s : ScanState) : Int × ScanState :=
  if s.fsiz < 0x400 then (0, s)
  else if rd32 s 0x002 = 0x7DA200A9 ∧ rd32 s 0x017 = 0xCE60B185 ∧
      rd32 s 0x215 = 0x0a0a0a0a then
    (1, { s with initaddr := s.loadaddr, playaddr := s.loadaddr + 0x18,
                 ids := "Bappalander" })
  else if s.p 2 = 0x4c ∧ rd32 s 0x00c = 0xA9FA10CA ∧ rd32 s 0x084 = 0xBDAAB0B1 ∧
      rd32 s 0x25a = 0x0a0a0a0a then
    (1, { s with initaddr := s.loadaddr + 3, playaddr := s.loadaddr,
                 ids := "Bappalander" ++ "/SpaceLab" })
  else (0, s)

/-- `Chk_TrkPl3`: Trackplayer 1140/1287. -/
def Chk_TrkPl3 (s : ScanState) : Int × ScanState :=
  if s.fsiz < 0x500 then (0, s)
  else if rd32 s 0x142 = 0x00A900A2 ∧ rd32 s 0x148 = 0x20E0E8D4 ∧
      rd32 s 0x289 = 0xCA2000A2 ∧ rd32 s 0x491 = 0x0a0a0a0a then
    (1, { s with initaddr := s.loadaddr + 0x140, playaddr := s.loadaddr + 0x287,
                 ids := "TrackPlayer" })
  else (0, s)

/-- `Chk_Groovy`: Groovy bits 1003/1000. -/
def Chk_Groovy (s : ScanState) : Int × ScanState :=
  if s.fsiz < 0x200 then (0, s)
  else if s.p 2 = 0x4c ∧ rd32 s 0x005 = 0x9D8A00A2 then
    let k : Int := s.p 4 * 256 + s.p 3 - s.loadaddr + 2
    let j : Int :=
      if rd32 s k &&& 0xfffff0ff = 0xAD0330EE then 1
      else if s.p k = 0xe6 ∧ s.p (k + 0x02) = 0xa5 ∧ s.p (k + 0x01) = s.p (k + 0x03) ∧
          s.p (k + 0x04) = 0xc9 then 2
      else 0
    if j > 0 then
      (1, { s with initaddr := s.loadaddr + 3, playaddr := s.loadaddr,
                   ids := "GroovyBits v" ++ toString j })
    else (0, s)
  else (0, s)

/-- `Chk_Parsec`: Parsec (LoS) 1003/1000. -/
def Chk_Parsec (s : ScanState) : Int × ScanState :=
  if s.fsiz < 0x200 then (0, s)
  else if rd32 s 0x0d8 = 0x06ADF4F2 ∧ rd32 s 0x0e0 = 0xD002C974 ∧
      rd32 s 0x0f4 = 0x180A0A00 then
    (1, { s with initaddr := s.loadaddr + 3, playaddr := s.loadaddr,
                 ids := "Parsec/LoS" })
  else if rd32 s 0x0db = 0x06ADF4F2 ∧ rd32 s 0x0e3 = 0xD002C977 ∧
      rd32 s 0x0fa = 0x180A0A00 then
    (1, { s with initaddr := s.loadaddr + 3, playaddr := s.loadaddr,
                 ids := "Parsec/LoS" })
  else (0, s)

/-- `Chk_Sosperec`: Sosperec TAX+1103/1100. -/
def Chk_Sosperec (s : ScanState) : Int × ScanState :=
  if s.fsiz < 0x200 then (0, s)
  else if rd32 s 0x010 = 0x02020202 ∧ rd32 s 0x102 &&& 0xff00ffff = 0x8E00AA4C ∧
      rd32 s 0x132 = 0xD4168ED4 then
    let s := { s with initaddr := s.loadaddr + 0xfc, playaddr := s.loadaddr + 0x100 }
    let s := wr s 0x0fe 0xaa
    let s := wr s 0x0ff 0x4c
    let s := wr s 0x100 0x03
    let s := wr s 0x101 ((s.loadaddr + 0x100) / 256)
    (1, { s with ids := "Sosperec" })
  else (0, s)

/-- `Chk_SoedeSoft`: Soedesoft v1/v2/v3 (+hacks). -/
def Chk_SoedeSoft (s : ScanState) : Int × ScanState :=
  if s.fsiz < 0x200 then (0, s)
  else if rd32 s 0x02b &&& 0xfffff0ff = 0x3399A0A0 ∧ rd32 s 0x02f = 0xFAD08803 ∧
      rd32 s 0x107 = (0x00DA2060 ||| (s.loadaddr / 256).toNat * 0x1000000) then
    let s :=
      if s.p 2 = 0x4c then
        let s := { s with initaddr := s.loadaddr }
        wr (wr s 3 0x29) 4 (s.loadaddr / 256)
      else { s with initaddr := s.loadaddr + 0x29 }
    let s := { s with playaddr := s.loadaddr + 0x106 }
    let s := wr s 0xda 0x60
    let s := if s.p 0x142 = 0xa9 then fill s 0x142 0x60 8 else s
    (1, { s with ids := "Soedesoft" ++ " v1" })
  else if s.p 2 = 0x4c ∧ s.p 5 = 0x4c ∧ s.p 8 = 0x4c ∧ rd32 s 0x01a = 0x88033399 ∧
      rd32 s 0x01e = 0x00A9FAD0 then
    let s := { s with initaddr := s.loadaddr }
    let s :=
      if s.p 0x6 = 0x7b then { s with playaddr := s.loadaddr + 3 }
      else if s.p 0x9 = 0x7b then { s with playaddr := s.loadaddr + 6 }
      else { s with playaddr := s.loadaddr + 0x7b }
    let s := wr s 0x5c 0x60
    (1, { s with ids := "Soedesoft" ++ " v2" })
  else if s.p 2 = 0x4c ∧ s.p 5 = 0x4c ∧ s.p 6 = 0x35 ∧ s.p 8 = 0x4c ∧ s.p 9 = 0x7c ∧
      rd32 s 0x03b = 0x88033399 ∧ rd32 s 0x07d = 0x037CEE60 then
    (1, { s with initaddr := s.loadaddr + 3, playaddr := s.loadaddr + 6,
                 ids := "Soedesoft" ++ " v3" })
  else (0, s)

/-- `Chk_Prosonix1`: Prosonix 1000/1009. -/
def Chk_Prosonix1 (s : ScanState) : Int × ScanState :=
  if s.fsiz < 0x200 then (0, s)
  else if s.p 2 = 0x4c ∧ s.p 5 = 0x4c ∧ s.p 8 = 0x4c ∧
      rd32 s 0x00b &&& 0x00ffffff = 0x00F000A9 ∧
      rd32 s 0x00f &&& 0x00ff00ff = 0x00600010 then
    let j := AdjustJ (rd16 s 3) s.loadaddr
    if ¬CheckJ j s.fsiz then
      if s.p (j + 0x00) = 0xa9 ∧ s.p (j + 0x01) = 0x01 ∧ s.p (j + 0x02) = 0x8d ∧
          s.p (j + 0x05) = 0xa2 then
        (1, { s with initaddr := s.loadaddr, playaddr := s.loadaddr + 9,
                     ids := "Prosonix" ++ " v1" })
      else (0, s)
    else (0, s)
  else (0, s)

/-- `%02x` of a C `unsigned int` (lowercase, at least two digits). -/
def hexUInt (v : Int) : String :=
  let str := String.mk (Nat.toDigits 16 (v % 4294967296).toNat)
  if str.length < 2 then "0" ++ str else str

/-- The Heathcliff-v1 and DMC-4.x tail of `Chk_4JMPS`, entered with the
current value of the scratch offset `j`. -/
def Chk_4JMPS_tail (s : ScanState) (j : Int) : Int × ScanState :=
  if rd32 s (j + 0) &&& 0xffff00ff = 0xFBF000A9 ∧
      rd32 s (j + 0x04) &&& 0x00fff0ff = 0x008d00a9 ∧
      rd32 s (j + 0x09) &&& 0x00ffffff = 0x002000a2 ∧
      rd32 s (j + 0x0e) &&& 0x00ffffff = 0x002007a2 then
    (1, { s with initaddr := s.loadaddr + 9, playaddr := s.loadaddr,
                 ids := "Heathcliff" ++ " v1" })
  else
    -- DMC 4.x with patch at $0ff9 1000/1003
    let k := s.loadaddr / 256
    if rd32 s (2 + 0) &&& 0xff00ffff = 0x4C001d4c ∧
        rd32 s (2 + 0x04) &&& 0xffff00ff = 0x2F4C0085 ∧
        rd32 s (2 + 0xdf) &&& 0xff00ffff = 0x4C00F920 ∧
        (s.p (2 + 0xe1) : Int) = k - 1 then
      let s := { s with initaddr := s.loadaddr, playaddr := s.loadaddr + 3 }
      let j2 := (k - 1) * 256 + 0xf9
      let s := ewr s 0 j2
      let s := ewr s 1 (j2 / 256)
      let s := eblit s 2 aPatchDMC4f9
      let s := ewr s (2 + 5) (k + 7)
      let s := { s with extra := aPatchDMC4f9.length }
      let s := ewr s (2 + 5) (k + 7)
      let s := wr s 0 (k + 7)
      let s := wr s 1 (aPatchDMC4f9.getD (aPatchDMC4f9.length - 1) 0)
      (1, { s with ids := "DMC 4.x + patch @ $" ++ hexUInt (k - 1) ++ "f9" })
    else (0, s)

/-- The TFMX/Huelsbeck middle part of `Chk_4JMPS` (note: the source
reassigns `j` here without a bounds check before falling through). -/
def Chk_4JMPS_mid (s : ScanState) (j : Int) : Int × ScanState :=
  if s.p (j + 0x00) = 0xad ∧ s.p (j + 0x03) = 0x30 ∧ s.p (j + 0x05) = 0x20 then
    let j := AdjustJ (rd16 s 0xc) s.loadaddr
    if s.p (j + 0x00) = 0x8d ∧ s.p (j + 0x03) = 0x8e ∧ s.p (j + 0x06) = 0x60 ∧
        (s.p (j + 0x07) = 0x18 ∨ s.p (j + 0x0c) = 0x18) then
      (1, { s with initaddr := s.loadaddr + 9, playaddr := s.loadaddr,
                   ids := "TFMX/Huelsbeck" })
    else Chk_4JMPS_tail s j
  else Chk_4JMPS_tail s j

/-- `Chk_4JMPS`: Prosonix v2 / TFMX-Huelsbeck / Heathcliff v1 / patched
DMC 4.x behind four leading JMPs. -/
def Chk_4JMPS (s : ScanState) : Int × ScanState :=
  if s.fsiz < 0x800 then (0, s)
  else if s.p 0x2 = 0x4c ∧ s.p 0x5 = 0x4c ∧ s.p 0x8 = 0x4c ∧ s.p 0xb = 0x4c then
    let j := AdjustJ (rd16 s 3) s.loadaddr
    if ¬CheckJ j s.fsiz then
      if rd32 s j = 0x0C8D03A9 then
        let j := AdjustJ (rd16 s 0xc) s.loadaddr
        if ¬CheckJ j s.fsiz then
          if s.p (j + 0) = 0xad ∧ s.p (j + 1) = 0x0c ∧ s.p (j + 3) = 0xf0 ∧
              s.p (j + 8) = 0x4c then
            (1, { s with initaddr := s.loadaddr, playaddr := s.loadaddr + 9,
                         ids := "Prosonix" ++ " v2" })
          else Chk_4JMPS_mid s j
        else Chk_4JMPS_mid s j
      else Chk_4JMPS_mid s j
    else (0, s)
  else (0, s)

/-- `Chk_Heathcliff`: Heathcliff/DigitalArts v3 1003/1000. -/
def Chk_Heathcliff (s : ScanState) : Int × ScanState :=
  if s.fsiz < 0x800 then (0, s)
  else if s.p 0x2 = 0x4c ∧ s.p 0x5 = 0xa9 ∧ s.p 0xa = 0xa2 then
    let j := AdjustJ (rd16 s 3) s.loadaddr
    if ¬CheckJ j s.fsiz then
      if rd32 s (j + 0) &&& 0x00ffffff = 0x00F015A9 ∧
          rd32 s (j + 0x04) &&& 0x00ffffff = 0x002000a2 ∧
          rd32 s (j + 0x09) &&& 0x00ffffff = 0x002007a2 then
        (1, { s with initaddr := s.loadaddr + 3, playaddr := s.loadaddr,
                     ids := "Heathcliff" ++ " v3" })
      else (0, s)
    else (0, s)
  else (0, s)

/-- The Heathcliff-v2 / Frank-Hammer tail of `Chk_3JMPs1`. -/
def Chk_3JMPs1_tail (s : ScanState) (j : Int) : Int × ScanState :=
  if rd32 s (j + 0) &&& 0x00ff00ff = 0x00F000A9 ∧
      rd32 s (j + 0x04) &&& 0x00ffffff = 0x002000a2 ∧
      rd32 s (j + 0x09) &&& 0x00ffffff = 0x002007a2 then
    (1, { s with initaddr := s.loadaddr + 6, playaddr := s.loadaddr,
                 ids := "Heathcliff" ++ " v2" })
  else if rd16 s j = 0x10AD ∧ s.p (j + 0x03) = 0x8d ∧ s.p (j + 0x32) = 0x60 ∧
      rd32 s (j + 0x33) = 0x18F003C0 then
    (1, { s with initaddr := s.loadaddr, playaddr := s.loadaddr + 6,
                 ids := "Frank Hammer" })
  else (0, s)

/-- `Chk_3JMPs1`: Prosonix v3 / Heathcliff v2 / Frank Hammer behind three
leading JMPs. -/
def Chk_3JMPs1 (s : ScanState) : Int × ScanState :=
  if s.fsiz < 0x400 then (0, s)
  else if s.p 0x2 = 0x4c ∧ s.p 0x5 = 0x4c ∧ s.p 0x8 = 0x4c ∧ s.p 0xb ≠ 0x4c then
    let j := AdjustJ (rd16 s 3) s.loadaddr
    if ¬CheckJ j s.fsiz then
      if rd16 s j = 0x03A9 ∧ s.p (j + 2) = 0x8d then
        let k := s.p (j + 3)
        let j := AdjustJ (rd16 s 0x9) s.loadaddr
        if ¬CheckJ j s.fsiz then
          if s.p (j + 0) = 0xad ∧ s.p (j + 1) = k ∧ s.p (j + 3) = 0xf0 ∧
              s.p (j + 8) = 0x4c then
            (1, { s with initaddr := s.loadaddr, playaddr := s.loadaddr + 6,
                         ids := "Prosonix" ++ " v3" })
          else Chk_3JMPs1_tail s j
        else Chk_3JMPs1_tail s j
      else Chk_3JMPs1_tail s j
    else (0, s)
  else (0, s)

/-- `Chk_ArneAFL`: Arne/AFL 1000/1009. -/
def Chk_ArneAFL (s : ScanState) : Int × ScanState :=
  if s.fsiz < 0x400 then (0, s)
  else if s.p 0x2 = 0x4c ∧ s.p 0x5 = 0x4c ∧ s.p 0x8 = 0x4c ∧ s.p 0xb = 0x4c then
    let j := AdjustJ (rd16 s 3) s.loadaddr
    if ¬CheckJ j s.fsiz then
      if rd32 s j = 0x40093F29 then
        let j := AdjustJ (rd16 s 0xc) s.loadaddr
        if ¬CheckJ j s.fsiz then
          if s.p (j + 0) = 0x2c ∧ s.p (j + 3) = 0x30 ∧ s.p (j + 5) = 0x70 ∧
              s.p (j + 7) = 0xa9 then
            let s := { s with initaddr := s.loadaddr, playaddr := s.loadaddr + 9,
                              ids := "Arne/AFL" }
            let k : Int := 0x5b
            if rd32 s k = 0xc9dd0ead then
              let s := blit s k aPatchArneDD
              (1, { s with ids := s.ids ++ " (fixed)" })
            else (1, s)
          else (0, s)
        else (0, s)
      else (0, s)
    else (0, s)
  else (0, s)

/-- The `k ∈ {0, 0x20}` loop of `Chk_ArneSndMk` (a bounds failure breaks the
loop with no match). -/
def Chk_ArneSndMk_loop (s : ScanState) : List Int → Int × ScanState
  | [] => (0, s)
  | k :: rest =>
    if s.p (2 + k) = 0x4c ∧ s.p (5 + k) ≠ 0x4c ∧ s.p (8 + k) = 0x4c then
      let j := AdjustJ (s.p (9 + k) + s.p (10 + k) * 256) s.loadaddr
      if CheckJ j s.fsiz then (0, s)
      else if s.p j = 0xad ∧ rd32 s (j + 3) = 0x60F001C9 then
        (1, { s with initaddr := s.loadaddr + k, playaddr := s.loadaddr + k + 6,
                     ids := "SoundMaker" ++ " v4/Arne" })
      else Chk_ArneSndMk_loop s rest
    else Chk_ArneSndMk_loop s rest

/-- `Chk_ArneSndMk`: Arne/SoundMaker v4 1000/1006 or 1020/1026. -/
def Chk_ArneSndMk (s : ScanState) : Int × ScanState :=
  if s.fsiz < 0x400 then (0, s)
  else Chk_ArneSndMk_loop s [0, 0x20]

/-- `Chk_Digitalizer`: Digitalizer 2.x 1003/1006. -/
def Chk_Digitalizer (s : ScanState) : Int × ScanState :=
  if s.fsiz < 0x200 then (0, s)
  else if s.p 2 = 0x4c ∧ s.p 5 = 0x4c ∧ s.p 8 = 0x20 ∧
      rd32 s 0x0B = 0x10033DCE ∧ rd32 s 0x1B = 0xADFAD0CA then
    (1, { s with initaddr := s.loadaddr + 3, playaddr := s.loadaddr + 6,
                 ids := "Digitalizer 2.x" })
  else (0, s)

/-- The common RSID/free-pages header surgery of the Soundmon family. -/
def soundmonPages (s : ScanState) : ScanState :=
  let s := hwr s P_MARKER 0x52
  let s := hwr s P_FREEPAGE 8
  hwr s P_FREEPMAX (s.loadaddr / 256 - 8)

/-- The RockMon-5 / MusicMaster / BeatBox / Digitronix tail of
`Chk_Soundmon`, reached when neither the first nor the second signature
block returned. -/
def Chk_Soundmon_tail (s : ScanState) : Int × ScanState :=
  let la := s.loadaddr
  if rd32 s (0xc000 - la + 2) = 0x4cc0124c ∧ rd32 s (0xc020 - la + 2) = 0x4CA90295 then
    let s := { s with initaddr := 0xc000, playaddr := 0 }
    let s := blit s (s.initaddr - la + 2) aPatchRckmon
    let s := soundmonPages s
    (1, { s with ids := "DUSAT/RockMon" ++ "5" })
  else if rd32 s (0xc000 - la + 2) = 0x4cc0124c ∧
      rd32 s (0xc01d - la + 2) = 0x589B0020 ∧
      rd32 s (0xc02c - la + 2) = 0xAD9BA020 then
    let s := { s with initaddr := 0xc000, playaddr := 0 }
    let s := blit s (s.initaddr - la + 2) aPatchRckmon
    let s := soundmonPages s
    (1, { s with ids := "MusicMaster 1.3/BB" })
  else if rd32 s (0xc000 - la + 2) = 0x4cc0124c ∧
      rd32 s (0xc01d - la + 2) = 0x589B0020 ∧
      rd32 s (0xc02c - la + 2) = 0xadc47820 then
    let s := { s with initaddr := 0xc000, playaddr := 0 }
    let s := blit s (s.initaddr - la + 2) aPatchRckmon
    let s := soundmonPages s
    (1, { s with ids := "BeatBox/KarlXII" })
  else if rd32 s (0xc000 - la + 2) = 0x4cc0124c ∧
      rd32 s (0xc025 - la + 2) = 0x03148DD4 ∧
      rd32 s (0xcbdd - la + 2) = 0xAD9F0020 then
    let s := { s with initaddr := 0xc000, playaddr := 0 }
    let s := blit s (s.initaddr - la + 2) aPatchRckmon
    let s := soundmonPages s
    (1, { s with ids := "Digitronix" })
  else (0, s)

/-- `Chk_Soundmon`: SoundMonitor / DUSAT-RockMon family at c000/c020. -/
def Chk_Soundmon (s : ScanState) : Int × ScanState :=
  if s.fsiz + s.loadaddr > 0xcb00 ∧ s.fsiz > 0x2b00 ∧ s.loadaddr ≤ 0xa000 then
    let la := s.loadaddr
    if rd32 s (0xc000 - la + 2) = 0x4cc0124c ∧ rd32 s (0xc020 - la + 2) = 0xC58D01A5 then
      if rd32 s (0xc029 - la + 2) = 0xADCBE120 then
        let s := { s with initaddr := 0xce30, playaddr := 0 }
        let s := soundmonPages s
        (1, { s with ids := "DUSAT/RockMon" ++ "3h" })
      else if rd32 s (0xc029 - la + 2) = 0xAD80a020 then
        let s := { s with initaddr := 0xc000, playaddr := 0 }
        let s := soundmonPages s
        let s := blit s (s.initaddr - la + 2) aPatchRckmon
        (1, { s with ids := "DUSAT/RockMon" ++ "2" })
      else
        let s := { s with initaddr := 0xc000, playaddr := 0xc020 }
        let s := blit s (s.initaddr - la + 2) aPatchSndmon
        let s := wr s (0xc031 - la + 2) 0x60
        let s := hwr s P_TIMING 1
        let s := hwr s P_FREEPAGE 8
        let s := hwr s P_FREEPMAX (s.loadaddr / 256 - 8)
        (1, { s with ids := "SoundMonitor" })
    else if rd32 s (0xc000 - la + 2) = 0x4cc0124c ∧
        rd32 s (0xc01d - la + 2) = 0x0E8E00a2 then
      if rd32 s (0x9fd0 - la + 2) = 0x018536a9 ∧ rd32 s (0x9fdb - la + 2) = 0x8D9FA99F then
        let s := { s with initaddr := 0x9fd0, playaddr := 0 }
        let s := soundmonPages s
        let j := 0x9fe1 - la + 2
        let s := wr s j 0x20
        let s := wr s (j + 1) 0x12
        let s := wr s (j + 2) 0xc0
        (1, { s with ids := "DUSAT/RockMon" ++ "4" })
      else if rd32 s (0x9f00 - la + 2) = 0x8D02C0AD ∧
          rd32 s (0x9f04 - la + 2) = 0x75209F0A then
        let s := { s with initaddr := 0xc000, playaddr := 0 }
        let s := blit s (s.initaddr - la + 2) aPatchRckmon
        let s := soundmonPages s
        (1, { s with ids := "DUSAT/RockMon" ++ "3" })
      else Chk_Soundmon_tail s
    else Chk_Soundmon_tail s
  else (0, s)

/-- The four byte offsets touched by the 32-bit read at `k`. -/
def u32span (k : Int) : List Int := [k, k + 1, k + 2, k + 3]

/-- Offsets dereferenced by a short-circuit conjunction of 32-bit signature
compares: each comparison's four bytes are read only when all previous
comparisons matched. -/
def chainReads (s : ScanState) : List (Int × Nat) → List Int
  | [] => []
  | (k, v) :: rest => u32span k ++ (if rd32 s k = v then chainReads s rest else [])

/-- The byte offsets into the file image dereferenced by the tail of
`Chk_Soundmon` (`Chk_Soundmon_tail`), in evaluation order. -/
def Chk_Soundmon_tail_reads (s : ScanState) : List Int :=
  let la := s.loadaddr
  chainReads s [(0xc000 - la + 2, 0x4cc0124c), (0xc020 - la + 2, 0x4CA90295)] ++
  (if rd32 s (0xc000 - la + 2) = 0x4cc0124c ∧ rd32 s (0xc020 - la + 2) = 0x4CA90295 then []
   else
    chainReads s [(0xc000 - la + 2, 0x4cc0124c), (0xc01d - la + 2, 0x589B0020),
      (0xc02c - la + 2, 0xAD9BA020)] ++
    (if rd32 s (0xc000 - la + 2) = 0x4cc0124c ∧ rd32 s (0xc01d - la + 2) = 0x589B0020 ∧
        rd32 s (0xc02c - la + 2) = 0xAD9BA020 then []
     else
      chainReads s [(0xc000 - la + 2, 0x4cc0124c), (0xc01d - la + 2, 0x589B0020),
        (0xc02c - la + 2, 0xadc47820)] ++
      (if rd32 s (0xc000 - la + 2) = 0x4cc0124c ∧ rd32 s (0xc01d - la + 2) = 0x589B0020 ∧
          rd32 s (0xc02c - la + 2) = 0xadc47820 then []
       else
        chainReads s [(0xc000 - la + 2, 0x4cc0124c), (0xc025 - la + 2, 0x03148DD4),
          (0xcbdd - la + 2, 0xAD9F0020)])))

/-- The byte offsets into the file image dereferenced by `Chk_Soundmon`, in
evaluation order (the guard reads no payload bytes). -/
def Chk_Soundmon_reads (s : ScanState) : List Int :=
  if s.fsiz + s.loadaddr > 0xcb00 ∧ s.fsiz > 0x2b00 ∧ s.loadaddr ≤ 0xa000 then
    let la := s.loadaddr
    chainReads s [(0xc000 - la + 2, 0x4cc0124c), (0xc020 - la + 2, 0xC58D01A5)] ++
    (if rd32 s (0xc000 - la + 2) = 0x4cc0124c ∧ rd32 s (0xc020 - la + 2) = 0xC58D01A5 then
      u32span (0xc029 - la + 2) ++
      (if rd32 s (0xc029 - la + 2) = 0xADCBE120 then [] else u32span (0xc029 - la + 2))
     else
      chainReads s [(0xc000 - la + 2, 0x4cc0124c), (0xc01d - la + 2, 0x0E8E00a2)] ++
      (if rd32 s (0xc000 - la + 2) = 0x4cc0124c ∧ rd32 s (0xc01d - la + 2) = 0x0E8E00a2 then
        chainReads s [(0x9fd0 - la + 2, 0x018536a9), (0x9fdb - la + 2, 0x8D9FA99F)] ++
        (if rd32 s (0x9fd0 - la + 2) = 0x018536a9 ∧ rd32 s (0x9fdb - la + 2) = 0x8D9FA99F
         then []
         else
          chainReads s [(0x9f00 - la + 2, 0x8D02C0AD), (0x9f04 - la + 2, 0x75209F0A)] ++
          (if rd32 s (0x9f00 - la + 2) = 0x8D02C0AD ∧ rd32 s (0x9f04 - la + 2) = 0x75209F0A
           then []
           else Chk_Soundmon_tail_reads s))
       else Chk_Soundmon_tail_reads s))
  else []

/-- `Chk_AMP2`: AMP 2.x. -/
def Chk_AMP2 (s : ScanState) : Int × ScanState :=
  if s.fsiz < 0x600 then (0, s)
  else if rd32 s 0x0dc = 0x5F4B3827 ∧ rd32 s 0x1A3 = 0x5EDE04F0 ∧
      rd32 s 0x1e8 = 0x4a4a4a4a ∧ rd32 s 0x224 = 0x0a0a0a0a then
    let j : Int :=
      if s.p (2 + 0x568) = 0xad ∧ s.p (2 + 0x569) = 0x09 then 0x68
      else if s.p (2 + 0x57e) = 0xa5 ∧ s.p (2 + 0x588) = 0xad ∧
          s.p (2 + 0x589) = 0x09 then 0x7e
      else 0
    if j ≠ 0 then
      let s := wr s 2 0x4c
      let s := wr s 3 j
      let s := wr s 4 (s.loadaddr / 256 + 5)
      let s := wr s 5 0x4c
      let s := wr s 6 0xce
      let s := wr s 7 (s.loadaddr / 256 + 4)
      (1, { s with ids := "AMP 2.x" })
    else (0, s)
  else (0, s)

/-- `Chk_FC3x`: FutureComposer 3.x. -/
def Chk_FC3x (s : ScanState) : Int × ScanState :=
  if s.fsiz < 0x200 then (0, s)
  else if rd32 s 0x08a = 0x7AA200A9 ∧ rd32 s 0x0af = 0x8DF110CA ∧
      rd32 s 0x15e = 0x16D0FFC9 ∧ s.p 0x104 = 0xAD then
    let s := { s with playaddr := s.loadaddr + 6, initaddr := s.loadaddr }
    let s :=
      if s.p 0x10a = 0x07 then
        let s := { s with initaddr := s.loadaddr - 2 }
        let s := ewr s 0 s.initaddr
        let s := ewr s 1 (s.initaddr / 256)
        let s := { s with extra := 2 }
        wr (wr s 0 0xa9) 1 0x02
      else s
    let s := wr s 2 0x4c
    let s := wr s 3 0xb4
    let s := wr s 4 (s.loadaddr / 256)
    let s := wr s 8 0x4c
    let s := wr s 9 0x02
    let s := wr s 10 (s.loadaddr / 256 + 1)
    (1, { s with ids := "FutureComposer" ++ " 3.x" })
  else (0, s)

/-- `Chk_MoN_JTS`: Deenen JTS/TC 110a/112c with a patch at the load
address. -/
def Chk_MoN_JTS (s : ScanState) : Int × ScanState :=
  if s.fsiz < 0x200 then (0, s)
  else if s.p 0x05 = 0x4c ∧ s.p 0x06 = 0x2c ∧ rd32 s 0xe2 = 0x70A200A9 ∧
      rd32 s 0xe9 = 0xA9FA10CA then
    let s := { s with initaddr := s.loadaddr, playaddr := s.loadaddr + 3 }
    let s := wr s 2 0x4c
    let s := wr s 3 0x0a
    let s := wr s 4 (s.loadaddr / 256 + 1)
    (1, { s with ids := "MoN/JTS" })
  else (0, s)

/-- The JO/Vibrants v1 accumulation loop of `Chk_3JMPs2` over the five JMP
slots: `k` collects a bit for a found init entry and one for a found play
entry. -/
def Chk_3JMPs2_jo_loop (s0 : ScanState) : List Int → Nat × ScanState → Nat × ScanState
  | [], acc => acc
  | i :: rest, acc =>
    if s0.p i = 0x4c then
      let j := AdjustJ (rd16 s0 (i + 1)) s0.loadaddr
      if CheckJ j s0.fsiz then Chk_3JMPs2_jo_loop s0 rest acc
      else if s0.p (j + 0x00) = 0xbd ∧ s0.p (j + 0x03) = 0x8d ∧
          s0.p (j + 0x06) = 0xbd ∧ s0.p (j + 0x09) = 0x8d then
        Chk_3JMPs2_jo_loop s0 rest
          (acc.1 ||| 1, { acc.2 with initaddr := s0.loadaddr + i - 2 })
      else if s0.p (j + 0x00) = 0xa9 ∧ s0.p (j + 0x02) = 0xd0 ∧
          s0.p (j + 0x03) = 0x01 ∧ s0.p (j + 0x04) = 0x60 then
        Chk_3JMPs2_jo_loop s0 rest
          (acc.1 ||| 2, { acc.2 with playaddr := s0.loadaddr + i - 2 })
      else Chk_3JMPs2_jo_loop s0 rest acc
    else Chk_3JMPs2_jo_loop s0 rest acc

/-- The JO/Vibrants v1 tail of `Chk_3JMPs2` (reached when none of the
direct signatures returned). -/
def Chk_3JMPs2_jo (s : ScanState) : Int × ScanState :=
  let acc := Chk_3JMPs2_jo_loop s [2, 5, 8, 11, 14] (0, s)
  let k := acc.1
  let s := acc.2
  if k ≠ 3 then
    (0, { s with initaddr := s.loadaddr, playaddr := s.loadaddr + 3 })
  else
    if s.initaddr = s.loadaddr then
      let s := { s with initaddr := s.initaddr - 1 }
      let s := ewr s 0 s.initaddr
      let s := { s with extra := 1 }
      let s := wr s 0 (s.initaddr / 256)
      let s := wr s 1 0xaa
      (1, { s with ids := "JO/Vibrants" ++ " v1" })
    else
      let s := { s with extra := 4 }
      let s := ewr s 0 (s.loadaddr - 4)
      let s := ewr s 1 ((s.loadaddr - 4) / 256)
      let s := ewr s 2 0xaa
      let s := ewr s 3 0x4c
      let s := wr s 0 s.initaddr
      let s := wr s 1 (s.initaddr / 256)
      let s := { s with initaddr := s.loadaddr - 4 }
      (1, { s with ids := "JO/Vibrants" ++ " v1" })

/-- The SidDuzzIt-0.98 / Laxity-v1 / Deenen block of `Chk_3JMPs2` (third
jump-target group), falling through to the JO v1 loop. -/
def Chk_3JMPs2_grp3 (s : ScanState) : Int × ScanState :=
  let j := AdjustJ (rd16 s 3) s.loadaddr
  if ¬CheckJ j s.fsiz then
    if s.p (j + 0x00) = 0xbd ∧ s.p (j + 0x03) = 0x8d ∧ s.p (j + 0x06) = 0x8d ∧
        s.p (j + 0x09) = 0xbd then
      let s := { s with initaddr := s.loadaddr - 1 }
      let s := ewr s 0 s.initaddr
      let s := { s with extra := 1 }
      let s := wr s 0 (s.initaddr / 256)
      let s := wr s 1 0xaa
      (1, { s with ids := "SidDuzzIt " ++ "0.98" })
    else if rd32 s (j + 0x00) = 0xA98A00A2 ∧ rd32 s (j + 0x1b) = 0xE49003E0 then
      (1, { s with initaddr := s.loadaddr, playaddr := s.loadaddr + 6,
                   ids := "Laxity" ++ " v1" })
    else if rd32 s (j + 0x00) &&& 0xffff00ff = 0x013000A9 ∧ s.p (j + 0x04) = 0x60 ∧
        s.p (j + 0x05) = 0xad ∧ s.p (j + 0x08) = 0xf0 then
      (1, { s with initaddr := s.loadaddr + 6, playaddr := s.loadaddr,
                   ids := "Deenen" })
    else Chk_3JMPs2_jo s
  else Chk_3JMPs2_jo s

/-- The Zardax / MoN / Laxity-v4 / Roland-Hermans block of `Chk_3JMPs2`
(second jump-target group). -/
def Chk_3JMPs2_grp2 (s : ScanState) : Int × ScanState :=
  let j := AdjustJ (rd16 s 9) s.loadaddr
  if ¬CheckJ j s.fsiz then
    if s.p (j + 0x00) = 0xad ∧ rd32 s (j + 0x03) = 0xCE6001F0 ∧
        rd32 s (j + 0x0a) = 0x2002A209 then
      (1, { s with initaddr := s.loadaddr, playaddr := s.loadaddr + 6,
                   ids := "Zardax" ++ " v1" })
    else if s.p (j + 0x00) = 0xad ∧ s.p (j - 0x01) = 0x60 ∧ s.p (j + 0x08) = 0x8d ∧
        s.p (j + 0x0b) = 0xa5 ∧ rd32 s (j + 0x03) = 0xa56001F0 then
      (1, { s with initaddr := s.loadaddr, playaddr := s.loadaddr + 6,
                   ids := "Zardax" ++ " v2" })
    else if s.p (j + 0x00) = 0xad ∧ s.p (j - 0x01) = 0x60 ∧
        rd32 s (j + 0x03) = 0x07f002c9 ∧ rd32 s (j + 0x08) = 0x4c04d001 then
      (1, { s with initaddr := s.loadaddr, playaddr := s.loadaddr + 6,
                   ids := "MoN/RWE" })
    else
      let cyb2 :=
        if s.p (j + 0x00) = 0xa9 ∧ s.p (j + 0x02) = 0xf0 ∧ s.p (j + 0x04) = 0x60 then
          let k := AdjustJ (rd16 s 3) s.loadaddr
          if ¬CheckJ k s.fsiz then
            if ((s.p (k + 0x00) = 0xa9 ∧ s.p (k + 0x02) = 0x8d) ∨
                (s.p (k + 0x00) = 0xa2 ∧ s.p (k + 0x02) = 0x8e)) ∧
                s.p (k + 0x01) = 0x01 ∧
                (rd16 s (k + 3) : Int) = (s.loadaddr + j - 1) % 0x10000 then
              some ({ s with initaddr := s.loadaddr, playaddr := s.loadaddr + 6,
                             ids := "MoN/Cyb2" })
            else none
          else none
        else none
      match cyb2 with
      | some s2 => (1, s2)
      | none =>
        if s.p (j + 0x00) = 0xad ∧ s.p (j - 0x01) = 0x60 ∧ s.p (j - 0x0f) = 0x8d ∧
            s.p (j - 0x3e) = 0xa2 ∧ rd32 s (j + 0x03) = 0xa26001d0 then
          let s := { s with initaddr := s.loadaddr, playaddr := s.loadaddr + 6 }
          let s := wr s 2 0x4c
          let i := j - 0x3e - 2 + s.loadaddr
          let s := wr s 3 i
          let s := wr s 4 (i / 256)
          (1, { s with ids := "Laxity" ++ " v4" })
        else if s.p (j + 0x03) = 0x8d ∧ s.p (j + 0x12) = 0x8d ∧
            rd32 s (j + 0x06) = 0x690a0a0a ∧ rd32 s (j + 0x28) = 0xA9D4178D then
          (1, { s with initaddr := s.loadaddr + 6, playaddr := s.loadaddr,
                       ids := "Roland Hermans" })
        else Chk_3JMPs2_grp3 s
  else Chk_3JMPs2_grp3 s

/-- `Chk_3JMPs2`: SidDuzzIt / Anvil / Zardax / Deenen / Laxity / JO v1
family behind three leading JMPs. -/
def Chk_3JMPs2 (s : ScanState) : Int × ScanState :=
  if s.fsiz < 0x200 then (0, s)
  else if s.p 2 = 0x4c ∧ s.p 5 = 0x4c ∧ s.p 8 = 0x4c then
    let j := AdjustJ (rd16 s 6) s.loadaddr
    if ¬CheckJ j s.fsiz then
      -- SIDduzzit 2.07
      if s.p (j + 0x00) = 0xa2 ∧ s.p (j + 0x02) = 0x8e ∧ s.p (j + 0x05) = 0xbd ∧
          rd32 s (j + 0x30) = 0xF0F07F29 then
        let j := AdjustJ (rd16 s 3) s.loadaddr
        if ¬CheckJ j s.fsiz then
          let s :=
            if s.p j ≠ 0xaa then
              let s := { s with initaddr := s.loadaddr - 1 }
              let s := ewr s 0 s.initaddr
              let s := { s with extra := 1 }
              let s := wr s 0 (s.initaddr / 256)
              wr s 1 0xaa
            else s
          (1, { s with ids := "SidDuzzIt " ++ "2.07" })
        else
          -- Anvil, entered with the reassigned target
          if s.p (j + 0x00) = 0xa9 ∧ s.p (j + 0x01) = 0x01 ∧ s.p (j + 0x02) = 0x8d ∧
              s.p (j + 0x08) = 0x8d ∧ s.p (j + 0x0b) = 0xa9 then
            let j := AdjustJ (rd16 s 9) s.loadaddr
            if ¬CheckJ j s.fsiz then
              if rd32 s (j - 4) = 0x60EE10CA then
                (1, { s with initaddr := s.loadaddr + 3, playaddr := s.loadaddr + 6,
                             ids := "Anvil" })
              else Chk_3JMPs2_grp2 s
            else Chk_3JMPs2_grp2 s
          else Chk_3JMPs2_grp2 s
      else if s.p (j + 0x00) = 0xa9 ∧ s.p (j + 0x01) = 0x01 ∧ s.p (j + 0x02) = 0x8d ∧
          s.p (j + 0x08) = 0x8d ∧ s.p (j + 0x0b) = 0xa9 then
        let j := AdjustJ (rd16 s 9) s.loadaddr
        if ¬CheckJ j s.fsiz then
          if rd32 s (j - 4) = 0x60EE10CA then
            (1, { s with initaddr := s.loadaddr + 3, playaddr := s.loadaddr + 6,
                         ids := "Anvil" })
          else Chk_3JMPs2_grp2 s
        else Chk_3JMPs2_grp2 s
      else Chk_3JMPs2_grp2 s
    else Chk_3JMPs2_grp2 s
  else (0, s)

/-- `Chk_JOv2`: JO/Vibrants v2. -/
def Chk_JOv2 (s : ScanState) : Int × ScanState :=
  if s.fsiz < 0x200 then (0, s)
  else
    let hit := [(2 : Int), 5, 8].find? (fun i =>
      s.p i == 0x4c &&
      !CheckJ (AdjustJ (rd16 s (i + 1)) s.loadaddr) s.fsiz &&
      (let j := AdjustJ (rd16 s (i + 1)) s.loadaddr
       (s.p (j + 0x00) == 0x8d && s.p (j + 0x03) == 0x8d &&
        rd32 s (j + 0x06) == 0xA9A80A0A) ||
       (s.p (j + 0x00) == 0x8d && rd32 s (j + 0x03) == 0xA9A80A0A)))
    match hit with
    | none => (0, { s with initaddr := s.loadaddr, playaddr := s.loadaddr + 3 })
    | some i =>
      let s := { s with initaddr := s.loadaddr + i - 2 }
      let found := (List.range 0x10).find? (fun j =>
        s.p (i + (j : Int) + 0x03) == 0xad && s.p (i + (j : Int) + 0x06) == 0xc9 &&
        s.p (i + (j : Int) + 0x07) == 0x01 && s.p (i + (j : Int) + 0x08) == 0xf0 &&
        s.p (i + (j : Int) + 0x0a) == 0xc9)
      match found with
      | none => (0, { s with initaddr := s.loadaddr, playaddr := s.loadaddr + 3 })
      | some _ =>
        let s := { s with playaddr := s.initaddr + 3 }
        (1, { s with ids := "JO/Vibrants" ++ " v2" })

/-- The Laxity-v3 / SidFactory-II tail of `Chk_2JMPs`, checked after both
jump-target groups. -/
def Chk_2JMPs_tail (s : ScanState) : Int × ScanState :=
  if s.p 8 = 0x2c ∧ rd32 s 0xb = 0xA9600130 then
    (1, { s with initaddr := s.loadaddr, playaddr := s.loadaddr + 6,
                 ids := "Laxity" ++ " v3" })
  else if s.p 0x08 = 0xa9 ∧ s.p 0x09 = 0x00 ∧ s.p 0x0a = 0x2c ∧ s.p 0x11 = 0xa2 ∧
      (rd32 s 0x0d = 0x38704430 ∨ rd32 s 0x0d = 0x3e704A30 ∨ rd32 s 0x0d = 0x3a704630 ∨
       rd32 s 0x0d = 0x4A705630 ∨ rd32 s 0x0d = 0x30703c30) then
    (1, { s with initaddr := s.loadaddr, playaddr := s.loadaddr + 6,
                 ids := "SidFactory" ++ " II" ++ " v1" })
  else if s.p 0x0b = 0xa9 ∧ s.p 0x0c = 0x00 ∧ s.p 0x0d = 0x2c ∧ s.p 0x14 = 0xa2 ∧
      (rd32 s 0x10 = 0x38704430 ∨ rd32 s 0x10 = 0x46705230 ∨ rd32 s 0x10 = 0x49705530) then
    (1, { s with initaddr := s.loadaddr, playaddr := s.loadaddr + 9,
                 ids := "SidFactory" ++ " II" ++ " v2" })
  else if s.p 0x08 = 0xa9 ∧ s.p 0x09 = 0x00 ∧ s.p 0x0a = 0x24 ∧
      (rd32 s 0x0c = 0x1c702830 ∨ rd32 s 0x0c = 0x1A702630) then
    (1, { s with initaddr := s.loadaddr, playaddr := s.loadaddr + 6,
                 ids := "SidFactory" ++ " II" ++ " v3" })
  else if s.p 0x0b = 0xa9 ∧ s.p 0x0c = 0x00 ∧ s.p 0x0d = 0x8d ∧ s.p 0x10 = 0x2c ∧
      s.p 0x17 = 0xa2 ∧ rd32 s 0x13 = 0x38704430 then
    (1, { s with initaddr := s.loadaddr, playaddr := s.loadaddr + 9,
                 ids := "SidFactory" ++ " II" ++ " v4" })
  else (0, s)

/-- The second jump-target group of `Chk_2JMPs` (XTracker a/b,
LordsOfSonics, Guy Shavitt, Audial Arts, TFMX/MasterComposer,
SidDuzzIt 2.1). -/
def Chk_2JMPs_grp2 (s : ScanState) : Int × ScanState :=
  let j := AdjustJ (rd16 s 3) s.loadaddr
  if ¬CheckJ j s.fsiz then
    if s.p (j + 0x00) = 0xa0 ∧ s.p (j + 0x01) = 0x00 ∧ s.p (j + 0x02) = 0xf0 ∧
        s.p (j + 0x04) = 0x60 then
      (1, { s with initaddr := s.loadaddr + 3, playaddr := s.loadaddr,
                   ids := "XTracker_V4.1" ++ "a" ++ "/LoS" })
    else if s.p (j + 0x00) = 0xce ∧ (s.p (j + 0x02) : Int) = s.loadaddr / 256 ∧
        s.p (j + 0x03) = 0x10 then
      (1, { s with initaddr := s.loadaddr + 3, playaddr := s.loadaddr,
                   ids := "XTracker_V4.1" ++ "b" ++ "/LoS" })
    else if s.p (j + 0x00) = 0x2c ∧ (s.p (j + 0x02) : Int) = s.loadaddr / 256 ∧
        s.p (j + 0x03) = 0x30 ∧ rd32 s (j + 5) = 0xA2600170 then
      (1, { s with initaddr := s.loadaddr + 3, playaddr := s.loadaddr,
                   ids := "LordsOfSonics/MS" })
    else if s.p (j + 0x00) = 0xa2 ∧ s.p (j + 0x01) = 0x00 ∧ s.p 0x08 = 0xad ∧
        s.p 0x0b = 0x10 then
      (1, { s with initaddr := s.loadaddr, playaddr := s.loadaddr + 6,
                   ids := "Guy Shavitt" })
    else if rd32 s (j + 0x00) = 0x00A978A2 ∧ rd32 s (j + 0x07) = 0x20FA10CA ∧
        rd32 s (j + 0x21) = 0xA9F710CA ∧ s.p (j + 0x0d) = 0xb9 then
      let s := { s with initaddr := s.loadaddr - 1 }
      let s := ewr s 0 s.initaddr
      let s := { s with extra := 1 }
      let s := wr s 0 (s.initaddr / 256)
      let s := wr s 1 0xa8
      (1, { s with ids := "Audial Arts" })
    else if rd32 s (j - 0x03) = 0xAD60FA10 ∧ rd32 s (j + 0x03) = 0x0EAE12F0 ∧
        rd32 s (j + 0x0e) = 0x8EE8FA10 then
      (1, { s with initaddr := s.loadaddr + 3, playaddr := s.loadaddr,
                   ids := "TFMX/MasterComposer" })
    else if s.p (j + 0x00) = 0xbd ∧ s.p (j + 0x03) = 0x8d ∧ s.p (j + 0x06) = 0xa9 ∧
        s.p (j + 0x08) = 0x8d ∧ (s.p (j + 0x18) = 0x4a ∨ s.p (j + 0x18) = 0xa9) then
      let s := { s with initaddr := s.loadaddr - 1 }
      let s := ewr s 0 s.initaddr
      let s := { s with extra := 1 }
      let s := wr s 0 (s.initaddr / 256)
      let s := wr s 1 0xaa
      (1, { s with ids := "SidDuzzIt " ++ "2.1" })
    else Chk_2JMPs_tail s
  else Chk_2JMPs_tail s

/-- `Chk_2JMPs`: the two-JMP family (XTracker, NordicBeat, ICC,
Burgstaller, Laxity v3, SidFactory II, ...). -/
def Chk_2JMPs (s : ScanState) : Int × ScanState :=
  if s.fsiz < 0x200 then (0, s)
  else if s.p 2 = 0x4c ∧ s.p 5 = 0x4c then
    let j := AdjustJ (rd16 s 6) s.loadaddr
    if ¬CheckJ j s.fsiz then
      if s.p (j + 0x00) = 0xaa ∧ s.p (j + 0x01) = 0xbd ∧ s.p (j + 0x04) = 0x8d then
        (1, { s with initaddr := s.loadaddr + 3, playaddr := s.loadaddr,
                     ids := "XTracker_V4.1" ++ "c" ++ "/LoS" })
      else if s.p (j + 0x00) = 0xa2 ∧ s.p (j + 0x01) = 0x00 ∧ s.p (j + 0x02) = 0xce ∧
          s.p (j + 0x05) = 0x30 ∧ s.p (j + 0x06) = 0x09 ∧ s.p (j + 0x07) = 0x20 ∧
          s.p (j + 0x0a) = 0x20 ∧ s.p (j + 0x0d) = 0x4c then
        let s := { s with initaddr := s.loadaddr + 6, playaddr := s.loadaddr + 3 }
        let s := wr s 8 0xaa
        let s := wr s 9 0x4c
        let s := wr s 10 s.loadaddr
        let s := wr s 11 (s.loadaddr / 256)
        (1, { s with ids := "NordicBeat" })
      else if rd32 s (j + 0x00) = 0x00A918A2 ∧ rd32 s (j + 0x04) = 0xCAD4009D ∧
          rd32 s (j + 0x43) = 0x06F0F029 ∧ rd32 s (j + 0x53) = 0x06F0F029 ∧
          rd32 s (j + 0xa9) = 0x4A4A4A4A then
        (1, { s with initaddr := s.loadaddr + 3, playaddr := s.loadaddr,
                     ids := "ICC/The Voice" })
      else if rd32 s (j - 0x01) = 0x8d00a960 ∧ rd32 s (j + 0x07) = 0xA2D4188D ∧
          s.p (j + 0x0c) = 0x20 ∧ s.p (j + 0x0f) = 0x20 then
        (1, { s with initaddr := s.loadaddr + 3, playaddr := s.loadaddr,
                     ids := "Burgstaller" ++ " v1" })
      else if rd32 s (j + 0x00) = 0x00A917A2 ∧ rd32 s (j + 0x04) = 0xCAD4009D ∧
          rd32 s (j + 0x0f) = 0xA2D4188D ∧ s.p (j + 0x14) = 0x20 ∧
          s.p (j + 0x17) = 0x20 then
        (1, { s with initaddr := s.loadaddr + 3, playaddr := s.loadaddr,
                     ids := "Burgstaller" ++ " v2" })
      else if s.p j = 0x8d ∧ s.p (j + 0x03) = 0xa2 ∧ s.p (j + 0x04) = 0x00 ∧
          s.p (j + 0x05) = 0x20 ∧ s.p (j + 0x08) = 0x20 ∧
          (rd32 s (j + 0x10) = 0x00690A8A ∨ rd32 s (j + 0x16) = 0x00690A8A) then
        (1, { s with initaddr := s.loadaddr + 3, playaddr := s.loadaddr,
                     ids := "Burgstaller" ++ " v3" })
      else if s.p j = 0x8d ∧ rd32 s (j + 0x05) = 0xA2D4188D ∧ s.p (j + 0x09) = 0x00 ∧
          s.p (j + 0x0a) = 0x20 ∧ s.p (j + 0x0d) = 0x20 ∧
          rd32 s (j + 0x1b) = 0x00690A8A then
        (1, { s with initaddr := s.loadaddr + 3, playaddr := s.loadaddr,
                     ids := "Burgstaller" ++ " v4" })
      else Chk_2JMPs_grp2 s
    else Chk_2JMPs_grp2 s
  else (0, s)

/-- `Chk_LaxityV2`: Laxity v2 1000/1006 at offset 0 or 0x100. -/
def Chk_LaxityV2 (s : ScanState) : Int × ScanState :=
  if s.fsiz < 0x200 then (0, s)
  else
    match [(0 : Int), 0x100].find? (fun k =>
        s.p (2 + k) == 0x4c && s.p (5 + k) == 0x4c &&
        rd32 s (0xa + k) == 0x2CD4188D) with
    | none => (0, s)
    | some k =>
      (1, { s with initaddr := s.loadaddr + 0 + k, playaddr := s.loadaddr + 6 + k,
                   ids := "Laxity" ++ " v2" })

/-- `Chk_HubbardV2`: Rob Hubbard 1000/1012. -/
def Chk_HubbardV2 (s : ScanState) : Int × ScanState :=
  if s.fsiz < 0x200 then (0, s)
  else if s.p 0x02 = 0x4c ∧ s.p 0x05 = 0x4c ∧ s.p 0x08 = 0x4c ∧ s.p 0x0b = 0x4c ∧
      s.p 0x0e = 0x4c ∧ s.p 0x11 = 0x4c then
    match (List.range' 0x14 0x1c).find? (fun j =>
        s.p (0 + (j : Int)) == 0x2c && s.p (3 + (j : Int)) == 0x30 &&
        s.p (5 + (j : Int)) == 0x50) with
    | none => (0, s)
    | some _ =>
      (1, { s with initaddr := s.loadaddr, playaddr := s.loadaddr + 0x12,
                   ids := "Hubbard" ++ " v2" })
  else (0, s)

/-- The inner signature scan of `Chk_HubbardV1` for one base offset `k`:
stop at an `RTS` byte, match the `BIT/BMI/BVC` pattern. -/
def Chk_HubbardV1_inner (s : ScanState) (k : Int) : List Int → Bool
  | [] => false
  | j :: rest =>
    if s.p (0 + (k + j)) = 0x60 then false
    else if s.p (0 + (k + j)) = 0x2c ∧ s.p (3 + (k + j)) = 0x30 ∧
        s.p (5 + (k + j)) = 0x50 then true
    else Chk_HubbardV1_inner s k rest

/-- The outer offset loop of `Chk_HubbardV1`; note the source keeps
scanning all `k` even after a hit, so the *last* match wins. -/
def Chk_HubbardV1_loop (s : ScanState) : List Int → Int × ScanState → Int × ScanState
  | [], acc => acc
  | k :: rest, acc =>
    if s.p (0x02 + k) = 0x4c ∧ s.p (0x05 + k) = 0x4c then
      if Chk_HubbardV1_inner s k ((List.range 0x18).map (fun t => (8 : Int) + t)) then
        Chk_HubbardV1_loop s rest
          (1, { acc.2 with initaddr := s.loadaddr + 0 + k,
                           playaddr := s.loadaddr + 6 + k,
                           ids := "Hubbard" ++ " v1" })
      else Chk_HubbardV1_loop s rest acc
    else Chk_HubbardV1_loop s rest acc

/-- `Chk_HubbardV1`: Rob Hubbard 1000/1006. -/
def Chk_HubbardV1 (s : ScanState) : Int × ScanState :=
  if s.fsiz < 0x200 then (0, s)
  else Chk_HubbardV1_loop s ((List.range 0x101).map (fun k => (k : Int))) (0, s)

/-- `Chk_HubbardV3`: Rob Hubbard 155f/103f (ACE II hacks). -/
def Chk_HubbardV3 (s : ScanState) : Int × ScanState :=
  if s.fsiz < 0x600 then (0, s)
  else if s.p 0x41 = 0xa9 ∧ s.p 0x46 = 0x2c ∧ s.p 0x561 = 0xa9 ∧ s.p 0x562 = 0x40 ∧
      s.p 0x566 = 0x60 ∧ rd32 s 0x49 = 0x40502A30 ∧ rd32 s 0x55 = 0x9DD40499 then
    (1, { s with initaddr := s.loadaddr + 0x55f, playaddr := s.loadaddr + 0x3f,
                 ids := "Hubbard" ++ " v3" })
  else (0, s)

/-- `Chk_HubbardV4`: Rob Hubbard (simpler version of v5) with discovered
init/play entries. -/
def Chk_HubbardV4 (s : ScanState) : Int × ScanState :=
  if s.fsiz < 0x700 then (0, s)
  else
    match (List.range 0x101).find? (fun (k : Nat) =>
        s.p (0x00 + (k : Int)) == 0xa2 && s.p (0x01 + (k : Int)) == 0x02 &&
        s.p (0x02 + (k : Int)) == 0xce && s.p (0x05 + (k : Int)) == 0x10 &&
        s.p (0x06 + (k : Int)) == 0x06 && s.p (0x07 + (k : Int)) == 0xad &&
        s.p (0x2b + (k : Int)) == 0x30 && s.p (0x2d + (k : Int)) == 0x4c &&
        s.p (0x30 + (k : Int)) == 0x4c) with
    | none => (0, s)
    | some i =>
      if 0 < i then
        let j := AdjustJ (rd16 s ((i : Int) + 3)) s.loadaddr
        if ¬CheckJ j s.fsiz then
          let j := j - 0xf0
          match (List.range 0x101).find? (fun (k : Nat) =>
              s.p (j + k + 0x00) == 0xad && s.p (j + k + 0x03) == 0xd0 &&
              ((s.p (j + k + 0x05) == 0xee && s.p (j + k + 0x08) == 0xee) ||
               (s.p (j + k + 0x05) == 0xe6 && s.p (j + k + 0x07) == 0xe6))) with
          | none => (0, { s with initaddr := s.loadaddr, playaddr := s.loadaddr + 3 })
          | some k1 =>
            let s := { s with playaddr := s.loadaddr + j + k1 - 2 }
            match (List.range' k1 (0x101 - k1)).find? (fun (k : Nat) =>
                s.p (j + k + 0x00) == 0xaa && s.p (j + k + 0x01) == 0xbd &&
                s.p (j + k + 0x06) == 0xbd && s.p (j + k + 0x04) == 0x85 &&
                s.p (j + k + 0x09) == 0x85 && s.p (j + k + 0x18) == 0xa2) with
            | none => (0, { s with initaddr := s.loadaddr, playaddr := s.loadaddr + 3 })
            | some k2 =>
              let s := { s with initaddr := s.loadaddr + j + k2 - 2 }
              let s :=
                if 6 ≤ i then
                  let s := wr s 2 0x4c
                  let s := wr s 3 s.initaddr
                  let s := wr s 4 (s.initaddr / 256)
                  let s := wr s 5 0x4c
                  let s := wr s 6 s.playaddr
                  let s := wr s 7 (s.playaddr / 256)
                  { s with initaddr := s.loadaddr, playaddr := s.loadaddr + 3 }
                else s
              (1, { s with ids := "Hubbard" ++ " v4" })
        else (0, s)
      else (0, s)

/-- `Chk_HubbardV5`: Rob Hubbard (FC probably based on this). -/
def Chk_HubbardV5 (s : ScanState) : Int × ScanState :=
  if s.fsiz < 0x700 then (0, s)
  else
    match (List.range 0x101).find? (fun (k : Nat) =>
        s.p (0x00 + (k : Int)) == 0xa2 && s.p (0x01 + (k : Int)) == 0x02 &&
        s.p (0x02 + (k : Int)) == 0xce && s.p (0x05 + (k : Int)) == 0x10 &&
        s.p (0x06 + (k : Int)) == 0x06 && s.p (0x07 + (k : Int)) == 0xad &&
        s.p (0x2e + (k : Int)) == 0x30 && s.p (0x30 + (k : Int)) == 0x4c &&
        s.p (0x33 + (k : Int)) == 0x4c) with
    | none => (0, s)
    | some i =>
      if 0 < i then
        let j := AdjustJ (rd16 s ((i : Int) + 3)) s.loadaddr
        if ¬CheckJ j s.fsiz then
          let j := j - 0xf0
          match (List.range 0x101).find? (fun (k : Nat) =>
              s.p (j + k + 0x00) == 0xad && s.p (j + k + 0x03) == 0xc9 &&
              s.p (j + k + 0x07) == 0xc9 && s.p (j + k + 0x0b) == 0xee &&
              s.p (j + k + 0x0e) == 0xee && s.p (j + k + 0x11) == 0xee) with
          | none => (0, { s with initaddr := s.loadaddr, playaddr := s.loadaddr + 3 })
          | some k1 =>
            let s := { s with playaddr := s.loadaddr + j + k1 - 2 }
            match (List.range' k1 (0x101 - k1)).find? (fun (k : Nat) =>
                s.p (j + k + 0x00) == 0x48 && s.p (j + k + 0x01) == 0xa9 &&
                s.p (j + k + 0x02) == 0x01 && s.p (j + k + 0x03) == 0x8d &&
                s.p (j + k + 0x07) == 0xaa && s.p (j + k + 0x0b) == 0x85 &&
                s.p (j + k + 0x1f) == 0xa2) with
            | none => (0, { s with initaddr := s.loadaddr, playaddr := s.loadaddr + 3 })
            | some k2 =>
              let s := { s with initaddr := s.loadaddr + j + k2 - 2 }
              let s :=
                if 6 ≤ i then
                  let s := wr s 2 0x4c
                  let s := wr s 3 s.initaddr
                  let s := wr s 4 (s.initaddr / 256)
                  let s := wr s 5 0x4c
                  let s := wr s 6 s.playaddr
                  let s := wr s 7 (s.playaddr / 256)
                  { s with initaddr := s.loadaddr, playaddr := s.loadaddr + 3 }
                else s
              (1, { s with ids := "Hubbard" ++ " v5" })
        else (0, s)
      else (0, s)

/-- `Chk_MikeLSD`: Mike/LSD 1006/1003. -/
def Chk_MikeLSD (s : ScanState) : Int × ScanState :=
  if s.fsiz < 0x200 then (0, s)
  else if s.p 0x02 = 0x4c ∧ s.p 0x05 = 0x4c ∧ s.p 0x08 = 0x4c ∧ s.p 0x0b = 0x4c ∧
      s.p 0x0e = 0x4c ∧ rd32 s 0x15 = 0xA90001C9 ∧ rd32 s 0x61 = 0x07E93898 then
    (1, { s with initaddr := s.loadaddr + 6, playaddr := s.loadaddr + 3,
                 ids := "Mike/LSD" ++ " v1" })
  else if s.p 0x02 = 0x4c ∧ s.p 0x05 = 0x4c ∧ s.p 0x08 = 0xa9 ∧ s.p 0x0b = 0x4c ∧
      s.p 0x11 = 0x4c ∧ rd32 s 0x14 = 0xA96080A9 ∧ rd32 s 0xfe = 0x07E9388A then
    (1, { s with initaddr := s.loadaddr + 6, playaddr := s.loadaddr + 3,
                 ids := "Mike/LSD" ++ " v2" })
  else (0, s)

/-- `Chk_Comptech`: Comptech 1003/1000. -/
def Chk_Comptech (s : ScanState) : Int × ScanState :=
  if s.fsiz < 0x200 then (0, s)
  else if s.p 2 = 0x4c ∧ s.p 5 = 0x8d ∧ s.p 8 = 0x60 then
    let j := AdjustJ (rd16 s 3) s.loadaddr
    if ¬CheckJ j s.fsiz then
      if s.p j = 0xad ∧ rd32 s (j + 0x3) = 0xF6F0FFC9 then
        (1, { s with initaddr := s.loadaddr + 3, playaddr := s.loadaddr,
                     ids := "Comptech 2.x/LoS" })
      else (0, s)
    else (0, s)
  else (0, s)

/-- `Chk_SoundMaker`: SoundMaker v3 & 5_Dimension 1000/1006. -/
def Chk_SoundMaker (s : ScanState) : Int × ScanState :=
  if s.fsiz < 0x200 then (0, s)
  else if s.p 2 = 0x4c ∧ s.p 5 ≠ 0x4c ∧ s.p 8 = 0x4c then
    let j := AdjustJ (rd16 s 3) s.loadaddr
    if ¬CheckJ j s.fsiz then
      if s.p j = 0xaa ∧ s.p (j + 1) = 0xbd ∧ s.p (j + 4) = 0x8d ∧ s.p (j + 7) = 0x8a then
        (1, { s with initaddr := s.loadaddr, playaddr := s.loadaddr + 6,
                     ids := "SoundMaker" ++ " v3/UA" })
      else (0, s)
    else (0, s)
  else (0, s)

/-- `Chk_Electrosound`: Electrosound, with heavy in-place patching. -/
def Chk_Electrosound (s : ScanState) : Int × ScanState :=
  if s.fsiz < 0xc00 then (0, s)
  else if rd32 s 0x02 = 0x05D0B0C9 ∧ rd32 s 0x06 = 0x154C30A9 ∧
      rd32 s 0x18a = 0x0a0a0a0a then
    let s := fill s 0xa8a 0 0x278
    let s := wr s 0xa64 0x60
    let s := wr s 0xa7d 0x60
    let s := wr s 0xa86 0x60
    let s := blit s 0xb02 aPatchElcSnd
    let s := wr s 0xb05 (s.loadaddr / 256 + 5)
    let s := wr s 0xb0d (s.loadaddr / 256 + 0xb)
    let s := { s with initaddr := s.loadaddr + 0xb00, playaddr := s.loadaddr + 0xa65 }
    let s := hwr s P_TIMING 1
    (1, { s with ids := "Electrosound" })
  else (0, s)

/-- `Chk_PollyTracker`: PollyTracker (RSID). -/
def Chk_PollyTracker (s : ScanState) : Int × ScanState :=
  if s.fsiz < 0x400 then (0, s)
  else if 0x0800 ≤ s.loadaddr ∧ s.loadaddr ≤ 0x080d ∧
      rd32 s (0x819 - s.loadaddr + 2) = 0x8D02A6AD ∧
      rd32 s (0x81d - s.loadaddr + 2) = 0x38A9080C ∧
      rd32 s (0x89f - s.loadaddr + 2) = 0x4a4a4a4a then
    let s := hwr s P_MARKER 0x52
    let s := { s with initaddr := 0x80d, playaddr := 0 }
    let s := hwr s P_FREEPAGE 4
    let s := hwr s P_FREEPMAX 4
    let s := blit s (0x80e - s.loadaddr + 2) aPatchPolly1
    let s := blit s (0x873 - s.loadaddr + 2) aPatchPolly2
    let s := wr s (0x8b7 - s.loadaddr + 2) 0xa9
    let s := fill s (0x8c8 - s.loadaddr + 2) 0xea 3
    let s := fill s (0x9a4 - s.loadaddr + 2) 0xea 3
    (1, { s with ids := "PollyTracker" })
  else (0, s)

/-- `Chk_Polyanna`: Polyanna (RSID). -/
def Chk_Polyanna (s : ScanState) : Int × ScanState :=
  if s.fsiz < 0x1000 then (0, s)
  else if 0x0800 ≤ s.loadaddr ∧ s.loadaddr ≤ 0x080d ∧
      rd32 s (0x80d - s.loadaddr + 2) = 0xFFA2D878 ∧
      rd32 s (0x81b - s.loadaddr + 2) = 0xD02005AD ∧
      rd32 s (0x100c - s.loadaddr + 2) = 0xA9FFFB8D then
    let s := hwr s P_MARKER 0x52
    let s := { s with initaddr := 0x154d, playaddr := 0 }
    let s := blit s (s.initaddr - s.loadaddr + 2) aPatchPolyAn
    (1, { s with ids := "Polyanna" })
  else (0, s)

/-- `Chk_MasterComp`: Master Composer; on a match the file window is
re-based (`p += j; fsiz -= j; loadaddr += j`) before patching. -/
def Chk_MasterComp (s : ScanState) : Int × ScanState :=
  if s.fsiz < 0x400 then (0, s)
  else
    match (List.range (s.fsiz - 0x300).toNat).find? (fun (k : Nat) =>
        rd32 s ((k : Int) + 0x02) == 0x29D404AD &&
        rd32 s ((k : Int) + 0x06) == 0xD4048DFE &&
        rd32 s ((k : Int) + 0x12) == 0x29D412AD &&
        rd32 s ((k : Int) + 0x16) &&& 0xff00ffff == 0xD4008DFE &&
        decide ((rd16 s ((k : Int) + 0x9c) : Int) = ((k : Int) + s.loadaddr) % 0x10000)) with
    | none => (0, s)
    | some j =>
      let s := { s with p := fun x => s.p (x + (j : Int)), fsiz := s.fsiz - (j : Int),
                        loadaddr := s.loadaddr + (j : Int) }
      let s := { s with initaddr := s.loadaddr - 0x0d, playaddr := s.loadaddr - 0x06 }
      let s := ewr s 0 s.initaddr
      let s := ewr s 1 (s.initaddr / 256)
      let s := eblit s 2 aPatchMastCm
      let s := ewr s 5 (s.loadaddr - 0x05)
      let s := ewr s 6 ((s.loadaddr - 0x05) / 256)
      let s := wr s 0 0x60
      let s := wr s 1 0x00
      let s := { s with extra := 13 }
      let s := hwr s P_TIMING 1
      let s := if s.p 0x18 = 0x04 then wr s 0x18 0x12 else s
      let s := fill s 0x1a 0x60 3
      let s := fill s 0x36 0x60 3
      let s := wr s 0x85 0xea
      let s := fill s 0x90 0xea 0x0b
      let s := wr s 0x90 0xa9
      let s := wr s 0x91 0x00
      let s := wr s 0x92 0x8d
      let s := wr s 0x93 (s.loadaddr - 0x05)
      let s := wr s 0x94 ((s.loadaddr - 0x05) / 256)
      let s := fill s 0x24c 0x60 3
      let s := wr s 0x25a 0xea
      let s := wr s 0x25b 0x4c
      let s := wr s 0x25c (s.loadaddr + 0x26b)
      let s := wr s 0x25d ((s.loadaddr + 0x26b) / 256)
      let s := wr s 0x265 0xea
      let s := fill s 0x289 0xea 0x0c
      (1, { s with ids := "Master Composer" })

/-- `Chk_Ubik`: Ubik's music. -/
def Chk_Ubik (s : ScanState) : Int × ScanState :=
  if s.fsiz < 0x400 then (0, s)
  else
    match (List.range' 0x68 ((s.fsiz - 0x300).toNat - min 0x68 (s.fsiz - 0x300).toNat)).find?
        (fun (k : Nat) =>
          s.p (k : Int) == 0xad && rd32 s ((k : Int) + 0x03) == 0x22D00330 &&
          rd32 s ((k : Int) + 0x07) == 0x7F291860 &&
          rd32 s ((k : Int) + 0x30) == 0xA8306918) with
    | none => (0, s)
    | some j =>
      let k0 : Int := (j : Int) - 0x66
      let s := { s with initaddr := k0 + s.loadaddr - 2 }
      let s := { s with playaddr := s.initaddr + 3 }
      let s := fill s k0 0 0x66
      let s := blit s k0 aPatchUbiksM
      let s := wr s (k0 + 1) (s.playaddr + 3)
      let s := wr s (k0 + 2) ((s.playaddr + 3) / 256)
      let s := wr s (k0 + 4) (s.playaddr + 22)
      let s := wr s (k0 + 5) ((s.playaddr + 22) / 256)
      let s := wr s (k0 + 10) (s.p ((j : Int) + 1))
      let s := wr s (k0 + 11) (s.p ((j : Int) + 2))
      let s := wr s (k0 + 33) ((j : Int) + s.loadaddr - 2)
      let s := wr s (k0 + 34) (((j : Int) + s.loadaddr - 2) / 256)
      let s := hwr s P_SUBTUNES 9
      (1, { s with ids := "Ubik's Music" })

/-- `Chk_AMP1`: AMP 1.x with a backwards `RTS` scan; when the scan fails the
source leaves `playaddr` clobbered and still reports no match. -/
def Chk_AMP1 (s : ScanState) : Int × ScanState :=
  if s.fsiz < 0x600 then (0, s)
  else
    match (List.range' 0x300 0x100).find? (fun (k : Nat) =>
        rd32 s (k : Int) == 0x0BB015E0 && s.p ((k : Int) + 0x4) == 0xad &&
        s.p ((k : Int) + 0x7) == 0x3d && s.p ((k : Int) + 0xa) == 0xf0) with
    | none => (0, s)
    | some k =>
      match (List.range 8).find? (fun (t : Nat) => s.p ((k : Int) - (t : Int)) == 0x60) with
      | none => (0, { s with playaddr := (k : Int) - 8 })
      | some t =>
        match (List.range' k (0x400 - k)).find? (fun (k2 : Nat) =>
            s.p (k2 : Int) == 0x60 && s.p ((k2 : Int) + 1) == 0xa9) with
        | none => (0, { s with playaddr := s.initaddr + 3 })
        | some k2 =>
          let s := { s with playaddr := ((k : Int) - (t : Int)) + 1 + s.loadaddr - 2,
                            initaddr := ((k2 : Int) + 1) + s.loadaddr - 2 }
          (1, { s with ids := "AMP 1.x" })

/-- `Chk_Boogaloo`: Boogaloo 1003/1000. -/
def Chk_Boogaloo (s : ScanState) : Int × ScanState :=
  if s.fsiz < 0x200 then (0, s)
  else if s.p 0x2 = 0x4c ∧ s.p 0xd = 0xd4 ∧ rd32 s 0x05 = 0x9DAA0029 then
    (1, { s with initaddr := s.loadaddr + 3, playaddr := s.loadaddr + 0,
                 ids := "Boogaloo" })
  else (0, s)

/-- `Chk_Bjerregaard1`: TAX+1000, variable play around 10xx. -/
def Chk_Bjerregaard1 (s : ScanState) : Int × ScanState :=
  if s.fsiz < 0x200 then (0, s)
  else
    let found :=
      if s.p 2 = 0x4c then
        (List.range 0x100).find? (fun (k : Nat) =>
          s.p (k : Int) == 0xad && rd32 s ((k : Int) + 3) == 0xCE600110 &&
          s.p ((k : Int) + 0x9) == 0x10)
      else none
    match found with
    | none => (0, s)
    | some k =>
      if 0 < k then
        let s := { s with initaddr := s.loadaddr - 1 }
        let s := ewr s 0 s.initaddr
        let s := { s with extra := 1 }
        let s := wr s 0 (s.initaddr / 256)
        let s := wr s 1 0xaa
        let j := (k : Int) + s.loadaddr - 2
        let s :=
          if s.p 5 = 0x4c then
            if j ≠ (rd16 s 6 : Int) then { s with playaddr := j } else s
          else { s with playaddr := j }
        (1, { s with ids := "Bjerregaard" ++ " v1" })
      else (0, s)

/-- `Chk_Bjerregaard2`: 109b/10a1. -/
def Chk_Bjerregaard2 (s : ScanState) : Int × ScanState :=
  if s.fsiz < 0x200 then (0, s)
  else
    match (List.range 0x100).find? (fun (k : Nat) =>
        s.p ((k : Int) + 0x00) == 0x4c && s.p ((k : Int) + 0x03) == 0x4c &&
        s.p ((k : Int) + 0x06) == 0x4c && s.p ((k : Int) + 0x1b) == 0xa9 &&
        rd32 s ((k : Int) + 0x1d) == 0xA26001D0 &&
        rd32 s ((k : Int) + 0x21) == 0xA5DDC602) with
    | none => (0, s)
    | some k =>
      if 0 < k then
        let s := { s with initaddr := s.loadaddr + (k : Int) - 2 }
        (1, { s with playaddr := s.initaddr + 6, ids := "Bjerregaard" ++ " v2" })
      else (0, s)

/-- `Chk_ReflexTrk`: Reflextracker. -/
def Chk_ReflexTrk (s : ScanState) : Int × ScanState :=
  if s.fsiz + s.loadaddr > 0xc500 ∧ s.fsiz + s.loadaddr < 0xd000 then
    if rd32 s (0xc000 - s.loadaddr + 2) = 0x4CC02C4C ∧
        rd16 s (0xc004 - s.loadaddr + 2) = 0xC016 ∧
        rd32 s (0xc00a - s.loadaddr + 2) = 0xC02C2001 then
      let s := { s with initaddr := 0xc006, playaddr := 0 }
      let s := hwr s P_MARKER 0x52
      (1, { s with ids := "ReflexTracker" })
    else (0, s)
  else (0, s)

/-- `Chk_FAME` v3 tail: the final direct signature. -/
def Chk_FAME_v3 (s : ScanState) : Int × ScanState :=
  if s.p 0x2 = 0x4c ∧ s.p 0x9 = 0x8d ∧ rd32 s 0x05 = 0x00A959A2 then
    (1, { s with initaddr := s.loadaddr + 3, playaddr := s.loadaddr + 0,
                 ids := "FAME" ++ " v3" })
  else (0, s)

/-- `Chk_FAME` v2 stage: outer search then inner search continuing at the
same index. -/
def Chk_FAME_v2 (s : ScanState) : Int × ScanState :=
  match (List.range 0xff).find? (fun (k : Nat) =>
      rd32 s ((k : Int) + 0x00) == 0xA959A2A8) with
  | none => Chk_FAME_v3 s
  | some j =>
    match (List.range' j (0x200 - j)).find? (fun (k : Nat) =>
        rd32 s ((k : Int) + 0x00) == 0x7D1898C8 && s.p ((k : Int) + 0x0e) == 0x4c &&
        s.p ((k : Int) + 0x11) == 0x4c && s.p ((k : Int) + 0x14) == 0xa2) with
    | none => Chk_FAME_v3 s
    | some k2 =>
      let s1 := { s with initaddr := (j : Int) + s.loadaddr - 2,
                         playaddr := (k2 : Int) + s.loadaddr - 2 + 0x14 }
      if 0 < j then (1, { s1 with ids := "FAME" ++ " v2" })
      else Chk_FAME_v3 s1

/-- `Chk_FAME`: FAME; a v1 hit at offset 0 mutates init/play yet falls
through to the later stages, exactly as the source does. -/
def Chk_FAME (s : ScanState) : Int × ScanState :=
  if s.fsiz < 0x300 then (0, s)
  else
    match (List.range 0x80).find? (fun (k : Nat) =>
        s.p ((k : Int) + 0x00) == 0xaa && s.p ((k : Int) + 0x01) == 0xbd &&
        s.p ((k : Int) + 0x04) == 0x8d && s.p ((k : Int) + 0x35) == 0x4c &&
        s.p ((k : Int) + 0x38) == 0xa2 && rd32 s ((k : Int) + 0x07) == 0x50850A8A &&
        rd32 s ((k : Int) + 0x0b) == 0x5065180A) with
    | none => Chk_FAME_v2 s
    | some k =>
      let s1 := { s with initaddr := (k : Int) + s.loadaddr - 2,
                         playaddr := (k : Int) + s.loadaddr - 2 + 0x38 }
      if 0 < k then (1, { s1 with ids := "FAME" ++ " v1" })
      else Chk_FAME_v2 s1

/-- `Chk_20CC` v2 tail. -/
def Chk_20CC_v2 (s : ScanState) : Int × ScanState :=
  if s.p 2 = 0xa4 ∧ s.p 8 = 0x4c ∧ rd32 s 0x04 = 0x03F00930 ∧
      rd32 s 0x0c = 0xA260D418 then
    let s := { s with extra := 5 }
    let s := { s with initaddr := s.loadaddr - 5, playaddr := s.loadaddr }
    let s := ewr s 0 s.initaddr
    let s := ewr s 1 (s.initaddr / 256)
    let s := ewr s 2 0xa9
    let s := ewr s 3 0x01
    let s := ewr s 4 0x85
    let s := wr s 0 (s.p 3)
    let s := wr s 1 0x60
    (1, { s with ids := "20CC" ++ " v2" })
  else (0, s)

/-- `Chk_20CC`: 20th Century Composers. -/
def Chk_20CC (s : ScanState) : Int × ScanState :=
  if s.fsiz < 0x300 then (0, s)
  else
    match (List.range 0x100).find? (fun (k : Nat) =>
        (s.p ((k : Int) + 0x00) == 0xa9 && s.p ((k : Int) + 0x02) == 0x30 &&
         s.p ((k : Int) + 0x04) == 0xf0 && s.p ((k : Int) + 0x0a) == 0xb9 &&
         s.p ((k : Int) + 0x10) == 0xb9 && s.p ((k : Int) + 0x0d) == 0x8d &&
         s.p ((k : Int) + 0x13) == 0x8d && rd32 s ((k : Int) + 0x06) == 0xa80a0a0a) ||
        (s.p ((k : Int) + 0x00) == 0xa0 && s.p ((k : Int) + 0x02) == 0x30 &&
         s.p ((k : Int) + 0x04) == 0xf0 && s.p ((k : Int) + 0x06) == 0x88 &&
         s.p ((k : Int) + 0x07) == 0x98 && s.p ((k : Int) + 0x0c) == 0xb9 &&
         rd32 s ((k : Int) + 0x08) == 0xa80a0a0a) ||
        (s.p ((k : Int) + 0x00) == 0xa0 && s.p ((k : Int) + 0x02) == 0x30 &&
         s.p ((k : Int) + 0x04) == 0xf0 && s.p ((k : Int) + 0x06) == 0xA2 &&
         s.p ((k : Int) + 0x07) == 0x17 && s.p ((k : Int) + 0x15) == 0x8E &&
         s.p ((k : Int) + 0x22) == 0xb9)) with
    | none => Chk_20CC_v2 s
    | some j =>
      if 0 < j then
        let s := { s with extra := 6 }
        let s := { s with initaddr := s.loadaddr - 6, playaddr := (j : Int) + s.loadaddr - 2 }
        let s := ewr s 0 s.initaddr
        let s := ewr s 1 (s.initaddr / 256)
        let s := ewr s 2 0xa9
        let s := ewr s 3 0x01
        let s := ewr s 4 0x8d
        let s := ewr s 5 (s.playaddr + 1)
        let s := wr s 0 ((s.playaddr + 1) / 256)
        let s := wr s 1 0x60
        (1, { s with ids := "20CC" ++ " v1" })
      else Chk_20CC_v2 s

/-- `Chk_CTExe`: Cybertracker/EXE. -/
def Chk_CTExe (s : ScanState) : Int × ScanState :=
  if s.loadaddr = 0x800 ∧ s.fsiz > 0x4000 ∧ rd32 s 0x3ee1 = 0x9AFFA278 ∧
      rd32 s 0x4001 = 0x4C4A7D4C ∧ rd32 s 0x40dc = 0x4a4a4a4a then
    let s := { s with initaddr := 0x53A2, playaddr := 0x53E2 }
    let s := if s.p 0x4be7 = 0x20 then wr s 0x4be7 0x2c else s
    (1, { s with ids := "Cybertracker/EXE" })
  else (0, s)

/-- `Chk_System6581`: System 6581; the name is written before the shared
patch epilogue. -/
def Chk_System6581 (s : ScanState) : Int × ScanState :=
  if s.fsiz < 0x200 then (0, s)
  else
    let v1 := rd32 s 0x02 &&& 0x0fffffff = 0x092CF0AA ∧ rd32 s 0x17 = 0xD4009DAA ∧
      rd32 s 0x22 = 0x8E01A2F5
    let v2 := rd32 s 0x02 = 0xC930F0A8 ∧ rd32 s 0x06 = 0x4C35D001 ∧
      rd32 s 0x43 &&& 0xff1fffff = 0xD4009DAA ∧ rd32 s 0x4d = 0x3898F5D0
    if v1 ∨ v2 then
      let s := { s with ids := if decide v1 then "System6581" ++ " v1"
                               else "System6581" ++ " v2" }
      let s := { s with extra := 7 }
      let s := { s with initaddr := s.loadaddr - 7, playaddr := s.loadaddr - 2 }
      let s := ewr s 0 s.initaddr
      let s := ewr s 1 (s.initaddr / 256)
      let s := ewr s 2 0x18
      let s := ewr s 3 0x69
      let s := ewr s 4 0x02
      let s := ewr s 5 0xd0
      let s := ewr s 6 0x02
      let s := wr s 0 0xa9
      let s := wr s 1 0x01
      (1, s)
    else (0, s)

/-- `Chk_MattGray`: LDA #01 STA 1000/1002. -/
def Chk_MattGray (s : ScanState) : Int × ScanState :=
  if s.fsiz < 0x200 then (0, s)
  else if s.p 0x04 = 0xa2 ∧ s.p 0x05 = 0x00 ∧ s.p 0x06 = 0x20 ∧ s.p 0x13 = 0x60 ∧
      s.p 0x14 = 0xad ∧ s.p 0x15 = u8 s.loadaddr ∧ s.p 0x16 = u8 (s.loadaddr / 256) ∧
      s.p 0x1d = 0xc9 ∧ s.p 0x1e = 0xab then
    let s := { s with extra := 6 }
    let s := { s with initaddr := s.loadaddr - 6, playaddr := s.loadaddr + 2 }
    let s := ewr s 0 s.initaddr
    let s := ewr s 1 (s.initaddr / 256)
    let s := ewr s 2 0xa9
    let s := ewr s 3 0x01
    let s := ewr s 4 0x8d
    let s := ewr s 5 s.loadaddr
    let s := wr s 0 (s.loadaddr / 256)
    let s := wr s 1 0x60
    (1, { s with ids := "Matt Gray" })
  else (0, s)

/-- `Chk_PowerMus`: Power Music. -/
def Chk_PowerMus (s : ScanState) : Int × ScanState :=
  if s.fsiz < 0x200 then (0, s)
  else if s.p 0x03 = 0xad ∧ s.p 0x04 = 0x00 ∧ s.p 0x05 = u8 (s.loadaddr / 256) ∧
      rd32 s 0x06 = 0x01103AF0 ∧ rd32 s 0x0a = 0x01E93860 then
    let s := { s with extra := 7 }
    let s := { s with initaddr := s.loadaddr - 7, playaddr := s.loadaddr + 1 }
    let s := ewr s 0 s.initaddr
    let s := ewr s 1 (s.initaddr / 256)
    let s := ewr s 2 0x18
    let s := ewr s 3 0x69
    let s := ewr s 4 0x01
    let s := ewr s 5 0x8d
    let s := ewr s 6 s.loadaddr
    let s := wr s 0 (s.loadaddr / 256)
    let s := wr s 1 0x60
    (1, { s with ids := "Power Music" })
  else (0, s)

/-- Accumulating scan loop of `Chk_GRGTiny2`: flags in `j`, candidate
entry points threaded through; stops early once both flags are set. -/
def Chk_GRGTiny2_loop (s : ScanState) : Nat → Int → Nat → Int → Int → Nat × Int × Int
  | 0, _, j, ia, pa => (j, ia, pa)
  | fuel + 1, k, j, ia, pa =>
    let jpa : Nat × Int :=
      if s.p k = 0xa2 ∧ s.p (k + 1) = 0x0e ∧ s.p (k + 2) = 0x86 then
        (j ||| 1, k + s.loadaddr - 2)
      else (j, pa)
    let j := jpa.1
    let pa := jpa.2
    let jia : Nat × Int :=
      if s.p k = 0xa9 ∧ s.p (k + 1) = 0x60 ∧
          ((s.p (k + 2) = 0x8d ∧ s.p (k + 5) = 0xa2) ∨
           (s.p (k + 2) = 0x85 ∧ s.p (k + 4) = 0xa2)) then
        let ia0 := k + s.loadaddr - 2
        let ia1 :=
          match (List.range 28).find? (fun (t : Nat) =>
              rd32 s (k - 4 - t) &&& 0xffffffac == 0xD002A6Ac) with
          | some t => (k - 4 - (t : Int)) + s.loadaddr - 2
          | none => ia0
        (j ||| 2, ia1)
      else (j, ia)
    let j := jia.1
    let ia := jia.2
    if j = 3 then (j, ia, pa)
    else Chk_GRGTiny2_loop s fuel (k + 1) j ia pa

/-- `Chk_GRGTiny2`: GRG tiny2 with variable entry points; on a miss the
defaults are re-imposed. -/
def Chk_GRGTiny2 (s : ScanState) : Int × ScanState :=
  if s.fsiz < 0x100 then (0, s)
  else
    let r := Chk_GRGTiny2_loop s (s.fsiz - 0x20).toNat 0 0 s.initaddr s.playaddr
    if r.1 = 3 then
      (1, { s with initaddr := r.2.1, playaddr := r.2.2, ids := "GRG Tiny2" })
    else (0, { s with initaddr := s.loadaddr, playaddr := s.loadaddr + 3 })

/-- Accumulating scan loop of `Chk_GRGTiny4`. -/
def Chk_GRGTiny4_loop (s : ScanState) : Nat → Int → Nat → Int → Int → Nat × Int × Int
  | 0, _, j, ia, pa => (j, ia, pa)
  | fuel + 1, k, j, ia, pa =>
    let jpa : Nat × Int :=
      if s.p k = 0xa2 ∧ s.p (k + 1) = 0x0e ∧ s.p (k + 2) = 0xb5 ∧
          s.p (k + 4) = 0xf0 ∧ s.p (k + 6) = 0xd6 ∧ s.p (k + 8) = 0xd0 then
        (j ||| 1, k + s.loadaddr - 2)
      else (j, pa)
    let j := jpa.1
    let pa := jpa.2
    let jpa2 : Nat × Int :=
      if s.p k = 0xa2 ∧ s.p (k + 1) = 0x0e ∧ s.p (k + 2) = 0xb4 ∧
          s.p (k + 4) = 0xb5 ∧ s.p (k + 6) = 0x10 ∧ s.p (k + 8) = 0xa5 then
        (j ||| 1, k + s.loadaddr - 2)
      else (j, pa)
    let j := jpa2.1
    let pa := jpa2.2
    let jia : Nat × Int :=
      if s.p k = 0xa9 ∧ s.p (k + 1) = 0x00 ∧ s.p (k + 2) = 0xa2 ∧
          (s.p (k + 3) = 0x14 ∨ s.p (k + 3) = 0x16) ∧ s.p (k + 6) = 0xd4 then
        (j ||| 2, k + s.loadaddr - 2)
      else (j, ia)
    let j := jia.1
    let ia := jia.2
    if j = 3 then (j, ia, pa)
    else Chk_GRGTiny4_loop s fuel (k + 1) j ia pa

/-- `Chk_GRGTiny4`: GRG tiny4 with variable entry points; on a miss the
defaults are re-imposed. -/
def Chk_GRGTiny4 (s : ScanState) : Int × ScanState :=
  if s.fsiz < 0x100 then (0, s)
  else
    let r := Chk_GRGTiny4_loop s (s.fsiz - 0x20).toNat 0 0 s.initaddr s.playaddr
    if r.1 = 3 then
      (1, { s with initaddr := r.2.1, playaddr := r.2.2, ids := "GRG Tiny4" })
    else (0, { s with initaddr := s.loadaddr, playaddr := s.loadaddr + 3 })

/-- `Chk_Yip`: Yip Megasound. -/
def Chk_Yip (s : ScanState) : Int × ScanState :=
  if s.fsiz < 0x200 then (0, s)
  else
    match (List.range 0x4f).find? (fun (k : Nat) =>
        s.p ((k : Int) + 0x00) == 0xa9 && s.p ((k : Int) + 0x01) == 0x01 &&
        s.p ((k : Int) + 0x02) == 0x8d && s.p ((k : Int) + 0x28) == 0xa9 &&
        s.p ((k : Int) + 0x2e) == 0xad && s.p ((k : Int) + 0x31) == 0xd0 &&
        s.p ((k : Int) + 0x32) == 0x20 && s.p ((k : Int) + 0x33) == 0x60) with
    | none => (0, s)
    | some k =>
      let s := { s with initaddr := (k : Int) + s.loadaddr - 2 }
      let s := { s with playaddr := s.initaddr + 0x2e }
      (1, { s with ids := "Yip Megasound" })

/-- `Chk_TFX1`: TFX 1.0, 1106/1100. -/
def Chk_TFX1 (s : ScanState) : Int × ScanState :=
  if s.fsiz < 0x200 then (0, s)
  else if s.p 0x102 = 0x4c ∧ s.p 0x105 = 0x4c ∧ s.p 0x10e = 0xa8 ∧
      s.p 0x10f = 0xb9 ∧ rd32 s 0x108 = 0x8d0a0a0a then
    (1, { s with initaddr := s.loadaddr + 0x106, playaddr := s.loadaddr + 0x100,
                 ids := "TFX 1.0" })
  else (0, s)

/-- `Chk_Griff1`: Griff v1, TAY+1048/10e0. -/
def Chk_Griff1 (s : ScanState) : Int × ScanState :=
  if s.fsiz < 0x200 then (0, s)
  else if rd32 s (0x48 + 0x02) = 0x00A900A2 ∧ rd32 s (0x4E + 0x02) = 0x033C9DD4 ∧
      rd32 s (0x92 + 0x02) = 0x6003808D ∧ rd32 s (0xe0 + 0x02) = 0xF0039CAD then
    let s := wr s 2 0x4c
    let s := wr s 3 (s.loadaddr + 0x47)
    let s := wr s 4 ((s.loadaddr + 0x47) / 256)
    let s := wr s 5 0x4c
    let s := wr s 6 (s.loadaddr + 0xe0)
    let s := wr s 7 ((s.loadaddr + 0xe0) / 256)
    let s := wr s (0x47 + 2) 0xa8
    (1, { s with initaddr := s.loadaddr, playaddr := s.loadaddr + 3, ids := "Griff" })
  else (0, s)

/-- `Chk_Griff2`: Griff v2 / LightVoices, TAY+1000/1003. -/
def Chk_Griff2 (s : ScanState) : Int × ScanState :=
  if s.fsiz < 0x200 then (0, s)
  else if s.p 2 = 0x4c ∧ rd32 s (0x00 + 0x05) = 0xF003A8AD ∧
      rd32 s (0x04 + 0x05) = 0x50AD6001 ∧ rd32 s (0x08 + 0x05) = 0xD4188D03 ∧
      rd32 s (0x0C + 0x05) = 0x8D0351AD then
    let s := { s with initaddr := s.loadaddr - 1 }
    let s := ewr s 0 s.initaddr
    let s := { s with extra := 1 }
    let s := wr s 0 (s.initaddr / 256)
    let s := wr s 1 0xa8
    (1, { s with ids := "Griff" ++ "/LightVoices" })
  else (0, s)

/-- `Chk_Ariston`: Ariston, TAX+INX+STX 1000/1001; a hit at offset 0 counts
(the source tests `j >= 0`). -/
def Chk_Ariston (s : ScanState) : Int × ScanState :=
  if s.fsiz < 0x200 then (0, s)
  else
    match (List.range 5).find? (fun (k : Nat) =>
        (s.p ((k : Int) + 0x03) == 0xad &&
         (rd16 s ((k : Int) + 0x04) : Int) == s.loadaddr + (k : Int) &&
         s.p ((k : Int) + 0x06) == 0xd0 && s.p ((k : Int) + 0x07) == 0x09 &&
         s.p ((k : Int) + 0x08) == 0x8d && s.p ((k : Int) + 0x0b) == 0x20 &&
         s.p ((k : Int) + 0x0e) == 0x4c &&
         s.p ((k : Int) + 0x0d) == s.p ((k : Int) + 0x10)) ||
        (s.p ((k : Int) + 0x03) == 0xad &&
         (rd16 s ((k : Int) + 0x04) : Int) == s.loadaddr + (k : Int) &&
         s.p ((k : Int) + 0x06) == 0xc9 && s.p ((k : Int) + 0x07) == 0xff &&
         s.p ((k : Int) + 0x08) == 0xf0 && s.p ((k : Int) + 0x09) == 0x3c &&
         s.p ((k : Int) + 0x17) == 0x20 && s.p ((k : Int) + 0x1a) == 0x4c &&
         s.p ((k : Int) + 0x1c) == s.p ((k : Int) + 0x19))) with
    | none => (0, s)
    | some k =>
      let s := { s with playaddr := s.loadaddr + (k : Int) + 1,
                        initaddr := s.loadaddr - 6 }
      let s := ewr s 0 s.initaddr
      let s := ewr s 1 (s.initaddr / 256)
      let s := ewr s 2 0xaa
      let s := ewr s 3 0xe8
      let s := ewr s 4 0x8e
      let s := ewr s 5 (s.p ((k : Int) + 0x04))
      let s := { s with extra := 6 }
      let s := wr s 0 (s.p ((k : Int) + 0x05))
      let s := wr s 1 0x60
      (1, { s with ids := "Ariston" })

/-- `Chk_Winterberg`: Winterberg 102a/105a. -/
def Chk_Winterberg (s : ScanState) : Int × ScanState :=
  if s.fsiz < 0x200 then (0, s)
  else
    match (List.range' 2 0x2e).find? (fun (i : Nat) =>
        rd32 s (i : Int) == 0x9D8A00A2 &&
        (rd16 s (0x04 + (i : Int)) : Int) == s.loadaddr / 256 % 256 * 256 &&
        rd32 s (0x06 + (i : Int)) == 0xD02AE0E8 &&
        rd32 s (0x37 + (i : Int)) == 0x4C03F000) with
    | none => (0, s)
    | some i =>
      let s := { s with initaddr := s.loadaddr + (i : Int) - 2 }
      let s := { s with playaddr := s.initaddr + 0x30 }
      let s := hwr s P_TIMING 1
      let j : Int := (i : Int) + 0x10
      let s := fill s j 0xea 10
      let s := wr s (j + 0) 0xa9
      let s := wr s (j + 1) 0x25
      let s := wr s (j + 2) 0x8d
      let s := wr s (j + 3) 0x04
      let s := wr s (j + 4) 0xdc
      let s := wr s (0x143 + (i : Int)) 0x60
      (1, { s with ids := "Winterberg" })

/-- `Chk_Jensen`: Henrik Jensen 100f/1015. -/
def Chk_Jensen (s : ScanState) : Int × ScanState :=
  if s.fsiz < 0x800 then (0, s)
  else
    match (List.range 0x10).find? (fun (i : Nat) =>
        s.p (0x0e + (i : Int)) == 0x4c && s.p (0x11 + (i : Int)) == 0x4c &&
        s.p (0x14 + (i : Int)) == 0x4c && s.p (0x17 + (i : Int)) == 0xce &&
        s.p (0x1a + (i : Int)) == 0xce && s.p (0x20 + (i : Int)) == 0xa9 &&
        rd32 s (0x5b + (i : Int)) == 0x0AD00F30) with
    | none => (0, s)
    | some k =>
      (1, { s with initaddr := s.loadaddr + 0x0f + (k : Int),
                   playaddr := s.loadaddr + 0x15 + (k : Int),
                   ids := "Henrik Jensen" })

/-- `Chk_MegaVision`: MegaVision lda #80 + 1000/103e. -/
def Chk_MegaVision (s : ScanState) : Int × ScanState :=
  if s.fsiz < 0xb00 then (0, s)
  else if s.p 0x0f = 0xad ∧ s.p 0x10 = 0x2d ∧ rd32 s 0x05c = 0xD40099A8 ∧
      rd32 s 0x060 = 0xD018C0C8 ∧ rd32 s 0x1e0 = 0x60E93809 then
    let s := wr s 2 0xa9
    let s := wr s 3 0x80
    let s := wr s 4 0x8d
    let s := wr s 5 0x28
    let s := wr s 6 (s.loadaddr / 256)
    let s := fill s 7 0xea 8
    let s := wr s 0x26 0x60
    let s := wr s 0x36 0x60
    let s := wr s 0x904 0x60
    let s := hwr s P_TIMING 1
    (1, { s with initaddr := s.loadaddr, playaddr := s.loadaddr + 0x3e,
                 ids := "MegaVision" })
  else (0, s)

/-- `Chk_SkylineTech_Danne`: SkylineTech/Danne 1003/1000 with the optional
Skyline stack fix changing the name. -/
def Chk_SkylineTech_Danne (s : ScanState) : Int × ScanState :=
  if s.fsiz < 0x600 then (0, s)
  else
    let i : Nat := ((s.loadaddr + 0x5d).toNat * 256 ||| 0xad00004c) % 4294967296
    if rd32 s 0x02 = i ∧ rd32 s 0x08 = 0xA903418D ∧ rd32 s 0x4a = 0xD4009DAA ∧
        rd32 s 0x90 = 0x0341AD03 then
      let s := { s with initaddr := s.loadaddr + 3, playaddr := s.loadaddr + 0,
                        ids := "SkylineTech/Danne" }
      let r := fixsklstack s 2 (s.fsiz - 2)
      let s := r.2
      if r.1 = 0x100 then (1, { s with ids := s.ids ++ " (fixed)" })
      else (1, s)
    else (0, s)

/-- `Chk_Deflemask` v2 success path; `i8` selects the in-place jump table
over the prepended extra bytes. -/
def Chk_Deflemask_v2w (s : ScanState) (i8 : Bool) : Int × ScanState :=
  let s := { s with initaddr := s.loadaddr / 256 % 256 * 256 }
  let s := { s with playaddr := s.initaddr + 3 }
  let j : Int := s.initaddr / 256 % 256 + 1
  let s :=
    if i8 then
      let s := wr s 2 0x4c
      let s := wr s 3 0x0f
      let s := wr s 4 j
      let s := wr s 5 0x4c
      let s := wr s 6 0x17
      wr s 7 j
    else
      let s := { s with extra := 6 }
      let s := ewr s 0 s.initaddr
      let s := ewr s 1 (s.initaddr / 256)
      let s := ewr s 2 0x4c
      let s := ewr s 3 0x0f
      let s := ewr s 4 j
      let s := ewr s 5 0x4c
      let s := wr s 0 0x17
      wr s 1 j
  (1, { s with ids := "Deflemask v2" })

/-- `Chk_Deflemask` v12 success path. -/
def Chk_Deflemask_v12w (s : ScanState) (i8 : Bool) : Int × ScanState :=
  let s := { s with initaddr := s.loadaddr / 256 % 256 * 256 }
  let s := { s with playaddr := s.initaddr + 6 }
  let j : Int := s.initaddr / 256 % 256 + 1
  let s :=
    if i8 then
      let s := wr s 2 0x4c
      let s := wr s 3 0x03
      let s := wr s 4 j
      let s := wr s 5 0x4c
      let s := wr s 6 s.playaddr
      wr s 7 (s.playaddr / 256)
    else
      let s := { s with extra := 6 }
      let s := ewr s 0 s.initaddr
      let s := ewr s 1 (s.initaddr / 256)
      let s := ewr s 2 0x4c
      let s := ewr s 3 0x03
      let s := ewr s 4 j
      let s := ewr s 5 0x4c
      let s := wr s 0 s.playaddr
      wr s 1 (s.playaddr / 256)
  (1, { s with ids := "Deflemask v12" })

/-- `Chk_Deflemask`: Deflemask v2/v12, probing offsets 2 and 8. -/
def Chk_Deflemask (s : ScanState) : Int × ScanState :=
  if s.fsiz < 0x200 then (0, s)
  else
    let v2c := fun (i : Int) =>
      rd32 s (0x00c - 6 + i) = 0x02D013E6 ∧ rd32 s (0x010 - 6 + i) = 0x84AD14E6 ∧
      rd32 s (0x049 - 6 + i) = 0xCAD40099
    let v12c := fun (i : Int) =>
      rd32 s (0x006 - 6 + i) &&& 0x00ffffff = 0x00B518A2 ∧
      rd32 s (0x00a - 6 + i) = 0xCAD4009D ∧ rd32 s (0x05d - 6 + i) = 0xA500FF60
    if v2c 2 then Chk_Deflemask_v2w s false
    else if v2c 8 then Chk_Deflemask_v2w s true
    else if v12c 2 then Chk_Deflemask_v12w s false
    else if v12c 8 then Chk_Deflemask_v12w s true
    else if rd32 s 0x002 &&& 0x00ffffff = 0x00B518A2 ∧ rd32 s 0x06 = 0xCAD4009D ∧
        rd32 s 0x60 = 0xA500FF60 then
      (1, { s with initaddr := s.loadaddr + 0x106, playaddr := s.loadaddr,
                   ids := "Deflemask v12" ++ "/bank-switched" })
    else (0, s)

/-- `Chk_SidFactory`: SidFactory 1000/1006-1009. -/
def Chk_SidFactory (s : ScanState) : Int × ScanState :=
  if s.fsiz < 0x200 then (0, s)
  else if s.p 0x2 = 0x4c then
    let c := fun (k : Int) =>
      s.p (k + 2 + 0x00) = 0x2c ∧ s.p (k + 2 + 0x03) = 0x30 ∧
      s.p (k + 2 + 0x05) = 0x70 ∧ s.p (k + 2 + 0x07) = 0xa9 ∧
      s.p (k + 2 + 0x08) = 0x00 ∧ s.p (k + 2 + 0x09) = 0xa2 ∧
      s.p (k + 2 + 0x0b) = 0xca
    if c 6 then
      (1, { s with initaddr := s.loadaddr, playaddr := s.loadaddr + 6,
                   ids := "SidFactory" })
    else if c 9 then
      (1, { s with initaddr := s.loadaddr, playaddr := s.loadaddr + 9,
                   ids := "SidFactory" })
    else (0, s)
  else (0, s)

/-- `Chk_Mssiah`: Mssiah 5c7c, cut down to the PSID at 5c00 and patched;
the file window is re-based by `j = 0x5c7c - loadaddr + 2`. -/
def Chk_Mssiah (s : ScanState) : Int × ScanState :=
  if s.fsiz < 0x5000 then (0, s)
  else if s.loadaddr > 0x5c7c then (0, s)
  else
    let j : Int := 0x5c7c - s.loadaddr + 2
    if rd32 s (j + 0x0) = 0x5A8D80A9 ∧ rd32 s (j + 0x4) = 0x5EF32071 ∧
        rd32 s (j + 0x8) = 0x205F1C20 ∧ rd32 s (j + 0xc) = 0xF6A25E9B then
      let s := hwr s P_MARKER 0x52
      let s := { s with initaddr := 0x5c20, playaddr := 0 }
      let s := { s with p := fun x => s.p (x + j), fsiz := s.fsiz - j,
                        loadaddr := s.loadaddr + j }
      let s := wr s 0x02aa 0x60
      let s := wr s 0x030d 0xA2
      let s := fill s 0x0503 0xea 3
      let s := fill s 0x0509 0xea 3
      let s := wr s 0x028A 0x5B
      let s := wr s 0x0979 0x5B
      let s := wr s 0x097F 0x5B
      let s := wr s 0x0FAF 0x5B
      let s := wr s 0x0FB5 0x5B
      let s := wr s 0x10E6 0x5B
      let s := wr s 0x10EF 0x5B
      let s := hwr s P_FREEPAGE 0x04
      let s := hwr s P_FREEPMAX 0x57
      let s :=
        if s.p 0x150a > 0 then
          let s := wr s 0x150a 3
          let s := hwr s P_SIDVER 3
          let s := hwr s P_STEREOAD 0x50
          let k : Nat := (s.psidh P_SIDMODEL &&& 0x30) * 4
          hwr s P_SIDMODEL ((s.psidh P_SIDMODEL ||| k : Nat) : Int)
        else s
      let s := ewr s 0 s.initaddr
      let s := ewr s 1 (s.initaddr / 256)
      let s := eblit s 2 aPatchMssiah
      let s := { s with extra := 2 + aPatchMssiah.length }
      (1, { s with ids := "Mssiah" })
    else (0, s)

/-- `Chk_GoatMultispeed`: GoatTracker with CIA multispeed.  The source
formats `(1.0 * 0x4cc8) / v` with `%2.1f`; this embedding renders the same
value rounded to one decimal with integer arithmetic. -/
def Chk_GoatMultispeed (s : ScanState) : Int × ScanState :=
  if s.fsiz < 0x500 then (0, s)
  else if s.p (2 + 0x00) = 0xa2 ∧ s.p (2 + 0x0D) = 0x4C ∧
      rd32 s (2 + 0x02) = 0xA2DC048E ∧ rd32 s (2 + 0x07) = 0x4CDC058E then
    let s := hwr s P_TIMING 1
    let s := { s with playaddr := s.initaddr + 0xd }
    let v : Nat := s.p 3 + s.p 8 * 256
    let speed10 : Nat := (10 * 0x4cc8 + v / 2) / v
    (1, { s with ids := "GoatTracker+MultiSpeed: " ++ toString (speed10 / 10) ++
                        "." ++ toString (speed10 % 10) ++ "x" })
  else (0, s)

/-- `Chk_FlexSid`: FlexSid normal (1000/1010) and bare (1000/100a). -/
def Chk_FlexSid (s : ScanState) : Int × ScanState :=
  if s.fsiz < 0x100 then (0, s)
  else
    let sig1 := fun (k : Int) =>
      rd32 s (k + 0x00) == 0xC19500AB && rd32 s (k + 0x0C) == 0x60D4188E &&
      rd32 s (k + 0x10) == 0xFF860EA2
    let sig2 := fun (k : Int) =>
      rd32 s (k + 0x00) == 0x00A93FA2 && rd32 s (k + 0x06) == 0x60FB10CA &&
      rd32 s (k + 0x0a) == 0xFF860EA2
    match (List.range (s.fsiz - 0x20).toNat).find? (fun (k : Nat) =>
        sig1 (k : Int) || sig2 (k : Int)) with
    | none => (0, s)
    | some k =>
      if sig1 (k : Int) then
        (1, { s with initaddr := (k : Int) + s.loadaddr - 2,
                     playaddr := (k : Int) + s.loadaddr - 2 + 0x10,
                     ids := "FlexSid" })
      else
        (1, { s with initaddr := (k : Int) + s.loadaddr - 2,
                     playaddr := (k : Int) + s.loadaddr - 2 + 0x0a,
                     ids := "FlexSid-Bare" })

/-- `Chk_StarBars` version block for v1.4 final. -/
def Chk_StarBars_b5 (s : ScanState) : Int × ScanState :=
  if rd32 s (0x80d - s.loadaddr + 2) = 0xAA00A978 ∧
      rd32 s (0xb20 - s.loadaddr + 2) = 0x4E494541 ∧
      rd32 s (0x901 - s.loadaddr + 2) = 0x8D1504AD ∧
      s.p (0x0818 - s.loadaddr + 2) = 0x04 then
    let s := hwr s P_MARKER 0x52
    let s := hwr s P_SIDMODEL 0x34
    let s := { s with ids := "StarBars ", initaddr := 0x080d, playaddr := 0 }
    let s := fill s (0x0817 - s.loadaddr + 2) 0xea 0x4e
    let s := fill s (0x08b8 - s.loadaddr + 2) 0x60 0x48
    let s := fill s (0x09D6 - s.loadaddr + 2) 0x60 0x1e
    let s := fill s (0x0b35 - s.loadaddr + 2) 0 0x4cb
    let s := fill s (0x10b4 - s.loadaddr + 2) 0xea 0x1c
    let s := fill s (0x10d7 - s.loadaddr + 2) 0x60 0x3e
    let s := fill s (0x111c - s.loadaddr + 2) 0x60 0x10
    let s := fill s (0x113f - s.loadaddr + 2) 0x60 0x92
    let s := fill s (0x1204 - s.loadaddr + 2) 0x60 0x20
    let s := fill s (0x128d - s.loadaddr + 2) 0 0x173
    let s := fill s (0x141c - s.loadaddr + 2) 0 0x95
    (1, { s with ids := s.ids ++ "v1.4" })
  else (0, s)

/-- `Chk_StarBars` version block for v1.4 beta. -/
def Chk_StarBars_b4 (s : ScanState) : Int × ScanState :=
  if rd32 s (0x80d - s.loadaddr + 2) = 0x00A9D878 ∧
      rd32 s (0xb21 - s.loadaddr + 2) = 0x4E494541 ∧
      rd32 s (0x929 - s.loadaddr + 2) = 0x8D1504AD ∧
      s.p (0x0819 - s.loadaddr + 2) = 0x04 then
    let s := hwr s P_MARKER 0x52
    let s := hwr s P_SIDMODEL 0x34
    let s := { s with ids := "StarBars ", initaddr := 0x080d, playaddr := 0 }
    let s := fill s (0x0818 - s.loadaddr + 2) 0xea 0x75
    let s := fill s (0x08e0 - s.loadaddr + 2) 0x60 0x48
    let s := fill s (0x09E7 - s.loadaddr + 2) 0x60 0x1e
    let s := fill s (0x0b36 - s.loadaddr + 2) 0 0x4ca
    let s := fill s (0x10b4 - s.loadaddr + 2) 0xea 0x1c
    let s := fill s (0x10d7 - s.loadaddr + 2) 0x60 0x3e
    let s := fill s (0x111c - s.loadaddr + 2) 0x60 0x10
    let s := fill s (0x113f - s.loadaddr + 2) 0x60 0x92
    let s := fill s (0x1204 - s.loadaddr + 2) 0x60 0x20
    let s := fill s (0x128d - s.loadaddr + 2) 0 0x173
    let s := fill s (0x141c - s.loadaddr + 2) 0 0xe4
    (1, { s with ids := s.ids ++ "v1.4" ++ "beta" })
  else Chk_StarBars_b5 s

/-- `Chk_StarBars` version block for v1.3. -/
def Chk_StarBars_b3 (s : ScanState) : Int × ScanState :=
  if rd32 s (0x80d - s.loadaddr + 2) = 0x00A9D878 ∧
      rd32 s (0xb1d - s.loadaddr + 2) = 0x4E494541 ∧
      rd32 s (0x92f - s.loadaddr + 2) = 0x8D1504AD ∧
      s.p (0x0819 - s.loadaddr + 2) = 0x04 then
    let s := hwr s P_MARKER 0x52
    let s := hwr s P_SIDMODEL 0x34
    let s := { s with ids := "StarBars ", initaddr := 0x080d, playaddr := 0 }
    let s := fill s (0x0818 - s.loadaddr + 2) 0xea 0x7b
    let s := fill s (0x08e6 - s.loadaddr + 2) 0x60 0x49
    let s := fill s (0x09E3 - s.loadaddr + 2) 0x60 0x1e
    let s := fill s (0x0b32 - s.loadaddr + 2) 0 0x4ce
    let s := fill s (0x10b4 - s.loadaddr + 2) 0xea 0x1c
    let s := fill s (0x10d7 - s.loadaddr + 2) 0x60 0x3e
    let s := fill s (0x111c - s.loadaddr + 2) 0x60 0x10
    let s := fill s (0x113f - s.loadaddr + 2) 0x60 0x92
    let s := fill s (0x1204 - s.loadaddr + 2) 0x60 0x20
    let s := fill s (0x128d - s.loadaddr + 2) 0 0x173
    let s := fill s (0x141c - s.loadaddr + 2) 0 0xe4
    (1, { s with ids := s.ids ++ "v1.3" })
  else Chk_StarBars_b4 s

/-- `Chk_StarBars` version block for v1.3 beta. -/
def Chk_StarBars_b2 (s : ScanState) : Int × ScanState :=
  if rd32 s (0x80d - s.loadaddr + 2) = 0x0920D878 ∧
      rd32 s (0xb0b - s.loadaddr + 2) = 0x4E494541 ∧
      rd32 s (0x930 - s.loadaddr + 2) = 0x8D1504AD ∧
      s.p (0x0810 - s.loadaddr + 2) = 0x09 then
    let s := hwr s P_MARKER 0x52
    let s := hwr s P_SIDMODEL 0x34
    let s := { s with ids := "StarBars ", initaddr := 0x080d, playaddr := 0 }
    let s := fill s (0x0812 - s.loadaddr + 2) 0xea 0x90
    let s := wr s (0x08d8 - s.loadaddr + 2) 0x60
    let s := fill s (0x08d8 - s.loadaddr + 2 + 1) 0 0x57
    let s := fill s (0x09d1 - s.loadaddr + 2) 0x60 0x1e
    let s := fill s (0x0b20 - s.loadaddr + 2) 0 0x4e0
    let s := fill s (0x10a5 - s.loadaddr + 2) 0xea 0x29
    let s := fill s (0x10f2 - s.loadaddr + 2) 0x60 0x17
    let s := fill s (0x1138 - s.loadaddr + 2) 0x60 0x98
    let s := fill s (0x11e8 - s.loadaddr + 2) 0x60 0x21
    let s := fill s (0x120a - s.loadaddr + 2) 0 0x1f6
    let s := fill s (0x141c - s.loadaddr + 2) 0 0xe4
    (1, { s with ids := s.ids ++ "v1.3" ++ "beta" })
  else Chk_StarBars_b3 s

/-- `Chk_StarBars`: StarBars v1.1-v1.4 (RSID), five version blocks tried in
order. -/
def Chk_StarBars (s : ScanState) : Int × ScanState :=
  if s.fsiz < 0x1000 then (0, s)
  else if 0x0800 ≤ s.loadaddr ∧ s.loadaddr ≤ 0x080d then
    if rd32 s (0x80d - s.loadaddr + 2) = 0x0009BB4C ∧
        rd32 s (0x89c - s.loadaddr + 2) = 0x4E494541 ∧
        rd32 s (0x1000 - s.loadaddr + 2) = 0x8D1504AD ∧
        (s.p (0x9be - s.loadaddr + 2) = 0x42 ∨ s.p (0x9be - s.loadaddr + 2) = 0x49) then
      let s := hwr s P_MARKER 0x52
      let s := hwr s P_SIDMODEL 0x34
      let s := { s with ids := "StarBars ", initaddr := 0x09bb, playaddr := 0 }
      let s := fill s (0x08B1 - s.loadaddr + 2) 0 0x99
      let s := fill s (0x09c0 - s.loadaddr + 2) 0xea 0x6b
      let s := wr s (0x0a5b - s.loadaddr + 2) 0x60
      let s := fill s (0x0a5b - s.loadaddr + 2 + 1) 0 0x5a4
      let s := fill s (0x1300 - s.loadaddr + 2) 0 0x100
      if s.p (0x9be - s.loadaddr + 2) = 0x42 then
        let s := fill s (0x10b1 - s.loadaddr + 2) 0x60 0x1e
        let s := fill s (0x11e1 - s.loadaddr + 2) 0xea 0x29
        let s := fill s (0x122b - s.loadaddr + 2) 0x60 0x17
        let s := fill s (0x1271 - s.loadaddr + 2) 0x60 0x12
        let s := fill s (0x129c - s.loadaddr + 2) 0x60 0x20
        (1, { s with ids := s.ids ++ "v1.1" })
      else
        let s := fill s (0x10a1 - s.loadaddr + 2) 0x60 0x1e
        let s := fill s (0x11e8 - s.loadaddr + 2) 0xea 0x29
        let s := fill s (0x1232 - s.loadaddr + 2) 0x60 0x17
        let s := fill s (0x1278 - s.loadaddr + 2) 0x60 0x12
        let s := fill s (0x12a3 - s.loadaddr + 2) 0x60 0x20
        (1, { s with ids := s.ids ++ "v1.2" })
    else Chk_StarBars_b2 s
  else (0, s)

/-- `Chk_QuantumSndTrk`: Quantum SoundTracker 1.0 (RSID). -/
def Chk_QuantumSndTrk (s : ScanState) : Int × ScanState :=
  if s.fsiz < 0xdd8f + 0x3c + 2 - s.loadaddr then (0, s)
  else if 0x0800 ≤ s.loadaddr ∧ s.loadaddr ≤ 0x080d then
    if rd32 s (0x80f - s.loadaddr + 2) = 0x8534A90D ∧
        rd32 s (0x89b - s.loadaddr + 2) = 0x4A4A4A8A ∧
        rd32 s (0x9AF - s.loadaddr + 2) = 0xEDF0DD0D ∧
        (s.p (0x80e - s.loadaddr + 2) = 0x6a ∨ s.p (0x80e - s.loadaddr + 2) = 0x6c) then
      let s := hwr s P_MARKER 0x52
      let s := hwr s P_FREEPAGE 4
      let s := hwr s P_FREEPMAX 4
      let s := { s with ids := "Quantum SoundTracker 1.0" }
      let s := fill s (0x0821 - s.loadaddr + 2) 0xea 0x03
      let s := fill s (0x082c - s.loadaddr + 2) 0x78 0x0c
      let s := fill s (0x08e7 - s.loadaddr + 2) 0x60 0x56
      let s := fill s (0x0fc0 - s.loadaddr + 2) 0x60 0x3f
      let s := fill s (0xdd6d - s.loadaddr + 2) 0xea 0x03
      let s := fill s (0xdd73 - s.loadaddr + 2) 0xea 0x03
      let s := fill s (0xdd8f - s.loadaddr + 2) 0x60 0x3c
      let s :=
        if s.p (0x80e - s.loadaddr + 2) = 0x6c then
          let s := { s with ids := s.ids ++ "/demo" }
          let s := fill s (0x0a3e - s.loadaddr + 2) 0x60 0x2e6
          fill s (0x0d8a - s.loadaddr + 2) 0x60 0xb9
        else
          let s := fill s (0x0a3e - s.loadaddr + 2) 0x60 0x2e4
          fill s (0x0d88 - s.loadaddr + 2) 0x60 0xb9
      (1, { s with initaddr := 0x080d, playaddr := 0 })
    else (0, s)
  else (0, s)

/-- `Chk_Whittaker`: David Whittaker v1/v2; a second scan starts at the
first hit. -/
def Chk_Whittaker (s : ScanState) : Int × ScanState :=
  if s.fsiz < 0x800 then (0, s)
  else
    match (List.range 0x800).find? (fun (k : Nat) =>
        rd32 s (k : Int) == 0x8D00A9AA) with
    | none => (0, s)
    | some k =>
      if 0 < k then
        let c1 := fun (j : Int) =>
          rd32 s j == 0xA548F8A5 && s.p (j + 0x06) == 0xCE &&
          s.p (j + 0x09) == 0xD0 && s.p (j + 0x10) == 0xD0 && s.p (j + 0x12) == 0x20
        let c2 := fun (j : Int) =>
          rd32 s j == 0xA548F8A5 && s.p (j + 0x06) == 0x20 &&
          s.p (j + 0x0f) == 0x60 && s.p (j + 0x15) == 0xCE &&
          s.p (j + 0x18) == 0xD0 && s.p (j + 0x1C) == 0x20
        match (List.range' k (0x800 - k)).find? (fun (j : Nat) =>
            c1 (j : Int) || c2 (j : Int)) with
        | none => (0, s)
        | some j =>
          let s := { s with initaddr := s.loadaddr + (k : Int) - 2,
                            playaddr := s.loadaddr + (j : Int) - 2 }
          if c1 (j : Int) then (1, { s with ids := "Whittaker" ++ " v1" })
          else (1, { s with ids := "Whittaker" ++ " v2" })
      else (0, s)

/-- The scanner table `ScanFunc[]` of `p2s.c`, in source order. -/
def ScanFunc : List (ScanState → Int × ScanState) :=
  [Chk_FC, Chk_FCAlt, Chk_MusAss, Chk_MusMix, Chk_GMC, Chk_Bappalander,
   Chk_TrkPl3, Chk_Groovy, Chk_Parsec, Chk_Sosperec, Chk_SoedeSoft,
   Chk_Prosonix1, Chk_4JMPS, Chk_Heathcliff, Chk_3JMPs1, Chk_ArneAFL,
   Chk_ArneSndMk, Chk_Digitalizer, Chk_Soundmon, Chk_AMP2, Chk_FC3x,
   Chk_MoN_JTS, Chk_3JMPs2, Chk_JOv2, Chk_2JMPs, Chk_LaxityV2, Chk_HubbardV5,
   Chk_HubbardV4, Chk_HubbardV3, Chk_HubbardV2, Chk_HubbardV1, Chk_MikeLSD,
   Chk_Comptech, Chk_SoundMaker, Chk_Electrosound, Chk_PollyTracker,
   Chk_MasterComp, Chk_Ubik, Chk_AMP1, Chk_Boogaloo, Chk_Bjerregaard1,
   Chk_Bjerregaard2, Chk_ReflexTrk, Chk_FAME, Chk_20CC, Chk_CTExe,
   Chk_System6581, Chk_MattGray, Chk_PowerMus, Chk_GRGTiny2, Chk_GRGTiny4,
   Chk_Yip, Chk_TFX1, Chk_Griff1, Chk_Griff2, Chk_Ariston, Chk_Winterberg,
   Chk_Jensen, Chk_MegaVision, Chk_SkylineTech_Danne, Chk_Deflemask,
   Chk_Polyanna, Chk_SidFactory, Chk_Mssiah, Chk_GoatMultispeed, Chk_FlexSid,
   Chk_StarBars, Chk_Whittaker, Chk_QuantumSndTrk]

/-- `Scanners()` of `p2s.c`: run the checks in order on the shared state,
stopping at the first nonzero return. -/
def Scanners : List (ScanState → Int × ScanState) → ScanState → Int × ScanState
  | [], s => (0, s)
  | f :: fs, s =>
    let r := f s
    if r.1 ≠ 0 then r else Scanners fs r.2

/-- The state just before `Scanners()` is called in `main`: the raw file
image `pf` of `n` bytes, load address from bytes 0-1, the classic
1000/1003 defaults, identity `"Generic"`, no extra bytes, and the initial
PSID header. -/
def initState (pf : Int → Nat) (n : Int) : ScanState :=
  let la : Int := (pf 0 % 256 : Nat) + (pf 1 % 256 : Nat) * 256
  { p := fun x => pf x % 256, fsiz := n, loadaddr := la, initaddr := la,
    playaddr := la + 3, ids := "Generic", extra := 0,
    extrabytes := fun _ => 0, psidh := psidh0 }

/-- The effective load address of the output, recomputed in `main` from the
prepended bytes when a check emitted any (`extra == 1` combines
`extrabytes[0]` with the patched `p[0]`). -/
def NewLoadAddr (s : ScanState) : Int :=
  if s.extra = 0 then s.loadaddr
  else if s.extra = 1 then ((s.extrabytes 0 + s.p 0 * 256 : Nat) : Int)
  else ((s.extrabytes 0 + s.extrabytes 1 * 256 : Nat) : Int)

/-- The number of payload bytes `main` writes:
`j = fsiz + loadaddr + extra - 2; if (j > 0xffff) fsiz -= (j - 0x10000)`. -/
def FinalPayloadLen (s : ScanState) : Int :=
  let j := s.fsiz + NewLoadAddr s + s.extra - 2
  if j > 0xffff then s.fsiz - (j - 0x10000) else s.fsiz

/-- The bytes `main` writes to the `.sid` file from a post-`Scanners`
state: the 0x7c-byte header with init/play patched in big-endian at
0x0a-0x0d, then the `extra` prepend bytes, then the (possibly truncated)
payload. -/
def MainOutputOf (s : ScanState) : List Nat :=
  let s1 := hwr s P_INITADDR (s.initaddr / 256)
  let s1 := hwr s1 (P_INITADDR + 1) s.initaddr
  let s1 := hwr s1 P_PLAYADDR (s.playaddr / 256)
  let s1 := hwr s1 (P_PLAYADDR + 1) s.playaddr
  (List.range 0x7c).map s1.psidh ++
  (List.range s.extra).map s.extrabytes ++
  (List.range (FinalPayloadLen s).toNat).map (fun (i : Nat) => s.p (i : Int))

/-- End-to-end `p2s` conversion of a raw file image: scan, then emit. -/
def MainOutput (pf : Int → Nat) (n : Int) : List Nat :=
  MainOutputOf (Scanners ScanFunc (initState pf n)).2

/-- The header the specification promises for an unidentified input with
load address `L`: the initial PSID header with init `L` and play `L + 3`
patched in big-endian at offsets 0x0a-0x0d. -/
def specGenericHeader (L : Int) : Nat → Nat := fun i =>
  if i = 0x0d then u8 (L + 3)
  else if i = 0x0c then u8 ((L + 3) / 256)
  else if i = 0x0b then u8 L
  else if i = 0x0a then u8 (L / 256)
  else psidh0 i

/-- A 0x2b01-byte file image with load address a000 carrying only the
`4c 12 c0 4c` bytes at file offset 0x2002 (= address c000) and the
`d4 8d 14 03` bytes at file offset 0x2027 (= address c025). -/
def pFailSoundmon : Int → Nat := fun x =>
  if x = 1 then 0xa0
  else if x = 0x2002 then 0x4c
  else if x = 0x2003 then 0x12
  else if x = 0x2004 then 0xc0
  else if x = 0x2005 then 0x4c
  else if x = 0x2027 then 0xd4
  else if x = 0x2028 then 0x8d
  else if x = 0x2029 then 0x14
  else if x = 0x202a then 0x03
  else 0

end P2S

namespace SF2Pack

/-! ### Facts about the opcode matrix -/

/-- No addressing mode is both in the absolute family and in the zero-page
family. -/
theorem requires_mutually_exclusive :
    ∀ m : AddressingMode,
      ¬(RequiresRelocation m = true ∧ RequiresZeroPageAdjustment m = true) := by
  decide

/-- The opcode matrix, checked entry by entry: absolute-family rows have
size 3, zero-page-family rows size 2, and every size is 1, 2 or 3. -/
theorem table_facts :
    ∀ r < 256,
      (RequiresRelocation (GetOpcodeAddressingMode r) = true → GetOpcodeSize r = 3) ∧
      (RequiresZeroPageAdjustment (GetOpcodeAddressingMode r) = true → GetOpcodeSize r = 2) ∧
      1 ≤ GetOpcodeSize r ∧ GetOpcodeSize r ≤ 3 := by
  decide

theorem GetOpcodeSize_mod (op : Nat) : GetOpcodeSize (op % 256) = GetOpcodeSize op := by
  unfold GetOpcodeSize
  have h : op % 256 % 256 = op % 256 := by omega
  rw [h]

theorem GetOpcodeAddressingMode_mod (op : Nat) :
    GetOpcodeAddressingMode (op % 256) = GetOpcodeAddressingMode op := by
  unfold GetOpcodeAddressingMode
  have h : op % 256 % 256 = op % 256 := by omega
  rw [h]

theorem size_of_reloc {op : Nat}
    (h : RequiresRelocation (GetOpcodeAddressingMode op) = true) :
    GetOpcodeSize op = 3 := by
  have hm : op % 256 < 256 := by omega
  have := (table_facts (op % 256) hm).1
  rw [GetOpcodeSize_mod, GetOpcodeAddressingMode_mod] at this
  exact this h

theorem size_of_zp {op : Nat}
    (h : RequiresZeroPageAdjustment (GetOpcodeAddressingMode op) = true) :
    GetOpcodeSize op = 2 := by
  have hm : op % 256 < 256 := by omega
  have := (table_facts (op % 256) hm).2.1
  rw [GetOpcodeSize_mod, GetOpcodeAddressingMode_mod] at this
  exact this h

theorem size_pos (op : Nat) : 1 ≤ GetOpcodeSize op := by
  have hm : op % 256 < 256 := by omega
  have := (table_facts (op % 256) hm).2.2.1
  rwa [GetOpcodeSize_mod] at this

theorem size_le_three (op : Nat) : GetOpcodeSize op ≤ 3 := by
  have hm : op % 256 < 256 := by omega
  have := (table_facts (op % 256) hm).2.2.2
  rwa [GetOpcodeSize_mod] at this

/-! ### Facts about the memory container -/

theorem Mem.get_lt (m : Mem) (a : Nat) : m.get a < 256 :=
  Nat.mod_lt _ (by norm_num)

theorem Mem.get_set_self (m : Mem) (a v : Nat) :
    (m.set a v).get a = v % 256 := by
  simp [Mem.get, Mem.set]

theorem Mem.get_set_of_ne (m : Mem) (a v x : Nat)
    (hx : x < 0x10000) (ha : a < 0x10000) (h : x ≠ a) :
    (m.set a v).get x = m.get x := by
  simp only [Mem.get, Mem.set, Nat.mod_eq_of_lt hx, Nat.mod_eq_of_lt ha]
  rw [if_neg h]

theorem Mem.GetWord_lt (m : Mem) (a : Nat) : m.GetWord a < 0x10000 := by
  have h1 := m.get_lt a
  have h2 := m.get_lt (a + 1)
  unfold Mem.GetWord
  omega

theorem Mem.GetWord_SetWord (m : Mem) (a v : Nat)
    (ha : a + 1 < 0x10000) (hv : v < 0x10000) :
    (m.SetWord a v).GetWord a = v := by
  unfold Mem.SetWord Mem.GetWord
  have h1 : ((m.set a (v % 0x10000 % 256)).set (a + 1) (v % 0x10000 / 256)).get (a + 1) =
      v % 0x10000 / 256 % 256 := Mem.get_set_self _ _ _
  have h2 : ((m.set a (v % 0x10000 % 256)).set (a + 1) (v % 0x10000 / 256)).get a =
      (m.set a (v % 0x10000 % 256)).get a :=
    Mem.get_set_of_ne _ _ _ _ (by omega) ha (by omega)
  rw [h1, h2, Mem.get_set_self]
  omega

theorem Mem.get_SetWord_of_ne (m : Mem) (a v x : Nat)
    (hx : x < 0x10000) (ha : a + 1 < 0x10000) (h1 : x ≠ a) (h2 : x ≠ a + 1) :
    (m.SetWord a v).get x = m.get x := by
  unfold Mem.SetWord
  rw [Mem.get_set_of_ne _ _ _ _ hx ha h2, Mem.get_set_of_ne _ _ _ _ hx (by omega) h1]

theorem ZpRelocate_lt (cfg : DriverConfig) (z : Nat) : ZpRelocate cfg z < 256 := by
  unfold ZpRelocate
  omega

theorem RelocateVector_lt (cfg : DriverConfig) (v : Nat) (hv : v < 0x10000) :
    RelocateVector cfg v < 0x10000 := by
  unfold RelocateVector
  split
  · exact hv
  · omega

/-! ### One step of the relocation walk -/

theorem bool_not_true {b : Bool} (h : ¬b = true) : b = false := by
  cases b
  · rfl
  · exact absurd rfl h

theorem requires_zp_false_of_reloc {mode : AddressingMode}
    (h : RequiresRelocation mode = true) : RequiresZeroPageAdjustment mode = false := by
  cases hz : RequiresZeroPageAdjustment mode
  · rfl
  · exact absurd ⟨h, hz⟩ (requires_mutually_exclusive mode)

theorem processStep_reloc_keep (cfg : DriverConfig) (mem : Mem) (address : Nat)
    (hR : RequiresRelocation (GetOpcodeAddressingMode (mem.get address)) = true)
    (hs : GetOpcodeSize (mem.get address) = 3)
    (hZ : RequiresZeroPageAdjustment (GetOpcodeAddressingMode (mem.get address)) = false)
    (heq : mem.GetWord (address + 1) = RelocateVector cfg (mem.GetWord (address + 1))) :
    processStep cfg mem address =
      Except.ok (mem, (address + GetOpcodeSize (mem.get address)) % 0x10000) := by
  simp [processStep, absPhase, zpPhase, hR, hs, hZ, if_neg (not_not_intro heq)]

theorem processStep_reloc_write (cfg : DriverConfig) (mem : Mem) (address : Nat)
    (hR : RequiresRelocation (GetOpcodeAddressingMode (mem.get address)) = true)
    (hs : GetOpcodeSize (mem.get address) = 3)
    (hZ : RequiresZeroPageAdjustment (GetOpcodeAddressingMode (mem.get address)) = false)
    (heq : mem.GetWord (address + 1) ≠ RelocateVector cfg (mem.GetWord (address + 1))) :
    processStep cfg mem address =
      Except.ok (mem.SetWord (address + 1) (RelocateVector cfg (mem.GetWord (address + 1))),
        (address + GetOpcodeSize (mem.get address)) % 0x10000) := by
  simp [processStep, absPhase, zpPhase, hR, hs, hZ, if_pos heq]

theorem processStep_zp_eq (cfg : DriverConfig) (mem : Mem) (address : Nat)
    (hR : RequiresRelocation (GetOpcodeAddressingMode (mem.get address)) = false)
    (hZ : RequiresZeroPageAdjustment (GetOpcodeAddressingMode (mem.get address)) = true)
    (hs : GetOpcodeSize (mem.get address) = 2) :
    processStep cfg mem address =
      Except.ok (mem.SetByte (address + 1) (ZpRelocate cfg (mem.GetByte (address + 1))),
        (address + GetOpcodeSize (mem.get address)) % 0x10000) := by
  simp [processStep, absPhase, zpPhase, hR, hZ, hs]

theorem processStep_other (cfg : DriverConfig) (mem : Mem) (address : Nat)
    (hR : RequiresRelocation (GetOpcodeAddressingMode (mem.get address)) = false)
    (hZ : RequiresZeroPageAdjustment (GetOpcodeAddressingMode (mem.get address)) = false) :
    processStep cfg mem address =
      Except.ok (mem, (address + GetOpcodeSize (mem.get address)) % 0x10000) := by
  simp [processStep, absPhase, zpPhase, hR, hZ]

/-- Characterisation of one loop iteration of `ProcessDriverCode` away from
the top of memory: it never throws, advances by the table size, writes only
into the operand bytes `[address+1, address+size)`, and patches the absolute
or zero-page operand according to `RelocateVector` / `ZpRelocate`. -/
theorem processStep_spec (cfg : DriverConfig) (mem : Mem) (address : Nat)
    (ha : address + 3 < 0x10000) :
    ∃ mem1,
      processStep cfg mem address =
        Except.ok (mem1, address + GetOpcodeSize (mem.get address)) ∧
      (∀ x, x < 0x10000 →
        (x ≤ address ∨ address + GetOpcodeSize (mem.get address) ≤ x) →
        mem1.get x = mem.get x) ∧
      (RequiresRelocation (GetOpcodeAddressingMode (mem.get address)) = true →
        mem1.GetWord (address + 1) = RelocateVector cfg (mem.GetWord (address + 1))) ∧
      (RequiresZeroPageAdjustment (GetOpcodeAddressingMode (mem.get address)) = true →
        mem1.get (address + 1) = ZpRelocate cfg (mem.get (address + 1))) := by
  have hnext : (address + GetOpcodeSize (mem.get address)) % 0x10000 =
      address + GetOpcodeSize (mem.get address) := by
    have := size_le_three (mem.get address)
    omega
  by_cases hR : RequiresRelocation (GetOpcodeAddressingMode (mem.get address)) = true
  · -- absolute family: size is 3, zero-page block is skipped
    have hs : GetOpcodeSize (mem.get address) = 3 := size_of_reloc hR
    have hZ : RequiresZeroPageAdjustment (GetOpcodeAddressingMode (mem.get address)) = false :=
      requires_zp_false_of_reloc hR
    by_cases heq : mem.GetWord (address + 1) = RelocateVector cfg (mem.GetWord (address + 1))
    · refine ⟨mem, ?_, ?_, ?_, ?_⟩
      · rw [processStep_reloc_keep cfg mem address hR hs hZ heq, hnext]
      · intro x _ _; rfl
      · intro _; exact heq
      · intro hc; rw [hZ] at hc; cases hc
    · have hrvlt : RelocateVector cfg (mem.GetWord (address + 1)) < 0x10000 :=
        RelocateVector_lt cfg _ (Mem.GetWord_lt mem _)
      refine ⟨mem.SetWord (address + 1) (RelocateVector cfg (mem.GetWord (address + 1))),
        ?_, ?_, ?_, ?_⟩
      · rw [processStep_reloc_write cfg mem address hR hs hZ heq, hnext]
      · intro x hx hside
        rw [hs] at hside
        exact Mem.get_SetWord_of_ne _ _ _ _ hx (by omega) (by omega) (by omega)
      · intro _
        exact Mem.GetWord_SetWord _ _ _ (by omega) hrvlt
      · intro hc; rw [hZ] at hc; cases hc
  · have hR' : RequiresRelocation (GetOpcodeAddressingMode (mem.get address)) = false :=
      bool_not_true hR
    by_cases hZ : RequiresZeroPageAdjustment (GetOpcodeAddressingMode (mem.get address)) = true
    · -- zero-page family: size is 2
      have hs : GetOpcodeSize (mem.get address) = 2 := size_of_zp hZ
      refine ⟨mem.SetByte (address + 1) (ZpRelocate cfg (mem.GetByte (address + 1))),
        ?_, ?_, ?_, ?_⟩
      · rw [processStep_zp_eq cfg mem address hR' hZ hs, hnext]
      · intro x hx hside
        rw [hs] at hside
        exact Mem.get_set_of_ne _ _ _ _ hx (by omega) (by omega)
      · intro hc; rw [hR'] at hc; cases hc
      · intro _
        unfold Mem.SetByte Mem.GetByte
        rw [Mem.get_set_self]
        have := ZpRelocate_lt cfg (mem.get (address + 1))
        omega
    · have hZ' : RequiresZeroPageAdjustment (GetOpcodeAddressingMode (mem.get address)) = false :=
        bool_not_true hZ
      refine ⟨mem, ?_, ?_, ?_, ?_⟩
      · rw [processStep_other cfg mem address hR' hZ', hnext]
      · intro x _ _; rfl
      · intro hc; rw [hR'] at hc; cases hc
      · intro hc; rw [hZ'] at hc; cases hc

/-! ### The relocation walk -/

/-- Main invariant of the fueled walk: starting at most two bytes past the
region bottom, with enough fuel for the remaining distance and the bottom
below `0xFFFD` (no 16-bit wrap), the walk completes, lands in
`[bottom, bottom + 2]`, never touches bytes at or below its start address,
and every visited instruction has its absolute / zero-page operand patched
exactly once in the final memory. -/
theorem walkAux_spec (cfg : DriverConfig) (bottom : Nat) (hb : bottom ≤ 0xFFFD) :
    ∀ fuel address mem, address ≤ bottom + 2 → bottom - address ≤ fuel →
    ∃ memF aF tr, walkAux cfg bottom fuel mem address = WalkOut.done memF aF tr ∧
      bottom ≤ aF ∧ aF ≤ bottom + 2 ∧ address ≤ aF ∧
      (∀ x, x < 0x10000 → x ≤ address → memF.get x = mem.get x) ∧
      (∀ e ∈ tr, address ≤ e.1 ∧ e.1 < bottom ∧ e.2 = mem.get e.1 ∧
        (RequiresRelocation (GetOpcodeAddressingMode e.2) = true →
          memF.GetWord (e.1 + 1) = RelocateVector cfg (mem.GetWord (e.1 + 1))) ∧
        (RequiresZeroPageAdjustment (GetOpcodeAddressingMode e.2) = true →
          memF.get (e.1 + 1) = ZpRelocate cfg (mem.get (e.1 + 1)))) := by
  intro fuel
  induction fuel with
  | zero =>
    intro address mem h1 h2
    have hge : ¬address < bottom := by omega
    refine ⟨mem, address, [], ?_, by omega, h1, le_refl _, fun x _ _ => rfl, by simp⟩
    simp [walkAux, hge]
  | succ fuel ih =>
    intro address mem h1 h2
    by_cases hlt : address < bottom
    · -- perform one step
      have ha3 : address + 3 < 0x10000 := by omega
      obtain ⟨mem1, heq, hframe1, habs, hzp⟩ := processStep_spec cfg mem address ha3
      have hs1 := size_pos (mem.get address)
      have hs3 := size_le_three (mem.get address)
      obtain ⟨memF, aF, tr, heq2, hbot, htop, hmono, hframe2, htr⟩ :=
        ih (address + GetOpcodeSize (mem.get address)) mem1 (by omega) (by omega)
      refine ⟨memF, aF, (address, mem.get address) :: tr, ?_, hbot, htop, by omega, ?_, ?_⟩
      · simp only [walkAux, if_pos hlt, heq, heq2, WalkOut.consTrace]
      · intro x hx hxa
        rw [hframe2 x hx (by omega), hframe1 x hx (Or.inl (by omega))]
      · intro e he
        rcases List.mem_cons.mp he with hhead | htail
        · subst hhead
          refine ⟨le_refl _, hlt, rfl, ?_, ?_⟩
          · intro hRm
            have hsz : GetOpcodeSize (mem.get address) = 3 := size_of_reloc hRm
            have g1 : memF.get (address + 1) = mem1.get (address + 1) :=
              hframe2 _ (by omega) (by omega)
            have g2 : memF.get (address + 1 + 1) = mem1.get (address + 1 + 1) :=
              hframe2 _ (by omega) (by omega)
            unfold Mem.GetWord
            unfold Mem.GetWord at habs
            rw [g1, g2]
            exact habs hRm
          · intro hZm
            have hsz : GetOpcodeSize (mem.get address) = 2 := size_of_zp hZm
            have g1 : memF.get (address + 1) = mem1.get (address + 1) :=
              hframe2 _ (by omega) (by omega)
            rw [g1]
            exact hzp hZm
        · obtain ⟨hge, hlt2, hop, habs2, hzp2⟩ := htr e htail
          have he1 : e.1 < 0x10000 := by omega
          have hfm : ∀ y, y < 0x10000 → e.1 ≤ y → mem1.get y = mem.get y := by
            intro y hy hey
            exact hframe1 y hy (Or.inr (by omega))
          refine ⟨by omega, hlt2, ?_, ?_, ?_⟩
          · rw [hop, hfm e.1 he1 (le_refl _)]
          · intro hRm
            have := habs2 hRm
            unfold Mem.GetWord at this ⊢
            rw [hfm (e.1 + 1) (by omega) (by omega), hfm (e.1 + 1 + 1) (by omega) (by omega)]
              at this
            exact this
          · intro hZm
            have := hzp2 hZm
            rw [hfm (e.1 + 1) (by omega) (by omega)] at this
            exact this
    · refine ⟨mem, address, [], ?_, by omega, h1, le_refl _, fun x _ _ => rfl, by simp⟩
      simp [walkAux, hlt]

theorem processStep_isOk (cfg : DriverConfig) (mem : Mem) (address : Nat) :
    ∃ mem1 next, processStep cfg mem address = Except.ok (mem1, next) := by
  by_cases hR : RequiresRelocation (GetOpcodeAddressingMode (mem.get address)) = true
  · have hs : GetOpcodeSize (mem.get address) = 3 := size_of_reloc hR
    have hZ : RequiresZeroPageAdjustment (GetOpcodeAddressingMode (mem.get address)) = false :=
      requires_zp_false_of_reloc hR
    by_cases heq : mem.GetWord (address + 1) = RelocateVector cfg (mem.GetWord (address + 1))
    · exact ⟨_, _, processStep_reloc_keep cfg mem address hR hs hZ heq⟩
    · exact ⟨_, _, processStep_reloc_write cfg mem address hR hs hZ heq⟩
  · have hR' : RequiresRelocation (GetOpcodeAddressingMode (mem.get address)) = false :=
      bool_not_true hR
    by_cases hZ : RequiresZeroPageAdjustment (GetOpcodeAddressingMode (mem.get address)) = true
    · exact ⟨_, _, processStep_zp_eq cfg mem address hR' hZ (size_of_zp hZ)⟩
    · exact ⟨_, _, processStep_other cfg mem address hR' (bool_not_true hZ)⟩

theorem consTrace_isMalformed (e : Nat × Nat) (w : WalkOut) :
    (w.consTrace e).isMalformed = w.isMalformed := by
  cases w <;> rfl

theorem walkAux_not_malformed (cfg : DriverConfig) (bottom : Nat) :
    ∀ fuel mem address, (walkAux cfg bottom fuel mem address).isMalformed = false := by
  intro fuel
  induction fuel with
  | zero =>
    intro mem address
    unfold walkAux
    split <;> rfl
  | succ fuel ih =>
    intro mem address
    by_cases hlt : address < bottom
    · obtain ⟨mem1, next, heq⟩ := processStep_isOk cfg mem address
      simp only [walkAux, if_pos hlt, heq, consTrace_isMalformed]
      exact ih mem1 next
    · simp [walkAux, hlt, WalkOut.isMalformed]

/-! ### Claim theorems for Core B -/

/-- C1.  After `ProcessDriverCode` walks the driver region (no 16-bit wrap),
every visited instruction in the ABS/ABX/ABY/IND family has its 16-bit
little-endian operand `V` unchanged when `V ∈ [0xD000, 0xDFFF]`, and equal to
`(V + (destination_address - driver_code_top)) mod 0x10000` otherwise. -/
theorem abs_operand_rewrite (cfg : DriverConfig) (mem : Mem)
    (htop : cfg.driver_code_top < 0x10000)
    (hdst : cfg.destination_address < 0x10000)
    (hwrap : cfg.driver_code_top + cfg.driver_code_size ≤ 0xFFFD) :
    ∃ memF aF tr, ProcessDriverCode cfg mem = WalkOut.done memF aF tr ∧
      ∀ e ∈ tr, RequiresRelocation (GetOpcodeAddressingMode e.2) = true →
        memF.GetWord (e.1 + 1) =
          (if 0xD000 ≤ mem.GetWord (e.1 + 1) ∧ mem.GetWord (e.1 + 1) ≤ 0xDFFF then
            mem.GetWord (e.1 + 1)
          else
            (mem.GetWord (e.1 + 1) +
              (0x10000 + cfg.destination_address - cfg.driver_code_top)) % 0x10000) := by
  have hmod : (cfg.driver_code_top + cfg.driver_code_size) % 0x10000 =
      cfg.driver_code_top + cfg.driver_code_size := Nat.mod_eq_of_lt (by omega)
  obtain ⟨memF, aF, tr, heq, _, _, _, _, htr⟩ :=
    walkAux_spec cfg (cfg.driver_code_top + cfg.driver_code_size) hwrap
      cfg.driver_code_size cfg.driver_code_top mem (by omega) (by omega)
  refine ⟨memF, aF, tr, ?_, ?_⟩
  · unfold ProcessDriverCode
    rw [hmod]
    exact heq
  · intro e he hR
    obtain ⟨_, _, _, habs, _⟩ := htr e he
    rw [habs hR]
    unfold RelocateVector GetAddressDelta
    rw [Nat.mod_eq_of_lt hdst, Nat.mod_eq_of_lt htop]
    split
    · rfl
    · omega

/-- C2.  After `ProcessDriverCode` walks the driver region (no 16-bit wrap),
every visited instruction in the ZP/ZPX/ZPY/IZX/IZY family has its one-byte
operand `z` replaced by `(target_lowest_zp + (z - current_lowest_zp)) mod 256`. -/
theorem zp_operand_rewrite (cfg : DriverConfig) (mem : Mem)
    (hcur : cfg.current_lowest_zp < 256)
    (htgt : cfg.target_lowest_zp < 256)
    (hwrap : cfg.driver_code_top + cfg.driver_code_size ≤ 0xFFFD) :
    ∃ memF aF tr, ProcessDriverCode cfg mem = WalkOut.done memF aF tr ∧
      ∀ e ∈ tr, RequiresZeroPageAdjustment (GetOpcodeAddressingMode e.2) = true →
        memF.get (e.1 + 1) =
          (cfg.target_lowest_zp + (256 + mem.get (e.1 + 1) - cfg.current_lowest_zp)) % 256 := by
  have hmod : (cfg.driver_code_top + cfg.driver_code_size) % 0x10000 =
      cfg.driver_code_top + cfg.driver_code_size := Nat.mod_eq_of_lt (by omega)
  obtain ⟨memF, aF, tr, heq, _, _, _, _, htr⟩ :=
    walkAux_spec cfg (cfg.driver_code_top + cfg.driver_code_size) hwrap
      cfg.driver_code_size cfg.driver_code_top mem (by omega) (by omega)
  refine ⟨memF, aF, tr, ?_, ?_⟩
  · unfold ProcessDriverCode
    rw [hmod]
    exact heq
  · intro e he hZ
    obtain ⟨_, _, _, _, hzp⟩ := htr e he
    rw [hzp hZ]
    unfold ZpRelocate
    have hz := mem.get_lt (e.1 + 1)
    rw [Nat.mod_eq_of_lt hcur, Nat.mod_eq_of_lt htgt, Nat.mod_eq_of_lt hz]
    omega

/-- C3 (counterexample).  A one-byte driver region whose single byte is the
three-byte opcode `0x0D` (`ORA absolute`) ends the walk at
`driver_code_top + 3`, strictly past `driver_code_top + driver_code_size`:
the claim's exact-landing property fails. -/
theorem walk_exact_landing_fails :
    (ProcessDriverCode ⟨0x1000, 1, 2, 2, 0x1000⟩
      (fun x => if x = 0x1000 then 0x0D else 0)).finalAddr = some 0x1003 ∧
    (0x1003 : Nat) ≠ 0x1000 + 1 := by
  constructor
  · decide
  · decide

/-- C3 (amended).  With a nonempty driver region and no 16-bit wrap
(`driver_code_top + driver_code_size ≤ 0xFFFD`) the walk of
`ProcessDriverCode` terminates; every visited address lies inside
`[driver_code_top, driver_code_top + driver_code_size)`; and the final
address lands in `[driver_code_top + driver_code_size,
driver_code_top + driver_code_size + 2]` - it equals the exact bottom unless
the last instruction straddles it, in which case it overshoots by at most two
bytes. -/
theorem walk_terminates_lands_near_bottom (cfg : DriverConfig) (mem : Mem)
    (hsz : 0 < cfg.driver_code_size)
    (hwrap : cfg.driver_code_top + cfg.driver_code_size ≤ 0xFFFD) :
    ∃ memF aF tr, ProcessDriverCode cfg mem = WalkOut.done memF aF tr ∧
      cfg.driver_code_top + cfg.driver_code_size ≤ aF ∧
      aF ≤ cfg.driver_code_top + cfg.driver_code_size + 2 ∧
      ∀ e ∈ tr, cfg.driver_code_top ≤ e.1 ∧
        e.1 < cfg.driver_code_top + cfg.driver_code_size := by
  have hmod : (cfg.driver_code_top + cfg.driver_code_size) % 0x10000 =
      cfg.driver_code_top + cfg.driver_code_size := Nat.mod_eq_of_lt (by omega)
  obtain ⟨memF, aF, tr, heq, hbot, htop, _, _, htr⟩ :=
    walkAux_spec cfg (cfg.driver_code_top + cfg.driver_code_size) hwrap
      cfg.driver_code_size cfg.driver_code_top mem (by omega) (by omega)
  refine ⟨memF, aF, tr, ?_, hbot, htop, ?_⟩
  · unfold ProcessDriverCode
    rw [hmod]
    exact heq
  · intro e he
    obtain ⟨h1, h2, _⟩ := htr e he
    exact ⟨h1, h2⟩

/-- C4.  The opcode matrix is consistent: every ABS/ABX/ABY/IND opcode has
table size 3 and every ZP/ZPX/ZPY/IZX/IZY opcode has table size 2; as a
consequence, the two `runtime_error` throws of `ProcessDriverCode` are
unreachable for every driver configuration and memory image. -/
theorem opcode_matrix_consistent_no_throw :
    (∀ op : Nat,
      (RequiresRelocation (GetOpcodeAddressingMode op) = true → GetOpcodeSize op = 3) ∧
      (RequiresZeroPageAdjustment (GetOpcodeAddressingMode op) = true → GetOpcodeSize op = 2)) ∧
    (∀ cfg mem, (ProcessDriverCode cfg mem).isMalformed = false) := by
  constructor
  · intro op
    exact ⟨fun h => size_of_reloc h, fun h => size_of_zp h⟩
  · intro cfg mem
    unfold ProcessDriverCode
    exact walkAux_not_malformed cfg _ _ mem _

/-- Witness for C1 at a concrete configuration and the all-zero memory. -/
theorem abs_operand_rewrite_witness :
    (0x1000 : Nat) < 0x10000 ∧ (0x2000 : Nat) < 0x10000 ∧
    (0x1000 : Nat) + 4 ≤ 0xFFFD ∧
    (∃ memF aF tr,
      ProcessDriverCode ⟨0x1000, 4, 2, 2, 0x2000⟩ (fun _ => 0) = WalkOut.done memF aF tr ∧
      ∀ e ∈ tr, RequiresRelocation (GetOpcodeAddressingMode e.2) = true →
        memF.GetWord (e.1 + 1) =
          (if 0xD000 ≤ Mem.GetWord (fun _ => 0) (e.1 + 1) ∧
              Mem.GetWord (fun _ => 0) (e.1 + 1) ≤ 0xDFFF then
            Mem.GetWord (fun _ => 0) (e.1 + 1)
          else
            (Mem.GetWord (fun _ => 0) (e.1 + 1) + (0x10000 + 0x2000 - 0x1000)) % 0x10000)) :=
  ⟨by norm_num, by norm_num, by norm_num,
    abs_operand_rewrite ⟨0x1000, 4, 2, 2, 0x2000⟩ (fun _ => 0)
      (by norm_num) (by norm_num) (by norm_num)⟩

/-- Witness for C2 at a concrete configuration and the all-zero memory. -/
theorem zp_operand_rewrite_witness :
    (2 : Nat) < 256 ∧ (0x40 : Nat) < 256 ∧ (0x1000 : Nat) + 4 ≤ 0xFFFD ∧
    (∃ memF aF tr,
      ProcessDriverCode ⟨0x1000, 4, 2, 0x40, 0x2000⟩ (fun _ => 0) = WalkOut.done memF aF tr ∧
      ∀ e ∈ tr, RequiresZeroPageAdjustment (GetOpcodeAddressingMode e.2) = true →
        memF.get (e.1 + 1) =
          (0x40 + (256 + Mem.get (fun _ => 0) (e.1 + 1) - 2)) % 256) :=
  ⟨by norm_num, by norm_num, by norm_num,
    zp_operand_rewrite ⟨0x1000, 4, 2, 0x40, 0x2000⟩ (fun _ => 0)
      (by norm_num) (by norm_num) (by norm_num)⟩

/-- Witness for the amended C3 at a concrete configuration. -/
theorem walk_terminates_lands_near_bottom_witness :
    (0 : Nat) < 1 ∧ (0x1000 : Nat) + 1 ≤ 0xFFFD ∧
    (∃ memF aF tr,
      ProcessDriverCode ⟨0x1000, 1, 2, 2, 0x1000⟩
          (fun x => if x = 0x1000 then 0x0D else 0) = WalkOut.done memF aF tr ∧
      0x1000 + 1 ≤ aF ∧ aF ≤ 0x1000 + 1 + 2 ∧
      ∀ e ∈ tr, 0x1000 ≤ e.1 ∧ e.1 < 0x1000 + 1) :=
  ⟨by norm_num, by norm_num,
    walk_terminates_lands_near_bottom ⟨0x1000, 1, 2, 2, 0x1000⟩
      (fun x => if x = 0x1000 then 0x0D else 0) (by norm_num) (by norm_num)⟩

/-- Witness for C4: `0x4C` (`JMP abs`) is a 3-byte absolute opcode, `0xA5`
(`LDA zp`) a 2-byte zero-page opcode, and a concrete walk does not throw. -/
theorem opcode_matrix_consistent_no_throw_witness :
    (RequiresRelocation (GetOpcodeAddressingMode 0x4C) = true ∧ GetOpcodeSize 0x4C = 3) ∧
    (RequiresZeroPageAdjustment (GetOpcodeAddressingMode 0xA5) = true ∧ GetOpcodeSize 0xA5 = 2) ∧
    (ProcessDriverCode ⟨0x1000, 4, 2, 2, 0x2000⟩ (fun _ => 0)).isMalformed = false :=
  ⟨⟨by decide, (opcode_matrix_consistent_no_throw.1 0x4C).1 (by decide)⟩,
   ⟨by decide, (opcode_matrix_consistent_no_throw.1 0xA5).2 (by decide)⟩,
   opcode_matrix_consistent_no_throw.2 ⟨0x1000, 4, 2, 2, 0x2000⟩ (fun _ => 0)⟩

/-! ### Claim theorems for the memory container round trip (C9) -/

theorem getD_map_range (f : Nat → Nat) (n i : Nat) (h : i < n) (d : Nat) :
    ((List.range n).map f).getD i d = f i := by
  simp [List.getD_eq_getElem?_getD, List.getElem?_map, List.getElem?_range h]

theorem LoadFromPRG_eq (m : Mem) (prg : List Nat) (load : Nat)
    (hload : load = prg.getD 0 0 % 256 + prg.getD 1 0 % 256 * 256)
    (h3 : 3 ≤ prg.length) (hfit : load + (prg.length - 2) ≤ 0x10000) :
    LoadFromPRG m prg = some (fun x =>
      if load ≤ x ∧ x < load + (prg.length - 2) then
        prg.getD (x - load + 2) 0 % 256
      else m x) := by
  subst hload
  simp only [LoadFromPRG]
  rw [if_neg (by omega), if_neg (by omega)]

/-- C9.  Exporting a window `[top, bottom)` with `ExportToPRG` and loading
the resulting PRG back with `LoadFromPRG` succeeds, the PRG's first two
bytes are `top` little-endian, and the loaded container agrees with the
source on every address of the window. -/
theorem export_load_roundtrip (m m2 : Mem) (top bottom : Nat)
    (h1 : top < bottom) (h2 : bottom < 0x10000) :
    ∃ prg, ExportToPRG m top bottom = Except.ok prg ∧
      prg.getD 0 0 = top % 256 ∧ prg.getD 1 0 = top / 256 ∧
      ∃ m2', LoadFromPRG m2 prg = some m2' ∧
        ∀ a, top ≤ a → a < bottom → m2'.get a = m.get a := by
  have htop : top < 0x10000 := lt_trans h1 h2
  have hmt : top % 0x10000 = top := Nat.mod_eq_of_lt htop
  have hmb : bottom % 0x10000 = bottom := Nat.mod_eq_of_lt h2
  refine ⟨top % 256 :: top / 256 % 256 ::
      (List.range (bottom - top)).map (fun i => m.get (top + i)), ?_, rfl, ?_, ?_⟩
  · unfold ExportToPRG
    rw [hmt, hmb, if_neg (by omega)]
    rfl
  · show top / 256 % 256 = top / 256
    omega
  · have hlen : (top % 256 :: top / 256 % 256 ::
        (List.range (bottom - top)).map (fun i => m.get (top + i))).length =
        2 + (bottom - top) := by
      simp [List.length_map, List.length_range]
      omega
    have hload : top = (top % 256 :: top / 256 % 256 ::
        (List.range (bottom - top)).map (fun i => m.get (top + i))).getD 0 0 % 256 +
        (top % 256 :: top / 256 % 256 ::
        (List.range (bottom - top)).map (fun i => m.get (top + i))).getD 1 0 % 256 * 256 := by
      show top = top % 256 % 256 + top / 256 % 256 % 256 * 256
      omega
    refine ⟨_, LoadFromPRG_eq m2 _ top hload (by omega) (by omega), ?_⟩
    intro a ha1 ha2
    have ha3 : a < 0x10000 := by omega
    have hL : ∀ f : Mem, Mem.get f a = f a % 256 := by
      intro f
      unfold Mem.get
      rw [Nat.mod_eq_of_lt ha3]
    rw [hL]
    rw [hlen]
    have hcond : top ≤ a ∧ a < top + (2 + (bottom - top) - 2) := ⟨ha1, by omega⟩
    rw [if_pos hcond]
    have hc2 : (top % 256 :: top / 256 % 256 ::
        (List.range (bottom - top)).map (fun i => m.get (top + i))).getD (a - top + 2) 0 =
        ((List.range (bottom - top)).map (fun i => m.get (top + i))).getD (a - top) 0 := rfl
    rw [hc2, getD_map_range _ _ _ (by omega)]
    have heqa : top + (a - top) = a := by omega
    rw [heqa]
    have := m.get_lt a
    omega

/-- Witness for C9 at a concrete memory and window. -/
theorem export_load_roundtrip_witness :
    (0x10 : Nat) < 0x13 ∧ (0x13 : Nat) < 0x10000 ∧
    (∃ prg, ExportToPRG (fun x => x) 0x10 0x13 = Except.ok prg ∧
      prg.getD 0 0 = 0x10 % 256 ∧ prg.getD 1 0 = 0x10 / 256 ∧
      ∃ m2', LoadFromPRG (fun _ => 0) prg = some m2' ∧
        ∀ a, 0x10 ≤ a → a < 0x13 → m2'.get a = Mem.get (fun x => x) a) :=
  ⟨by norm_num, by norm_num,
    export_load_roundtrip (fun x => x) (fun _ => 0) 0x10 0x13 (by norm_num) (by norm_num)⟩

/-! ### Claim theorem for the frame property of Pack (C10) -/

/-- C10.  `PackerSimple::Pack` performs the relocation, the data move and
the source-range clearing on an internal copy of the memory: the caller's
64 KiB container is byte-for-byte unchanged by the call, on every
configuration, input memory and outcome. -/
theorem pack_preserves_caller (cfg : DriverConfig) (st : PackState) :
    ∀ a, ((PackRun cfg st).1).caller.get a = st.caller.get a := by
  intro a
  unfold PackRun
  cases hw : ProcessDriverCode cfg (fun i => if i < 0x10000 then st.caller.get i else 0) with
  | done wmem aF tr => simp [hw]
  | malformed e => simp [hw]
  | spin m2 a2 t2 => simp [hw]

end SF2Pack

namespace P2S

/-- C6: `Scanners` runs the check functions of `ScanFunc` in list order and
stops at the first one returning nonzero; whenever every check before `f`
fails (threading the state to `s1`) and `f` matches with result `(z, s2)`,
the whole scan returns exactly `f`'s result and no check after `f`
contributes. -/
theorem scanners_first_match_wins
    (pre post : List (ScanState → Int × ScanState))
    (f : ScanState → Int × ScanState) (s s1 s2 : ScanState) (z : Int)
    (hsplit : ScanFunc = pre ++ f :: post)
    (hpre : Scanners pre s = (0, s1)) (hf : f s1 = (z, s2)) (hz : z ≠ 0) :
    Scanners ScanFunc s = (z, s2) := by
  rw [hsplit]
  clear hsplit
  induction pre generalizing s with
  | nil =>
    have hs : s = s1 := by
      have h2 := congrArg Prod.snd hpre
      simpa [Scanners] using h2
    subst hs
    simp only [List.nil_append, Scanners, hf]
    simp [hz]
  | cons g gs ih =>
    simp only [Scanners] at hpre
    by_cases hg : (g s).1 = 0
    · rw [if_neg (not_not_intro hg)] at hpre
      simp only [List.cons_append, Scanners]
      rw [if_neg (not_not_intro hg)]
      exact ih (g s).2 hpre
    · rw [if_pos hg] at hpre
      exact absurd (congrArg Prod.fst hpre) hg

theorem scanners_first_match_wins_witness :
    (Chk_FC (initState (fun i => if i = 0x02 then 0x4c else if i = 0x08 then 0xad
        else if i = 0x0f then 0xc9 else if i = 0x0b then 0xc9
        else if i = 0x0d then 0xf0 else if i = 0x0e then 0x07 else 0) 0x200)).1 ≠ 0 ∧
    Scanners ScanFunc (initState (fun i => if i = 0x02 then 0x4c else if i = 0x08 then 0xad
        else if i = 0x0f then 0xc9 else if i = 0x0b then 0xc9
        else if i = 0x0d then 0xf0 else if i = 0x0e then 0x07 else 0) 0x200) =
      Chk_FC (initState (fun i => if i = 0x02 then 0x4c else if i = 0x08 then 0xad
        else if i = 0x0f then 0xc9 else if i = 0x0b then 0xc9
        else if i = 0x0d then 0xf0 else if i = 0x0e then 0x07 else 0) 0x200) :=
  ⟨by decide,
   scanners_first_match_wins [] ScanFunc.tail Chk_FC _ _ _ _ rfl rfl rfl (by decide)⟩

/-- C7: the Digitronix probe of `Chk_Soundmon` dereferences
`*(unsigned int*)(p + 0xcbdd - loadaddr + 2)` although the guards only
ensure `fsiz + loadaddr > 0xcb00`: on a 0x2b01-byte file with load address
a000 whose bytes steer the scan into that branch, the check reads file
offset 0x2bdf, which is past the payload. -/
theorem soundmon_reads_past_payload :
    (0x2bdf : Int) ∈ Chk_Soundmon_reads (initState pFailSoundmon 0x2b01) ∧
    (initState pFailSoundmon 0x2b01).fsiz = 0x2b01 ∧
    ¬((0x2bdf : Int) < (initState pFailSoundmon 0x2b01).fsiz) := by
  refine ⟨by decide, rfl, by decide⟩

/-- C8: the payload written by `main` fits the C64 address space: with the
effective load address recomputed from the prepend bytes (`NewLoadAddr`),
when `fsiz + new_load_addr + extra - 2` stays at or below 0x10000 the
payload is written in full, and when it exceeds 0x10000 the written length
is shortened by exactly the excess, so that the final
`length + new_load_addr + extra - 2` equals 0x10000; the output is always
header, prepend bytes and the (possibly truncated) payload. -/
theorem silent_truncation_to_64k (s : ScanState) :
    ((MainOutputOf s).length = 0x7c + s.extra + (FinalPayloadLen s).toNat) ∧
    (s.fsiz + NewLoadAddr s + s.extra - 2 ≤ 0x10000 → FinalPayloadLen s = s.fsiz) ∧
    (0x10000 < s.fsiz + NewLoadAddr s + s.extra - 2 →
      s.fsiz - FinalPayloadLen s = s.fsiz + NewLoadAddr s + s.extra - 2 - 0x10000 ∧
      FinalPayloadLen s + NewLoadAddr s + s.extra - 2 = 0x10000) := by
  refine ⟨?_, ?_, ?_⟩
  · simp only [MainOutputOf, List.length_append, List.length_map, List.length_range]
  · intro h
    simp only [FinalPayloadLen]
    split <;> omega
  · intro h
    simp only [FinalPayloadLen]
    rw [if_pos (by omega)]
    omega

theorem silent_truncation_to_64k_witness :
    0x10000 < (0x10003 : Int) +
        NewLoadAddr { p := fun _ => 0, fsiz := 0x10003, loadaddr := 0x1000,
                      initaddr := 0x1000, playaddr := 0x1003, ids := "Generic",
                      extra := 0, extrabytes := fun _ => 0, psidh := psidh0 } +
        ({ p := fun _ => 0, fsiz := 0x10003, loadaddr := 0x1000,
           initaddr := 0x1000, playaddr := 0x1003, ids := "Generic",
           extra := 0, extrabytes := fun _ => 0, psidh := psidh0 } : ScanState).extra - 2 ∧
    ((0x10003 : Int) -
        FinalPayloadLen { p := fun _ => 0, fsiz := 0x10003, loadaddr := 0x1000,
                          initaddr := 0x1000, playaddr := 0x1003, ids := "Generic",
                          extra := 0, extrabytes := fun _ => 0, psidh := psidh0 } =
      0x10003 + 0x1000 + 0 - 2 - 0x10000) :=
  ⟨by decide,
   by
    have h := (silent_truncation_to_64k
      { p := fun _ => 0, fsiz := 0x10003, loadaddr := 0x1000,
        initaddr := 0x1000, playaddr := 0x1003, ids := "Generic",
        extra := 0, extrabytes := fun _ => 0, psidh := psidh0 }).2.2 (by decide)
    exact h.1.trans (by decide)⟩

/-- C5: when the scan leaves the initial state untouched (no check in
`ScanFunc` matches, and none of the dirty failure paths fired), the
conversion keeps the classic defaults: identity `"Generic"`, no prepend
bytes, init = L and play = L + 3 for the PRG load address L, and the
output is exactly the patched 0x7c-byte header followed by the unmodified
payload. -/
theorem generic_default_conversion (pf : Int → Nat) (n : Int)
    (hnone : Scanners ScanFunc (initState pf n) = (0, initState pf n))
    (hfit : n + (initState pf n).loadaddr - 2 ≤ 0xffff) :
    (Scanners ScanFunc (initState pf n)).2.ids = "Generic" ∧
    (Scanners ScanFunc (initState pf n)).2.extra = 0 ∧
    (Scanners ScanFunc (initState pf n)).2.initaddr = (initState pf n).loadaddr ∧
    (Scanners ScanFunc (initState pf n)).2.playaddr = (initState pf n).loadaddr + 3 ∧
    MainOutput pf n =
      (List.range 0x7c).map (specGenericHeader (initState pf n).loadaddr) ++
      (List.range n.toNat).map (fun (i : Nat) => pf (i : Int) % 256) := by
  have hnla : NewLoadAddr (initState pf n) = (initState pf n).loadaddr := rfl
  have hfp : FinalPayloadLen (initState pf n) = n := by
    have hx : ((initState pf n).extra : Int) = 0 := rfl
    have hfs : (initState pf n).fsiz = n := rfl
    simp only [FinalPayloadLen, hnla, hx, hfs]
    rw [if_neg (by omega)]
  refine ⟨by rw [hnone]; rfl, by rw [hnone]; rfl, by rw [hnone]; rfl,
    by rw [hnone]; rfl, ?_⟩
  show MainOutputOf (Scanners ScanFunc (initState pf n)).2 = _
  rw [hnone]
  simp only [MainOutputOf, hfp]
  rfl

theorem generic_default_conversion_witness :
    Scanners ScanFunc (initState (fun i => if i = 1 then 0x10 else 0) 66) =
      (0, initState (fun i => if i = 1 then 0x10 else 0) 66) ∧
    (66 : Int) + (initState (fun i => if i = 1 then 0x10 else 0) 66).loadaddr - 2 ≤
      0xffff ∧
    ((Scanners ScanFunc (initState (fun i => if i = 1 then 0x10 else 0) 66)).2.ids =
      "Generic" ∧
     (Scanners ScanFunc (initState (fun i => if i = 1 then 0x10 else 0) 66)).2.extra =
      0 ∧
     (Scanners ScanFunc (initState (fun i => if i = 1 then 0x10 else 0) 66)).2.initaddr =
      (initState (fun i => if i = 1 then 0x10 else 0) 66).loadaddr ∧
     (Scanners ScanFunc (initState (fun i => if i = 1 then 0x10 else 0) 66)).2.playaddr =
      (initState (fun i => if i = 1 then 0x10 else 0) 66).loadaddr + 3 ∧
     MainOutput (fun i => if i = 1 then 0x10 else 0) 66 =
      (List.range 0x7c).map
        (specGenericHeader (initState (fun i => if i = 1 then 0x10 else 0) 66).loadaddr) ++
      (List.range (66 : Int).toNat).map (fun (i : Nat) =>
        (fun i => if i = 1 then 0x10 else 0) (i : Int) % 256)) :=
  ⟨rfl, by decide,
   generic_default_conversion (fun i => if i = 1 then 0x10 else 0) 66 rfl (by decide)⟩

end P2S
